import Mathlib

/-!
# oneMKL compile-time BLAS router: declarations of `blas_ct_templates.hpp`

The header `include/onemkl/blas/detail/blas_ct_templates.hpp` consists of function-template
declarations only.  The embedding records every declaration as data: its template parameter
list, its specifiers, its return type, its name and its function parameters with their C++
types, names and default arguments.

An entry of a declaration list reads
`⟨template parameters, static, inline, return type, name, parameters, has a body⟩`, a parameter
reads `⟨type, name, default argument⟩`; the comment above an entry gives the line of the header
where the declaration starts.
-/

namespace onemkl
namespace blas

/-- C++ types occurring in the signatures of the header. -/
inductive CType where
  /-- `void` -/
  | void
  /-- `cl::sycl::queue` -/
  | queue
  /-- `cl::sycl::event` -/
  | event
  /-- `std::int64_t` -/
  | int64
  /-- `int32_t` -/
  | int32
  /-- `int8_t` -/
  | int8
  /-- `uint8_t` -/
  | uint8
  /-- `half` -/
  | half
  /-- `float` -/
  | float
  /-- `double` -/
  | double
  /-- `onemkl::library` -/
  | library
  /-- `onemkl::backend` -/
  | backend
  /-- `transpose` (enumeration of namespace onemkl) -/
  | transpose
  /-- `uplo` -/
  | uplo
  /-- `diag` -/
  | diag
  /-- `side` -/
  | side
  /-- `offset` -/
  | offset
  /-- `std::complex<T>` -/
  | complex (t : CType)
  /-- `cl::sycl::buffer<T, dims>` -/
  | buffer (t : CType) (dims : Nat)
  /-- `cl::sycl::vector_class<T>` -/
  | vectorClass (t : CType)
  /-- `const T` -/
  | const (t : CType)
  /-- `T *` -/
  | ptr (t : CType)
  /-- `T &` -/
  | lref (t : CType)
  deriving DecidableEq, Repr

/-- Default arguments occurring in the header: only `= {}`. -/
inductive DefaultArg where
  | emptyBraces
  deriving DecidableEq, Repr

/-- A function parameter: type, name, default argument if any. -/
structure Param where
  type : CType
  name : String
  default : Option DefaultArg
  deriving DecidableEq, Repr

/-- A (non-type) template parameter: type and name. -/
structure TemplateParam where
  type : CType
  name : String
  deriving DecidableEq, Repr

/-- A function-template declaration of the header. -/
structure Decl where
  templateParams : List TemplateParam
  isStatic : Bool
  isInline : Bool
  returnType : CType
  name : String
  params : List Param
  hasBody : Bool
  deriving DecidableEq, Repr

namespace buffer

/-- The `syr2` overloads of the `// Buffer APIs` section (blas_ct_templates.hpp:39). -/
def syr2 : List Decl := [
  -- line 39
  ⟨[⟨.library, "lib"⟩, ⟨.backend, "backend"⟩], true, true, .void, "syr2", [
    ⟨.lref .queue, "queue", none⟩, ⟨.uplo, "upper_lower", none⟩, ⟨.int64, "n", none⟩,
    ⟨.float, "alpha", none⟩, ⟨.lref (.buffer .float 1), "x", none⟩, ⟨.int64, "incx", none⟩,
    ⟨.lref (.buffer .float 1), "y", none⟩, ⟨.int64, "incy", none⟩,
    ⟨.lref (.buffer .float 1), "a", none⟩, ⟨.int64, "lda", none⟩], false⟩,
  -- line 45
  ⟨[⟨.library, "lib"⟩, ⟨.backend, "backend"⟩], true, true, .void, "syr2", [
    ⟨.lref .queue, "queue", none⟩, ⟨.uplo, "upper_lower", none⟩, ⟨.int64, "n", none⟩,
    ⟨.double, "alpha", none⟩, ⟨.lref (.buffer .double 1), "x", none⟩, ⟨.int64, "incx", none⟩,
    ⟨.lref (.buffer .double 1), "y", none⟩, ⟨.int64, "incy", none⟩,
    ⟨.lref (.buffer .double 1), "a", none⟩, ⟨.int64, "lda", none⟩], false⟩
]

/-- The `scal` overloads of the `// Buffer APIs` section (blas_ct_templates.hpp:51). -/
def scal : List Decl := [
  -- line 51
  ⟨[⟨.library, "lib"⟩, ⟨.backend, "backend"⟩], true, true, .void, "scal", [
    ⟨.lref .queue, "queue", none⟩, ⟨.int64, "n", none⟩, ⟨.float, "alpha", none⟩,
    ⟨.lref (.buffer .float 1), "x", none⟩, ⟨.int64, "incx", none⟩], false⟩,
  -- line 55
  ⟨[⟨.library, "lib"⟩, ⟨.backend, "backend"⟩], true, true, .void, "scal", [
    ⟨.lref .queue, "queue", none⟩, ⟨.int64, "n", none⟩, ⟨.double, "alpha", none⟩,
    ⟨.lref (.buffer .double 1), "x", none⟩, ⟨.int64, "incx", none⟩], false⟩,
  -- line 59
  ⟨[⟨.library, "lib"⟩, ⟨.backend, "backend"⟩], true, true, .void, "scal", [
    ⟨.lref .queue, "queue", none⟩, ⟨.int64, "n", none⟩, ⟨.complex .float, "alpha", none⟩,
    ⟨.lref (.buffer (.complex .float) 1), "x", none⟩, ⟨.int64, "incx", none⟩], false⟩,
  -- line 63
  ⟨[⟨.library, "lib"⟩, ⟨.backend, "backend"⟩], true, true, .void, "scal", [
    ⟨.lref .queue, "queue", none⟩, ⟨.int64, "n", none⟩, ⟨.complex .double, "alpha", none⟩,
    ⟨.lref (.buffer (.complex .double) 1), "x", none⟩, ⟨.int64, "incx", none⟩], false⟩,
  -- line 67
  ⟨[⟨.library, "lib"⟩, ⟨.backend, "backend"⟩], true, true, .void, "scal", [
    ⟨.lref .queue, "queue", none⟩, ⟨.int64, "n", none⟩, ⟨.float, "alpha", none⟩,
    ⟨.lref (.buffer (.complex .float) 1), "x", none⟩, ⟨.int64, "incx", none⟩], false⟩,
  -- line 71
  ⟨[⟨.library, "lib"⟩, ⟨.backend, "backend"⟩], true, true, .void, "scal", [
    ⟨.lref .queue, "queue", none⟩, ⟨.int64, "n", none⟩, ⟨.double, "alpha", none⟩,
    ⟨.lref (.buffer (.complex .double) 1), "x", none⟩, ⟨.int64, "incx", none⟩], false⟩
]

/-- The `trmv` overloads of the `// Buffer APIs` section (blas_ct_templates.hpp:75). -/
def trmv : List Decl := [
  -- line 75
  ⟨[⟨.library, "lib"⟩, ⟨.backend, "backend"⟩], true, true, .void, "trmv", [
    ⟨.lref .queue, "queue", none⟩, ⟨.uplo, "upper_lower", none⟩, ⟨.transpose, "trans", none⟩,
    ⟨.diag, "unit_diag", none⟩, ⟨.int64, "n", none⟩, ⟨.lref (.buffer .float 1), "a", none⟩,
    ⟨.int64, "lda", none⟩, ⟨.lref (.buffer .float 1), "x", none⟩, ⟨.int64, "incx", none⟩], false⟩,
  -- line 80
  ⟨[⟨.library, "lib"⟩, ⟨.backend, "backend"⟩], true, true, .void, "trmv", [
    ⟨.lref .queue, "queue", none⟩, ⟨.uplo, "upper_lower", none⟩, ⟨.transpose, "trans", none⟩,
    ⟨.diag, "unit_diag", none⟩, ⟨.int64, "n", none⟩, ⟨.lref (.buffer .double 1), "a", none⟩,
    ⟨.int64, "lda", none⟩, ⟨.lref (.buffer .double 1), "x", none⟩, ⟨.int64, "incx", none⟩], false⟩,
  -- line 85
  ⟨[⟨.library, "lib"⟩, ⟨.backend, "backend"⟩], true, true, .void, "trmv", [
    ⟨.lref .queue, "queue", none⟩, ⟨.uplo, "upper_lower", none⟩, ⟨.transpose, "trans", none⟩,
    ⟨.diag, "unit_diag", none⟩, ⟨.int64, "n", none⟩,
    ⟨.lref (.buffer (.complex .float) 1), "a", none⟩, ⟨.int64, "lda", none⟩,
    ⟨.lref (.buffer (.complex .float) 1), "x", none⟩, ⟨.int64, "incx", none⟩], false⟩,
  -- line 91
  ⟨[⟨.library, "lib"⟩, ⟨.backend, "backend"⟩], true, true, .void, "trmv", [
    ⟨.lref .queue, "queue", none⟩, ⟨.uplo, "upper_lower", none⟩, ⟨.transpose, "trans", none⟩,
    ⟨.diag, "unit_diag", none⟩, ⟨.int64, "n", none⟩,
    ⟨.lref (.buffer (.complex .double) 1), "a", none⟩, ⟨.int64, "lda", none⟩,
    ⟨.lref (.buffer (.complex .double) 1), "x", none⟩, ⟨.int64, "incx", none⟩], false⟩
]

/-- The `tpmv` overloads of the `// Buffer APIs` section (blas_ct_templates.hpp:97). -/
def tpmv : List Decl := [
  -- line 97
  ⟨[⟨.library, "lib"⟩, ⟨.backend, "backend"⟩], true, true, .void, "tpmv", [
    ⟨.lref .queue, "queue", none⟩, ⟨.uplo, "upper_lower", none⟩, ⟨.transpose, "trans", none⟩,
    ⟨.diag, "unit_diag", none⟩, ⟨.int64, "n", none⟩, ⟨.lref (.buffer .float 1), "a", none⟩,
    ⟨.lref (.buffer .float 1), "x", none⟩, ⟨.int64, "incx", none⟩], false⟩,
  -- line 102
  ⟨[⟨.library, "lib"⟩, ⟨.backend, "backend"⟩], true, true, .void, "tpmv", [
    ⟨.lref .queue, "queue", none⟩, ⟨.uplo, "upper_lower", none⟩, ⟨.transpose, "trans", none⟩,
    ⟨.diag, "unit_diag", none⟩, ⟨.int64, "n", none⟩, ⟨.lref (.buffer .double 1), "a", none⟩,
    ⟨.lref (.buffer .double 1), "x", none⟩, ⟨.int64, "incx", none⟩], false⟩,
  -- line 107
  ⟨[⟨.library, "lib"⟩, ⟨.backend, "backend"⟩], true, true, .void, "tpmv", [
    ⟨.lref .queue, "queue", none⟩, ⟨.uplo, "upper_lower", none⟩, ⟨.transpose, "trans", none⟩,
    ⟨.diag, "unit_diag", none⟩, ⟨.int64, "n", none⟩,
    ⟨.lref (.buffer (.complex .float) 1), "a", none⟩,
    ⟨.lref (.buffer (.complex .float) 1), "x", none⟩, ⟨.int64, "incx", none⟩], false⟩,
  -- line 112
  ⟨[⟨.library, "lib"⟩, ⟨.backend, "backend"⟩], true, true, .void, "tpmv", [
    ⟨.lref .queue, "queue", none⟩, ⟨.uplo, "upper_lower", none⟩, ⟨.transpose, "trans", none⟩,
    ⟨.diag, "unit_diag", none⟩, ⟨.int64, "n", none⟩,
    ⟨.lref (.buffer (.complex .double) 1), "a", none⟩,
    ⟨.lref (.buffer (.complex .double) 1), "x", none⟩, ⟨.int64, "incx", none⟩], false⟩
]

/-- The `spr` overloads of the `// Buffer APIs` section (blas_ct_templates.hpp:117). -/
def spr : List Decl := [
  -- line 117
  ⟨[⟨.library, "lib"⟩, ⟨.backend, "backend"⟩], true, true, .void, "spr", [
    ⟨.lref .queue, "queue", none⟩, ⟨.uplo, "upper_lower", none⟩, ⟨.int64, "n", none⟩,
    ⟨.float, "alpha", none⟩, ⟨.lref (.buffer .float 1), "x", none⟩, ⟨.int64, "incx", none⟩,
    ⟨.lref (.buffer .float 1), "a", none⟩], false⟩,
  -- line 122
  ⟨[⟨.library, "lib"⟩, ⟨.backend, "backend"⟩], true, true, .void, "spr", [
    ⟨.lref .queue, "queue", none⟩, ⟨.uplo, "upper_lower", none⟩, ⟨.int64, "n", none⟩,
    ⟨.double, "alpha", none⟩, ⟨.lref (.buffer .double 1), "x", none⟩, ⟨.int64, "incx", none⟩,
    ⟨.lref (.buffer .double 1), "a", none⟩], false⟩
]

/-- The `hpmv` overloads of the `// Buffer APIs` section (blas_ct_templates.hpp:127). -/
def hpmv : List Decl := [
  -- line 127
  ⟨[⟨.library, "lib"⟩, ⟨.backend, "backend"⟩], true, true, .void, "hpmv", [
    ⟨.lref .queue, "queue", none⟩, ⟨.uplo, "upper_lower", none⟩, ⟨.int64, "n", none⟩,
    ⟨.complex .float, "alpha", none⟩, ⟨.lref (.buffer (.complex .float) 1), "a", none⟩,
    ⟨.lref (.buffer (.complex .float) 1), "x", none⟩, ⟨.int64, "incx", none⟩,
    ⟨.complex .float, "beta", none⟩, ⟨.lref (.buffer (.complex .float) 1), "y", none⟩,
    ⟨.int64, "incy", none⟩], false⟩,
  -- line 134
  ⟨[⟨.library, "lib"⟩, ⟨.backend, "backend"⟩], true, true, .void, "hpmv", [
    ⟨.lref .queue, "queue", none⟩, ⟨.uplo, "upper_lower", none⟩, ⟨.int64, "n", none⟩,
    ⟨.complex .double, "alpha", none⟩, ⟨.lref (.buffer (.complex .double) 1), "a", none⟩,
    ⟨.lref (.buffer (.complex .double) 1), "x", none⟩, ⟨.int64, "incx", none⟩,
    ⟨.complex .double, "beta", none⟩, ⟨.lref (.buffer (.complex .double) 1), "y", none⟩,
    ⟨.int64, "incy", none⟩], false⟩
]

/-- The `syrk` overloads of the `// Buffer APIs` section (blas_ct_templates.hpp:141). -/
def syrk : List Decl := [
  -- line 141
  ⟨[⟨.library, "lib"⟩, ⟨.backend, "backend"⟩], true, true, .void, "syrk", [
    ⟨.lref .queue, "queue", none⟩, ⟨.uplo, "upper_lower", none⟩, ⟨.transpose, "trans", none⟩,
    ⟨.int64, "n", none⟩, ⟨.int64, "k", none⟩, ⟨.float, "alpha", none⟩,
    ⟨.lref (.buffer .float 1), "a", none⟩, ⟨.int64, "lda", none⟩, ⟨.float, "beta", none⟩,
    ⟨.lref (.buffer .float 1), "c", none⟩, ⟨.int64, "ldc", none⟩], false⟩,
  -- line 147
  ⟨[⟨.library, "lib"⟩, ⟨.backend, "backend"⟩], true, true, .void, "syrk", [
    ⟨.lref .queue, "queue", none⟩, ⟨.uplo, "upper_lower", none⟩, ⟨.transpose, "trans", none⟩,
    ⟨.int64, "n", none⟩, ⟨.int64, "k", none⟩, ⟨.double, "alpha", none⟩,
    ⟨.lref (.buffer .double 1), "a", none⟩, ⟨.int64, "lda", none⟩, ⟨.double, "beta", none⟩,
    ⟨.lref (.buffer .double 1), "c", none⟩, ⟨.int64, "ldc", none⟩], false⟩,
  -- line 153
  ⟨[⟨.library, "lib"⟩, ⟨.backend, "backend"⟩], true, true, .void, "syrk", [
    ⟨.lref .queue, "queue", none⟩, ⟨.uplo, "upper_lower", none⟩, ⟨.transpose, "trans", none⟩,
    ⟨.int64, "n", none⟩, ⟨.int64, "k", none⟩, ⟨.complex .float, "alpha", none⟩,
    ⟨.lref (.buffer (.complex .float) 1), "a", none⟩, ⟨.int64, "lda", none⟩,
    ⟨.complex .float, "beta", none⟩, ⟨.lref (.buffer (.complex .float) 1), "c", none⟩,
    ⟨.int64, "ldc", none⟩], false⟩,
  -- line 160
  ⟨[⟨.library, "lib"⟩, ⟨.backend, "backend"⟩], true, true, .void, "syrk", [
    ⟨.lref .queue, "queue", none⟩, ⟨.uplo, "upper_lower", none⟩, ⟨.transpose, "trans", none⟩,
    ⟨.int64, "n", none⟩, ⟨.int64, "k", none⟩, ⟨.complex .double, "alpha", none⟩,
    ⟨.lref (.buffer (.complex .double) 1), "a", none⟩, ⟨.int64, "lda", none⟩,
    ⟨.complex .double, "beta", none⟩, ⟨.lref (.buffer (.complex .double) 1), "c", none⟩,
    ⟨.int64, "ldc", none⟩], false⟩
]

/-- The `her2` overloads of the `// Buffer APIs` section (blas_ct_templates.hpp:167). -/
def her2 : List Decl := [
  -- line 167
  ⟨[⟨.library, "lib"⟩, ⟨.backend, "backend"⟩], true, true, .void, "her2", [
    ⟨.lref .queue, "queue", none⟩, ⟨.uplo, "upper_lower", none⟩, ⟨.int64, "n", none⟩,
    ⟨.complex .float, "alpha", none⟩, ⟨.lref (.buffer (.complex .float) 1), "x", none⟩,
    ⟨.int64, "incx", none⟩, ⟨.lref (.buffer (.complex .float) 1), "y", none⟩,
    ⟨.int64, "incy", none⟩, ⟨.lref (.buffer (.complex .float) 1), "a", none⟩, ⟨.int64, "lda", none⟩], false⟩,
  -- line 174
  ⟨[⟨.library, "lib"⟩, ⟨.backend, "backend"⟩], true, true, .void, "her2", [
    ⟨.lref .queue, "queue", none⟩, ⟨.uplo, "upper_lower", none⟩, ⟨.int64, "n", none⟩,
    ⟨.complex .double, "alpha", none⟩, ⟨.lref (.buffer (.complex .double) 1), "x", none⟩,
    ⟨.int64, "incx", none⟩, ⟨.lref (.buffer (.complex .double) 1), "y", none⟩,
    ⟨.int64, "incy", none⟩, ⟨.lref (.buffer (.complex .double) 1), "a", none⟩,
    ⟨.int64, "lda", none⟩], false⟩
]

/-- The `hbmv` overloads of the `// Buffer APIs` section (blas_ct_templates.hpp:181). -/
def hbmv : List Decl := [
  -- line 181
  ⟨[⟨.library, "lib"⟩, ⟨.backend, "backend"⟩], true, true, .void, "hbmv", [
    ⟨.lref .queue, "queue", none⟩, ⟨.uplo, "upper_lower", none⟩, ⟨.int64, "n", none⟩,
    ⟨.int64, "k", none⟩, ⟨.complex .float, "alpha", none⟩,
    ⟨.lref (.buffer (.complex .float) 1), "a", none⟩, ⟨.int64, "lda", none⟩,
    ⟨.lref (.buffer (.complex .float) 1), "x", none⟩, ⟨.int64, "incx", none⟩,
    ⟨.complex .float, "beta", none⟩, ⟨.lref (.buffer (.complex .float) 1), "y", none⟩,
    ⟨.int64, "incy", none⟩], false⟩,
  -- line 188
  ⟨[⟨.library, "lib"⟩, ⟨.backend, "backend"⟩], true, true, .void, "hbmv", [
    ⟨.lref .queue, "queue", none⟩, ⟨.uplo, "upper_lower", none⟩, ⟨.int64, "n", none⟩,
    ⟨.int64, "k", none⟩, ⟨.complex .double, "alpha", none⟩,
    ⟨.lref (.buffer (.complex .double) 1), "a", none⟩, ⟨.int64, "lda", none⟩,
    ⟨.lref (.buffer (.complex .double) 1), "x", none⟩, ⟨.int64, "incx", none⟩,
    ⟨.complex .double, "beta", none⟩, ⟨.lref (.buffer (.complex .double) 1), "y", none⟩,
    ⟨.int64, "incy", none⟩], false⟩
]

/-- The `rot` overloads of the `// Buffer APIs` section (blas_ct_templates.hpp:195). -/
def rot : List Decl := [
  -- line 195
  ⟨[⟨.library, "lib"⟩, ⟨.backend, "backend"⟩], true, true, .void, "rot", [
    ⟨.lref .queue, "queue", none⟩, ⟨.int64, "n", none⟩,
    ⟨.lref (.buffer (.complex .float) 1), "x", none⟩, ⟨.int64, "incx", none⟩,
    ⟨.lref (.buffer (.complex .float) 1), "y", none⟩, ⟨.int64, "incy", none⟩, ⟨.float, "c", none⟩,
    ⟨.float, "s", none⟩], false⟩,
  -- line 201
  ⟨[⟨.library, "lib"⟩, ⟨.backend, "backend"⟩], true, true, .void, "rot", [
    ⟨.lref .queue, "queue", none⟩, ⟨.int64, "n", none⟩,
    ⟨.lref (.buffer (.complex .double) 1), "x", none⟩, ⟨.int64, "incx", none⟩,
    ⟨.lref (.buffer (.complex .double) 1), "y", none⟩, ⟨.int64, "incy", none⟩,
    ⟨.double, "c", none⟩, ⟨.double, "s", none⟩], false⟩,
  -- line 207
  ⟨[⟨.library, "lib"⟩, ⟨.backend, "backend"⟩], true, true, .void, "rot", [
    ⟨.lref .queue, "queue", none⟩, ⟨.int64, "n", none⟩, ⟨.lref (.buffer .float 1), "x", none⟩,
    ⟨.int64, "incx", none⟩, ⟨.lref (.buffer .float 1), "y", none⟩, ⟨.int64, "incy", none⟩,
    ⟨.float, "c", none⟩, ⟨.float, "s", none⟩], false⟩,
  -- line 212
  ⟨[⟨.library, "lib"⟩, ⟨.backend, "backend"⟩], true, true, .void, "rot", [
    ⟨.lref .queue, "queue", none⟩, ⟨.int64, "n", none⟩, ⟨.lref (.buffer .double 1), "x", none⟩,
    ⟨.int64, "incx", none⟩, ⟨.lref (.buffer .double 1), "y", none⟩, ⟨.int64, "incy", none⟩,
    ⟨.double, "c", none⟩, ⟨.double, "s", none⟩], false⟩
]

/-- The `axpy` overloads of the `// Buffer APIs` section (blas_ct_templates.hpp:217). -/
def axpy : List Decl := [
  -- line 217
  ⟨[⟨.library, "lib"⟩, ⟨.backend, "backend"⟩], true, true, .void, "axpy", [
    ⟨.lref .queue, "queue", none⟩, ⟨.int64, "n", none⟩, ⟨.float, "alpha", none⟩,
    ⟨.lref (.buffer .float 1), "x", none⟩, ⟨.int64, "incx", none⟩,
    ⟨.lref (.buffer .float 1), "y", none⟩, ⟨.int64, "incy", none⟩], false⟩,
  -- line 222
  ⟨[⟨.library, "lib"⟩, ⟨.backend, "backend"⟩], true, true, .void, "axpy", [
    ⟨.lref .queue, "queue", none⟩, ⟨.int64, "n", none⟩, ⟨.double, "alpha", none⟩,
    ⟨.lref (.buffer .double 1), "x", none⟩, ⟨.int64, "incx", none⟩,
    ⟨.lref (.buffer .double 1), "y", none⟩, ⟨.int64, "incy", none⟩], false⟩,
  -- line 227
  ⟨[⟨.library, "lib"⟩, ⟨.backend, "backend"⟩], true, true, .void, "axpy", [
    ⟨.lref .queue, "queue", none⟩, ⟨.int64, "n", none⟩, ⟨.complex .float, "alpha", none⟩,
    ⟨.lref (.buffer (.complex .float) 1), "x", none⟩, ⟨.int64, "incx", none⟩,
    ⟨.lref (.buffer (.complex .float) 1), "y", none⟩, ⟨.int64, "incy", none⟩], false⟩,
  -- line 232
  ⟨[⟨.library, "lib"⟩, ⟨.backend, "backend"⟩], true, true, .void, "axpy", [
    ⟨.lref .queue, "queue", none⟩, ⟨.int64, "n", none⟩, ⟨.complex .double, "alpha", none⟩,
    ⟨.lref (.buffer (.complex .double) 1), "x", none⟩, ⟨.int64, "incx", none⟩,
    ⟨.lref (.buffer (.complex .double) 1), "y", none⟩, ⟨.int64, "incy", none⟩], false⟩
]

/-- The `gerc` overloads of the `// Buffer APIs` section (blas_ct_templates.hpp:237). -/
def gerc : List Decl := [
  -- line 237
  ⟨[⟨.library, "lib"⟩, ⟨.backend, "backend"⟩], true, true, .void, "gerc", [
    ⟨.lref .queue, "queue", none⟩, ⟨.int64, "m", none⟩, ⟨.int64, "n", none⟩,
    ⟨.complex .float, "alpha", none⟩, ⟨.lref (.buffer (.complex .float) 1), "x", none⟩,
    ⟨.int64, "incx", none⟩, ⟨.lref (.buffer (.complex .float) 1), "y", none⟩,
    ⟨.int64, "incy", none⟩, ⟨.lref (.buffer (.complex .float) 1), "a", none⟩, ⟨.int64, "lda", none⟩], false⟩,
  -- line 244
  ⟨[⟨.library, "lib"⟩, ⟨.backend, "backend"⟩], true, true, .void, "gerc", [
    ⟨.lref .queue, "queue", none⟩, ⟨.int64, "m", none⟩, ⟨.int64, "n", none⟩,
    ⟨.complex .double, "alpha", none⟩, ⟨.lref (.buffer (.complex .double) 1), "x", none⟩,
    ⟨.int64, "incx", none⟩, ⟨.lref (.buffer (.complex .double) 1), "y", none⟩,
    ⟨.int64, "incy", none⟩, ⟨.lref (.buffer (.complex .double) 1), "a", none⟩,
    ⟨.int64, "lda", none⟩], false⟩
]

/-- The `syr2k` overloads of the `// Buffer APIs` section (blas_ct_templates.hpp:251). -/
def syr2k : List Decl := [
  -- line 251
  ⟨[⟨.library, "lib"⟩, ⟨.backend, "backend"⟩], true, true, .void, "syr2k", [
    ⟨.lref .queue, "queue", none⟩, ⟨.uplo, "upper_lower", none⟩, ⟨.transpose, "trans", none⟩,
    ⟨.int64, "n", none⟩, ⟨.int64, "k", none⟩, ⟨.float, "alpha", none⟩,
    ⟨.lref (.buffer .float 1), "a", none⟩, ⟨.int64, "lda", none⟩,
    ⟨.lref (.buffer .float 1), "b", none⟩, ⟨.int64, "ldb", none⟩, ⟨.float, "beta", none⟩,
    ⟨.lref (.buffer .float 1), "c", none⟩, ⟨.int64, "ldc", none⟩], false⟩,
  -- line 257
  ⟨[⟨.library, "lib"⟩, ⟨.backend, "backend"⟩], true, true, .void, "syr2k", [
    ⟨.lref .queue, "queue", none⟩, ⟨.uplo, "upper_lower", none⟩, ⟨.transpose, "trans", none⟩,
    ⟨.int64, "n", none⟩, ⟨.int64, "k", none⟩, ⟨.double, "alpha", none⟩,
    ⟨.lref (.buffer .double 1), "a", none⟩, ⟨.int64, "lda", none⟩,
    ⟨.lref (.buffer .double 1), "b", none⟩, ⟨.int64, "ldb", none⟩, ⟨.double, "beta", none⟩,
    ⟨.lref (.buffer .double 1), "c", none⟩, ⟨.int64, "ldc", none⟩], false⟩,
  -- line 263
  ⟨[⟨.library, "lib"⟩, ⟨.backend, "backend"⟩], true, true, .void, "syr2k", [
    ⟨.lref .queue, "queue", none⟩, ⟨.uplo, "upper_lower", none⟩, ⟨.transpose, "trans", none⟩,
    ⟨.int64, "n", none⟩, ⟨.int64, "k", none⟩, ⟨.complex .float, "alpha", none⟩,
    ⟨.lref (.buffer (.complex .float) 1), "a", none⟩, ⟨.int64, "lda", none⟩,
    ⟨.lref (.buffer (.complex .float) 1), "b", none⟩, ⟨.int64, "ldb", none⟩,
    ⟨.complex .float, "beta", none⟩, ⟨.lref (.buffer (.complex .float) 1), "c", none⟩,
    ⟨.int64, "ldc", none⟩], false⟩,
  -- line 271
  ⟨[⟨.library, "lib"⟩, ⟨.backend, "backend"⟩], true, true, .void, "syr2k", [
    ⟨.lref .queue, "queue", none⟩, ⟨.uplo, "upper_lower", none⟩, ⟨.transpose, "trans", none⟩,
    ⟨.int64, "n", none⟩, ⟨.int64, "k", none⟩, ⟨.complex .double, "alpha", none⟩,
    ⟨.lref (.buffer (.complex .double) 1), "a", none⟩, ⟨.int64, "lda", none⟩,
    ⟨.lref (.buffer (.complex .double) 1), "b", none⟩, ⟨.int64, "ldb", none⟩,
    ⟨.complex .double, "beta", none⟩, ⟨.lref (.buffer (.complex .double) 1), "c", none⟩,
    ⟨.int64, "ldc", none⟩], false⟩
]

/-- The `gemv` overloads of the `// Buffer APIs` section (blas_ct_templates.hpp:279). -/
def gemv : List Decl := [
  -- line 279
  ⟨[⟨.library, "lib"⟩, ⟨.backend, "backend"⟩], true, true, .void, "gemv", [
    ⟨.lref .queue, "queue", none⟩, ⟨.transpose, "trans", none⟩, ⟨.int64, "m", none⟩,
    ⟨.int64, "n", none⟩, ⟨.float, "alpha", none⟩, ⟨.lref (.buffer .float 1), "a", none⟩,
    ⟨.int64, "lda", none⟩, ⟨.lref (.buffer .float 1), "x", none⟩, ⟨.int64, "incx", none⟩,
    ⟨.float, "beta", none⟩, ⟨.lref (.buffer .float 1), "y", none⟩, ⟨.int64, "incy", none⟩], false⟩,
  -- line 285
  ⟨[⟨.library, "lib"⟩, ⟨.backend, "backend"⟩], true, true, .void, "gemv", [
    ⟨.lref .queue, "queue", none⟩, ⟨.transpose, "trans", none⟩, ⟨.int64, "m", none⟩,
    ⟨.int64, "n", none⟩, ⟨.double, "alpha", none⟩, ⟨.lref (.buffer .double 1), "a", none⟩,
    ⟨.int64, "lda", none⟩, ⟨.lref (.buffer .double 1), "x", none⟩, ⟨.int64, "incx", none⟩,
    ⟨.double, "beta", none⟩, ⟨.lref (.buffer .double 1), "y", none⟩, ⟨.int64, "incy", none⟩], false⟩,
  -- line 291
  ⟨[⟨.library, "lib"⟩, ⟨.backend, "backend"⟩], true, true, .void, "gemv", [
    ⟨.lref .queue, "queue", none⟩, ⟨.transpose, "trans", none⟩, ⟨.int64, "m", none⟩,
    ⟨.int64, "n", none⟩, ⟨.complex .float, "alpha", none⟩,
    ⟨.lref (.buffer (.complex .float) 1), "a", none⟩, ⟨.int64, "lda", none⟩,
    ⟨.lref (.buffer (.complex .float) 1), "x", none⟩, ⟨.int64, "incx", none⟩,
    ⟨.complex .float, "beta", none⟩, ⟨.lref (.buffer (.complex .float) 1), "y", none⟩,
    ⟨.int64, "incy", none⟩], false⟩,
  -- line 298
  ⟨[⟨.library, "lib"⟩, ⟨.backend, "backend"⟩], true, true, .void, "gemv", [
    ⟨.lref .queue, "queue", none⟩, ⟨.transpose, "trans", none⟩, ⟨.int64, "m", none⟩,
    ⟨.int64, "n", none⟩, ⟨.complex .double, "alpha", none⟩,
    ⟨.lref (.buffer (.complex .double) 1), "a", none⟩, ⟨.int64, "lda", none⟩,
    ⟨.lref (.buffer (.complex .double) 1), "x", none⟩, ⟨.int64, "incx", none⟩,
    ⟨.complex .double, "beta", none⟩, ⟨.lref (.buffer (.complex .double) 1), "y", none⟩,
    ⟨.int64, "incy", none⟩], false⟩
]

/-- The `her` overloads of the `// Buffer APIs` section (blas_ct_templates.hpp:305). -/
def her : List Decl := [
  -- line 305
  ⟨[⟨.library, "lib"⟩, ⟨.backend, "backend"⟩], true, true, .void, "her", [
    ⟨.lref .queue, "queue", none⟩, ⟨.uplo, "upper_lower", none⟩, ⟨.int64, "n", none⟩,
    ⟨.float, "alpha", none⟩, ⟨.lref (.buffer (.complex .float) 1), "x", none⟩,
    ⟨.int64, "incx", none⟩, ⟨.lref (.buffer (.complex .float) 1), "a", none⟩, ⟨.int64, "lda", none⟩], false⟩,
  -- line 310
  ⟨[⟨.library, "lib"⟩, ⟨.backend, "backend"⟩], true, true, .void, "her", [
    ⟨.lref .queue, "queue", none⟩, ⟨.uplo, "upper_lower", none⟩, ⟨.int64, "n", none⟩,
    ⟨.double, "alpha", none⟩, ⟨.lref (.buffer (.complex .double) 1), "x", none⟩,
    ⟨.int64, "incx", none⟩, ⟨.lref (.buffer (.complex .double) 1), "a", none⟩,
    ⟨.int64, "lda", none⟩], false⟩
]

/-- The `hpr` overloads of the `// Buffer APIs` section (blas_ct_templates.hpp:315). -/
def hpr : List Decl := [
  -- line 315
  ⟨[⟨.library, "lib"⟩, ⟨.backend, "backend"⟩], true, true, .void, "hpr", [
    ⟨.lref .queue, "queue", none⟩, ⟨.uplo, "upper_lower", none⟩, ⟨.int64, "n", none⟩,
    ⟨.float, "alpha", none⟩, ⟨.lref (.buffer (.complex .float) 1), "x", none⟩,
    ⟨.int64, "incx", none⟩, ⟨.lref (.buffer (.complex .float) 1), "a", none⟩], false⟩,
  -- line 320
  ⟨[⟨.library, "lib"⟩, ⟨.backend, "backend"⟩], true, true, .void, "hpr", [
    ⟨.lref .queue, "queue", none⟩, ⟨.uplo, "upper_lower", none⟩, ⟨.int64, "n", none⟩,
    ⟨.double, "alpha", none⟩, ⟨.lref (.buffer (.complex .double) 1), "x", none⟩,
    ⟨.int64, "incx", none⟩, ⟨.lref (.buffer (.complex .double) 1), "a", none⟩], false⟩
]

/-- The `iamin` overloads of the `// Buffer APIs` section (blas_ct_templates.hpp:325). -/
def iamin : List Decl := [
  -- line 325
  ⟨[⟨.library, "lib"⟩, ⟨.backend, "backend"⟩], true, true, .void, "iamin", [
    ⟨.lref .queue, "queue", none⟩, ⟨.int64, "n", none⟩, ⟨.lref (.buffer .float 1), "x", none⟩,
    ⟨.int64, "incx", none⟩, ⟨.lref (.buffer .int64 1), "result", none⟩], false⟩,
  -- line 329
  ⟨[⟨.library, "lib"⟩, ⟨.backend, "backend"⟩], true, true, .void, "iamin", [
    ⟨.lref .queue, "queue", none⟩, ⟨.int64, "n", none⟩, ⟨.lref (.buffer .double 1), "x", none⟩,
    ⟨.int64, "incx", none⟩, ⟨.lref (.buffer .int64 1), "result", none⟩], false⟩,
  -- line 333
  ⟨[⟨.library, "lib"⟩, ⟨.backend, "backend"⟩], true, true, .void, "iamin", [
    ⟨.lref .queue, "queue", none⟩, ⟨.int64, "n", none⟩,
    ⟨.lref (.buffer (.complex .float) 1), "x", none⟩, ⟨.int64, "incx", none⟩,
    ⟨.lref (.buffer .int64 1), "result", none⟩], false⟩,
  -- line 338
  ⟨[⟨.library, "lib"⟩, ⟨.backend, "backend"⟩], true, true, .void, "iamin", [
    ⟨.lref .queue, "queue", none⟩, ⟨.int64, "n", none⟩,
    ⟨.lref (.buffer (.complex .double) 1), "x", none⟩, ⟨.int64, "incx", none⟩,
    ⟨.lref (.buffer .int64 1), "result", none⟩], false⟩
]

/-- The `gemm_batch` overloads of the `// Buffer APIs` section (blas_ct_templates.hpp:343). -/
def gemm_batch : List Decl := [
  -- line 343
  ⟨[⟨.library, "lib"⟩, ⟨.backend, "backend"⟩], true, true, .void, "gemm_batch", [
    ⟨.lref .queue, "queue", none⟩, ⟨.transpose, "transa", none⟩, ⟨.transpose, "transb", none⟩,
    ⟨.int64, "m", none⟩, ⟨.int64, "n", none⟩, ⟨.int64, "k", none⟩, ⟨.float, "alpha", none⟩,
    ⟨.lref (.buffer .float 1), "a", none⟩, ⟨.int64, "lda", none⟩, ⟨.int64, "stride_a", none⟩,
    ⟨.lref (.buffer .float 1), "b", none⟩, ⟨.int64, "ldb", none⟩, ⟨.int64, "stride_b", none⟩,
    ⟨.float, "beta", none⟩, ⟨.lref (.buffer .float 1), "c", none⟩, ⟨.int64, "ldc", none⟩,
    ⟨.int64, "stride_c", none⟩, ⟨.int64, "batch_size", none⟩], false⟩,
  -- line 352
  ⟨[⟨.library, "lib"⟩, ⟨.backend, "backend"⟩], true, true, .void, "gemm_batch", [
    ⟨.lref .queue, "queue", none⟩, ⟨.transpose, "transa", none⟩, ⟨.transpose, "transb", none⟩,
    ⟨.int64, "m", none⟩, ⟨.int64, "n", none⟩, ⟨.int64, "k", none⟩, ⟨.double, "alpha", none⟩,
    ⟨.lref (.buffer .double 1), "a", none⟩, ⟨.int64, "lda", none⟩, ⟨.int64, "stride_a", none⟩,
    ⟨.lref (.buffer .double 1), "b", none⟩, ⟨.int64, "ldb", none⟩, ⟨.int64, "stride_b", none⟩,
    ⟨.double, "beta", none⟩, ⟨.lref (.buffer .double 1), "c", none⟩, ⟨.int64, "ldc", none⟩,
    ⟨.int64, "stride_c", none⟩, ⟨.int64, "batch_size", none⟩], false⟩,
  -- line 361
  ⟨[⟨.library, "lib"⟩, ⟨.backend, "backend"⟩], true, true, .void, "gemm_batch", [
    ⟨.lref .queue, "queue", none⟩, ⟨.transpose, "transa", none⟩, ⟨.transpose, "transb", none⟩,
    ⟨.int64, "m", none⟩, ⟨.int64, "n", none⟩, ⟨.int64, "k", none⟩,
    ⟨.complex .float, "alpha", none⟩, ⟨.lref (.buffer (.complex .float) 1), "a", none⟩,
    ⟨.int64, "lda", none⟩, ⟨.int64, "stride_a", none⟩,
    ⟨.lref (.buffer (.complex .float) 1), "b", none⟩, ⟨.int64, "ldb", none⟩,
    ⟨.int64, "stride_b", none⟩, ⟨.complex .float, "beta", none⟩,
    ⟨.lref (.buffer (.complex .float) 1), "c", none⟩, ⟨.int64, "ldc", none⟩,
    ⟨.int64, "stride_c", none⟩, ⟨.int64, "batch_size", none⟩], false⟩,
  -- line 371
  ⟨[⟨.library, "lib"⟩, ⟨.backend, "backend"⟩], true, true, .void, "gemm_batch", [
    ⟨.lref .queue, "queue", none⟩, ⟨.transpose, "transa", none⟩, ⟨.transpose, "transb", none⟩,
    ⟨.int64, "m", none⟩, ⟨.int64, "n", none⟩, ⟨.int64, "k", none⟩,
    ⟨.complex .double, "alpha", none⟩, ⟨.lref (.buffer (.complex .double) 1), "a", none⟩,
    ⟨.int64, "lda", none⟩, ⟨.int64, "stride_a", none⟩,
    ⟨.lref (.buffer (.complex .double) 1), "b", none⟩, ⟨.int64, "ldb", none⟩,
    ⟨.int64, "stride_b", none⟩, ⟨.complex .double, "beta", none⟩,
    ⟨.lref (.buffer (.complex .double) 1), "c", none⟩, ⟨.int64, "ldc", none⟩,
    ⟨.int64, "stride_c", none⟩, ⟨.int64, "batch_size", none⟩], false⟩
]

/-- The `spmv` overloads of the `// Buffer APIs` section (blas_ct_templates.hpp:381). -/
def spmv : List Decl := [
  -- line 381
  ⟨[⟨.library, "lib"⟩, ⟨.backend, "backend"⟩], true, true, .void, "spmv", [
    ⟨.lref .queue, "queue", none⟩, ⟨.uplo, "upper_lower", none⟩, ⟨.int64, "n", none⟩,
    ⟨.float, "alpha", none⟩, ⟨.lref (.buffer .float 1), "a", none⟩,
    ⟨.lref (.buffer .float 1), "x", none⟩, ⟨.int64, "incx", none⟩, ⟨.float, "beta", none⟩,
    ⟨.lref (.buffer .float 1), "y", none⟩, ⟨.int64, "incy", none⟩], false⟩,
  -- line 387
  ⟨[⟨.library, "lib"⟩, ⟨.backend, "backend"⟩], true, true, .void, "spmv", [
    ⟨.lref .queue, "queue", none⟩, ⟨.uplo, "upper_lower", none⟩, ⟨.int64, "n", none⟩,
    ⟨.double, "alpha", none⟩, ⟨.lref (.buffer .double 1), "a", none⟩,
    ⟨.lref (.buffer .double 1), "x", none⟩, ⟨.int64, "incx", none⟩, ⟨.double, "beta", none⟩,
    ⟨.lref (.buffer .double 1), "y", none⟩, ⟨.int64, "incy", none⟩], false⟩
]

/-- The `gemm_ext` overloads of the `// Buffer APIs` section (blas_ct_templates.hpp:393). -/
def gemm_ext : List Decl := [
  -- line 393
  ⟨[⟨.library, "lib"⟩, ⟨.backend, "backend"⟩], true, true, .void, "gemm_ext", [
    ⟨.lref .queue, "queue", none⟩, ⟨.transpose, "transa", none⟩, ⟨.transpose, "transb", none⟩,
    ⟨.int64, "m", none⟩, ⟨.int64, "n", none⟩, ⟨.int64, "k", none⟩, ⟨.float, "alpha", none⟩,
    ⟨.lref (.buffer .half 1), "a", none⟩, ⟨.int64, "lda", none⟩,
    ⟨.lref (.buffer .half 1), "b", none⟩, ⟨.int64, "ldb", none⟩, ⟨.float, "beta", none⟩,
    ⟨.lref (.buffer .float 1), "c", none⟩, ⟨.int64, "ldc", none⟩], false⟩,
  -- line 400
  ⟨[⟨.library, "lib"⟩, ⟨.backend, "backend"⟩], true, true, .void, "gemm_ext", [
    ⟨.lref .queue, "queue", none⟩, ⟨.transpose, "transa", none⟩, ⟨.transpose, "transb", none⟩,
    ⟨.offset, "offsetc", none⟩, ⟨.int64, "m", none⟩, ⟨.int64, "n", none⟩, ⟨.int64, "k", none⟩,
    ⟨.float, "alpha", none⟩, ⟨.lref (.buffer .int8 1), "a", none⟩, ⟨.int64, "lda", none⟩,
    ⟨.int8, "ao", none⟩, ⟨.lref (.buffer .uint8 1), "b", none⟩, ⟨.int64, "ldb", none⟩,
    ⟨.uint8, "bo", none⟩, ⟨.float, "beta", none⟩, ⟨.lref (.buffer .int32 1), "c", none⟩,
    ⟨.int64, "ldc", none⟩, ⟨.lref (.buffer .int32 1), "co", none⟩], false⟩,
  -- line 408
  ⟨[⟨.library, "lib"⟩, ⟨.backend, "backend"⟩], true, true, .void, "gemm_ext", [
    ⟨.lref .queue, "queue", none⟩, ⟨.transpose, "transa", none⟩, ⟨.transpose, "transb", none⟩,
    ⟨.int64, "m", none⟩, ⟨.int64, "n", none⟩, ⟨.int64, "k", none⟩, ⟨.float, "alpha", none⟩,
    ⟨.lref (.buffer .float 1), "a", none⟩, ⟨.int64, "lda", none⟩,
    ⟨.lref (.buffer .float 1), "b", none⟩, ⟨.int64, "ldb", none⟩, ⟨.float, "beta", none⟩,
    ⟨.lref (.buffer .float 1), "c", none⟩, ⟨.int64, "ldc", none⟩], false⟩,
  -- line 415
  ⟨[⟨.library, "lib"⟩, ⟨.backend, "backend"⟩], true, true, .void, "gemm_ext", [
    ⟨.lref .queue, "queue", none⟩, ⟨.transpose, "transa", none⟩, ⟨.transpose, "transb", none⟩,
    ⟨.int64, "m", none⟩, ⟨.int64, "n", none⟩, ⟨.int64, "k", none⟩, ⟨.double, "alpha", none⟩,
    ⟨.lref (.buffer .double 1), "a", none⟩, ⟨.int64, "lda", none⟩,
    ⟨.lref (.buffer .double 1), "b", none⟩, ⟨.int64, "ldb", none⟩, ⟨.double, "beta", none⟩,
    ⟨.lref (.buffer .double 1), "c", none⟩, ⟨.int64, "ldc", none⟩], false⟩,
  -- line 422
  ⟨[⟨.library, "lib"⟩, ⟨.backend, "backend"⟩], true, true, .void, "gemm_ext", [
    ⟨.lref .queue, "queue", none⟩, ⟨.transpose, "transa", none⟩, ⟨.transpose, "transb", none⟩,
    ⟨.int64, "m", none⟩, ⟨.int64, "n", none⟩, ⟨.int64, "k", none⟩,
    ⟨.complex .float, "alpha", none⟩, ⟨.lref (.buffer (.complex .float) 1), "a", none⟩,
    ⟨.int64, "lda", none⟩, ⟨.lref (.buffer (.complex .float) 1), "b", none⟩, ⟨.int64, "ldb", none⟩,
    ⟨.complex .float, "beta", none⟩, ⟨.lref (.buffer (.complex .float) 1), "c", none⟩,
    ⟨.int64, "ldc", none⟩], false⟩,
  -- line 430
  ⟨[⟨.library, "lib"⟩, ⟨.backend, "backend"⟩], true, true, .void, "gemm_ext", [
    ⟨.lref .queue, "queue", none⟩, ⟨.transpose, "transa", none⟩, ⟨.transpose, "transb", none⟩,
    ⟨.int64, "m", none⟩, ⟨.int64, "n", none⟩, ⟨.int64, "k", none⟩,
    ⟨.complex .double, "alpha", none⟩, ⟨.lref (.buffer (.complex .double) 1), "a", none⟩,
    ⟨.int64, "lda", none⟩, ⟨.lref (.buffer (.complex .double) 1), "b", none⟩,
    ⟨.int64, "ldb", none⟩, ⟨.complex .double, "beta", none⟩,
    ⟨.lref (.buffer (.complex .double) 1), "c", none⟩, ⟨.int64, "ldc", none⟩], false⟩,
  -- line 439
  ⟨[⟨.library, "lib"⟩, ⟨.backend, "backend"⟩], true, true, .void, "gemm_ext", [
    ⟨.lref .queue, "queue", none⟩, ⟨.transpose, "transa", none⟩, ⟨.transpose, "transb", none⟩,
    ⟨.int64, "m", none⟩, ⟨.int64, "n", none⟩, ⟨.int64, "k", none⟩, ⟨.half, "alpha", none⟩,
    ⟨.lref (.buffer .half 1), "a", none⟩, ⟨.int64, "lda", none⟩,
    ⟨.lref (.buffer .half 1), "b", none⟩, ⟨.int64, "ldb", none⟩, ⟨.half, "beta", none⟩,
    ⟨.lref (.buffer .half 1), "c", none⟩, ⟨.int64, "ldc", none⟩], false⟩
]

/-- The `swap` overloads of the `// Buffer APIs` section (blas_ct_templates.hpp:446). -/
def swap : List Decl := [
  -- line 446
  ⟨[⟨.library, "lib"⟩, ⟨.backend, "backend"⟩], true, true, .void, "swap", [
    ⟨.lref .queue, "queue", none⟩, ⟨.int64, "n", none⟩, ⟨.lref (.buffer .float 1), "x", none⟩,
    ⟨.int64, "incx", none⟩, ⟨.lref (.buffer .float 1), "y", none⟩, ⟨.int64, "incy", none⟩], false⟩,
  -- line 450
  ⟨[⟨.library, "lib"⟩, ⟨.backend, "backend"⟩], true, true, .void, "swap", [
    ⟨.lref .queue, "queue", none⟩, ⟨.int64, "n", none⟩, ⟨.lref (.buffer .double 1), "x", none⟩,
    ⟨.int64, "incx", none⟩, ⟨.lref (.buffer .double 1), "y", none⟩, ⟨.int64, "incy", none⟩], false⟩,
  -- line 454
  ⟨[⟨.library, "lib"⟩, ⟨.backend, "backend"⟩], true, true, .void, "swap", [
    ⟨.lref .queue, "queue", none⟩, ⟨.int64, "n", none⟩,
    ⟨.lref (.buffer (.complex .float) 1), "x", none⟩, ⟨.int64, "incx", none⟩,
    ⟨.lref (.buffer (.complex .float) 1), "y", none⟩, ⟨.int64, "incy", none⟩], false⟩,
  -- line 459
  ⟨[⟨.library, "lib"⟩, ⟨.backend, "backend"⟩], true, true, .void, "swap", [
    ⟨.lref .queue, "queue", none⟩, ⟨.int64, "n", none⟩,
    ⟨.lref (.buffer (.complex .double) 1), "x", none⟩, ⟨.int64, "incx", none⟩,
    ⟨.lref (.buffer (.complex .double) 1), "y", none⟩, ⟨.int64, "incy", none⟩], false⟩
]

/-- The `geru` overloads of the `// Buffer APIs` section (blas_ct_templates.hpp:464). -/
def geru : List Decl := [
  -- line 464
  ⟨[⟨.library, "lib"⟩, ⟨.backend, "backend"⟩], true, true, .void, "geru", [
    ⟨.lref .queue, "queue", none⟩, ⟨.int64, "m", none⟩, ⟨.int64, "n", none⟩,
    ⟨.complex .float, "alpha", none⟩, ⟨.lref (.buffer (.complex .float) 1), "x", none⟩,
    ⟨.int64, "incx", none⟩, ⟨.lref (.buffer (.complex .float) 1), "y", none⟩,
    ⟨.int64, "incy", none⟩, ⟨.lref (.buffer (.complex .float) 1), "a", none⟩, ⟨.int64, "lda", none⟩], false⟩,
  -- line 471
  ⟨[⟨.library, "lib"⟩, ⟨.backend, "backend"⟩], true, true, .void, "geru", [
    ⟨.lref .queue, "queue", none⟩, ⟨.int64, "m", none⟩, ⟨.int64, "n", none⟩,
    ⟨.complex .double, "alpha", none⟩, ⟨.lref (.buffer (.complex .double) 1), "x", none⟩,
    ⟨.int64, "incx", none⟩, ⟨.lref (.buffer (.complex .double) 1), "y", none⟩,
    ⟨.int64, "incy", none⟩, ⟨.lref (.buffer (.complex .double) 1), "a", none⟩,
    ⟨.int64, "lda", none⟩], false⟩
]

/-- The `nrm2` overloads of the `// Buffer APIs` section (blas_ct_templates.hpp:478). -/
def nrm2 : List Decl := [
  -- line 478
  ⟨[⟨.library, "lib"⟩, ⟨.backend, "backend"⟩], true, true, .void, "nrm2", [
    ⟨.lref .queue, "queue", none⟩, ⟨.int64, "n", none⟩,
    ⟨.lref (.buffer (.complex .float) 1), "x", none⟩, ⟨.int64, "incx", none⟩,
    ⟨.lref (.buffer .float 1), "result", none⟩], false⟩,
  -- line 483
  ⟨[⟨.library, "lib"⟩, ⟨.backend, "backend"⟩], true, true, .void, "nrm2", [
    ⟨.lref .queue, "queue", none⟩, ⟨.int64, "n", none⟩,
    ⟨.lref (.buffer (.complex .double) 1), "x", none⟩, ⟨.int64, "incx", none⟩,
    ⟨.lref (.buffer .double 1), "result", none⟩], false⟩,
  -- line 488
  ⟨[⟨.library, "lib"⟩, ⟨.backend, "backend"⟩], true, true, .void, "nrm2", [
    ⟨.lref .queue, "queue", none⟩, ⟨.int64, "n", none⟩, ⟨.lref (.buffer .float 1), "x", none⟩,
    ⟨.int64, "incx", none⟩, ⟨.lref (.buffer .float 1), "result", none⟩], false⟩,
  -- line 492
  ⟨[⟨.library, "lib"⟩, ⟨.backend, "backend"⟩], true, true, .void, "nrm2", [
    ⟨.lref .queue, "queue", none⟩, ⟨.int64, "n", none⟩, ⟨.lref (.buffer .double 1), "x", none⟩,
    ⟨.int64, "incx", none⟩, ⟨.lref (.buffer .double 1), "result", none⟩], false⟩
]

/-- The `gemm` overloads of the `// Buffer APIs` section (blas_ct_templates.hpp:496). -/
def gemm : List Decl := [
  -- line 496
  ⟨[⟨.library, "lib"⟩, ⟨.backend, "backend"⟩], true, true, .void, "gemm", [
    ⟨.lref .queue, "queue", none⟩, ⟨.transpose, "transa", none⟩, ⟨.transpose, "transb", none⟩,
    ⟨.int64, "m", none⟩, ⟨.int64, "n", none⟩, ⟨.int64, "k", none⟩, ⟨.float, "alpha", none⟩,
    ⟨.lref (.buffer .float 1), "a", none⟩, ⟨.int64, "lda", none⟩,
    ⟨.lref (.buffer .float 1), "b", none⟩, ⟨.int64, "ldb", none⟩, ⟨.float, "beta", none⟩,
    ⟨.lref (.buffer .float 1), "c", none⟩, ⟨.int64, "ldc", none⟩], false⟩,
  -- line 502
  ⟨[⟨.library, "lib"⟩, ⟨.backend, "backend"⟩], true, true, .void, "gemm", [
    ⟨.lref .queue, "queue", none⟩, ⟨.transpose, "transa", none⟩, ⟨.transpose, "transb", none⟩,
    ⟨.int64, "m", none⟩, ⟨.int64, "n", none⟩, ⟨.int64, "k", none⟩, ⟨.double, "alpha", none⟩,
    ⟨.lref (.buffer .double 1), "a", none⟩, ⟨.int64, "lda", none⟩,
    ⟨.lref (.buffer .double 1), "b", none⟩, ⟨.int64, "ldb", none⟩, ⟨.double, "beta", none⟩,
    ⟨.lref (.buffer .double 1), "c", none⟩, ⟨.int64, "ldc", none⟩], false⟩,
  -- line 509
  ⟨[⟨.library, "lib"⟩, ⟨.backend, "backend"⟩], true, true, .void, "gemm", [
    ⟨.lref .queue, "queue", none⟩, ⟨.transpose, "transa", none⟩, ⟨.transpose, "transb", none⟩,
    ⟨.int64, "m", none⟩, ⟨.int64, "n", none⟩, ⟨.int64, "k", none⟩,
    ⟨.complex .float, "alpha", none⟩, ⟨.lref (.buffer (.complex .float) 1), "a", none⟩,
    ⟨.int64, "lda", none⟩, ⟨.lref (.buffer (.complex .float) 1), "b", none⟩, ⟨.int64, "ldb", none⟩,
    ⟨.complex .float, "beta", none⟩, ⟨.lref (.buffer (.complex .float) 1), "c", none⟩,
    ⟨.int64, "ldc", none⟩], false⟩,
  -- line 517
  ⟨[⟨.library, "lib"⟩, ⟨.backend, "backend"⟩], true, true, .void, "gemm", [
    ⟨.lref .queue, "queue", none⟩, ⟨.transpose, "transa", none⟩, ⟨.transpose, "transb", none⟩,
    ⟨.int64, "m", none⟩, ⟨.int64, "n", none⟩, ⟨.int64, "k", none⟩,
    ⟨.complex .double, "alpha", none⟩, ⟨.lref (.buffer (.complex .double) 1), "a", none⟩,
    ⟨.int64, "lda", none⟩, ⟨.lref (.buffer (.complex .double) 1), "b", none⟩,
    ⟨.int64, "ldb", none⟩, ⟨.complex .double, "beta", none⟩,
    ⟨.lref (.buffer (.complex .double) 1), "c", none⟩, ⟨.int64, "ldc", none⟩], false⟩,
  -- line 525
  ⟨[⟨.library, "lib"⟩, ⟨.backend, "backend"⟩], true, true, .void, "gemm", [
    ⟨.lref .queue, "queue", none⟩, ⟨.transpose, "transa", none⟩, ⟨.transpose, "transb", none⟩,
    ⟨.int64, "m", none⟩, ⟨.int64, "n", none⟩, ⟨.int64, "k", none⟩, ⟨.half, "alpha", none⟩,
    ⟨.lref (.buffer .half 1), "a", none⟩, ⟨.int64, "lda", none⟩,
    ⟨.lref (.buffer .half 1), "b", none⟩, ⟨.int64, "ldb", none⟩, ⟨.half, "beta", none⟩,
    ⟨.lref (.buffer .half 1), "c", none⟩, ⟨.int64, "ldc", none⟩], false⟩
]

/-- The `herk` overloads of the `// Buffer APIs` section (blas_ct_templates.hpp:531). -/
def herk : List Decl := [
  -- line 531
  ⟨[⟨.library, "lib"⟩, ⟨.backend, "backend"⟩], true, true, .void, "herk", [
    ⟨.lref .queue, "queue", none⟩, ⟨.uplo, "upper_lower", none⟩, ⟨.transpose, "trans", none⟩,
    ⟨.int64, "n", none⟩, ⟨.int64, "k", none⟩, ⟨.float, "alpha", none⟩,
    ⟨.lref (.buffer (.complex .float) 1), "a", none⟩, ⟨.int64, "lda", none⟩,
    ⟨.float, "beta", none⟩, ⟨.lref (.buffer (.complex .float) 1), "c", none⟩, ⟨.int64, "ldc", none⟩], false⟩,
  -- line 537
  ⟨[⟨.library, "lib"⟩, ⟨.backend, "backend"⟩], true, true, .void, "herk", [
    ⟨.lref .queue, "queue", none⟩, ⟨.uplo, "upper_lower", none⟩, ⟨.transpose, "trans", none⟩,
    ⟨.int64, "n", none⟩, ⟨.int64, "k", none⟩, ⟨.double, "alpha", none⟩,
    ⟨.lref (.buffer (.complex .double) 1), "a", none⟩, ⟨.int64, "lda", none⟩,
    ⟨.double, "beta", none⟩, ⟨.lref (.buffer (.complex .double) 1), "c", none⟩,
    ⟨.int64, "ldc", none⟩], false⟩
]

/-- The `ger` overloads of the `// Buffer APIs` section (blas_ct_templates.hpp:543). -/
def ger : List Decl := [
  -- line 543
  ⟨[⟨.library, "lib"⟩, ⟨.backend, "backend"⟩], true, true, .void, "ger", [
    ⟨.lref .queue, "queue", none⟩, ⟨.int64, "m", none⟩, ⟨.int64, "n", none⟩,
    ⟨.float, "alpha", none⟩, ⟨.lref (.buffer .float 1), "x", none⟩, ⟨.int64, "incx", none⟩,
    ⟨.lref (.buffer .float 1), "y", none⟩, ⟨.int64, "incy", none⟩,
    ⟨.lref (.buffer .float 1), "a", none⟩, ⟨.int64, "lda", none⟩], false⟩,
  -- line 549
  ⟨[⟨.library, "lib"⟩, ⟨.backend, "backend"⟩], true, true, .void, "ger", [
    ⟨.lref .queue, "queue", none⟩, ⟨.int64, "m", none⟩, ⟨.int64, "n", none⟩,
    ⟨.double, "alpha", none⟩, ⟨.lref (.buffer .double 1), "x", none⟩, ⟨.int64, "incx", none⟩,
    ⟨.lref (.buffer .double 1), "y", none⟩, ⟨.int64, "incy", none⟩,
    ⟨.lref (.buffer .double 1), "a", none⟩, ⟨.int64, "lda", none⟩], false⟩
]

/-- The `trsm` overloads of the `// Buffer APIs` section (blas_ct_templates.hpp:555). -/
def trsm : List Decl := [
  -- line 555
  ⟨[⟨.library, "lib"⟩, ⟨.backend, "backend"⟩], true, true, .void, "trsm", [
    ⟨.lref .queue, "queue", none⟩, ⟨.side, "left_right", none⟩, ⟨.uplo, "upper_lower", none⟩,
    ⟨.transpose, "trans", none⟩, ⟨.diag, "unit_diag", none⟩, ⟨.int64, "m", none⟩,
    ⟨.int64, "n", none⟩, ⟨.float, "alpha", none⟩, ⟨.lref (.buffer .float 1), "a", none⟩,
    ⟨.int64, "lda", none⟩, ⟨.lref (.buffer .float 1), "b", none⟩, ⟨.int64, "ldb", none⟩], false⟩,
  -- line 561
  ⟨[⟨.library, "lib"⟩, ⟨.backend, "backend"⟩], true, true, .void, "trsm", [
    ⟨.lref .queue, "queue", none⟩, ⟨.side, "left_right", none⟩, ⟨.uplo, "upper_lower", none⟩,
    ⟨.transpose, "trans", none⟩, ⟨.diag, "unit_diag", none⟩, ⟨.int64, "m", none⟩,
    ⟨.int64, "n", none⟩, ⟨.double, "alpha", none⟩, ⟨.lref (.buffer .double 1), "a", none⟩,
    ⟨.int64, "lda", none⟩, ⟨.lref (.buffer .double 1), "b", none⟩, ⟨.int64, "ldb", none⟩], false⟩,
  -- line 567
  ⟨[⟨.library, "lib"⟩, ⟨.backend, "backend"⟩], true, true, .void, "trsm", [
    ⟨.lref .queue, "queue", none⟩, ⟨.side, "left_right", none⟩, ⟨.uplo, "upper_lower", none⟩,
    ⟨.transpose, "trans", none⟩, ⟨.diag, "unit_diag", none⟩, ⟨.int64, "m", none⟩,
    ⟨.int64, "n", none⟩, ⟨.complex .float, "alpha", none⟩,
    ⟨.lref (.buffer (.complex .float) 1), "a", none⟩, ⟨.int64, "lda", none⟩,
    ⟨.lref (.buffer (.complex .float) 1), "b", none⟩, ⟨.int64, "ldb", none⟩], false⟩,
  -- line 573
  ⟨[⟨.library, "lib"⟩, ⟨.backend, "backend"⟩], true, true, .void, "trsm", [
    ⟨.lref .queue, "queue", none⟩, ⟨.side, "left_right", none⟩, ⟨.uplo, "upper_lower", none⟩,
    ⟨.transpose, "trans", none⟩, ⟨.diag, "unit_diag", none⟩, ⟨.int64, "m", none⟩,
    ⟨.int64, "n", none⟩, ⟨.complex .double, "alpha", none⟩,
    ⟨.lref (.buffer (.complex .double) 1), "a", none⟩, ⟨.int64, "lda", none⟩,
    ⟨.lref (.buffer (.complex .double) 1), "b", none⟩, ⟨.int64, "ldb", none⟩], false⟩
]

/-- The `dotu` overloads of the `// Buffer APIs` section (blas_ct_templates.hpp:579). -/
def dotu : List Decl := [
  -- line 579
  ⟨[⟨.library, "lib"⟩, ⟨.backend, "backend"⟩], true, true, .void, "dotu", [
    ⟨.lref .queue, "queue", none⟩, ⟨.int64, "n", none⟩,
    ⟨.lref (.buffer (.complex .float) 1), "x", none⟩, ⟨.int64, "incx", none⟩,
    ⟨.lref (.buffer (.complex .float) 1), "y", none⟩, ⟨.int64, "incy", none⟩,
    ⟨.lref (.buffer (.complex .float) 1), "result", none⟩], false⟩,
  -- line 585
  ⟨[⟨.library, "lib"⟩, ⟨.backend, "backend"⟩], true, true, .void, "dotu", [
    ⟨.lref .queue, "queue", none⟩, ⟨.int64, "n", none⟩,
    ⟨.lref (.buffer (.complex .double) 1), "x", none⟩, ⟨.int64, "incx", none⟩,
    ⟨.lref (.buffer (.complex .double) 1), "y", none⟩, ⟨.int64, "incy", none⟩,
    ⟨.lref (.buffer (.complex .double) 1), "result", none⟩], false⟩
]

/-- The `hemm` overloads of the `// Buffer APIs` section (blas_ct_templates.hpp:591). -/
def hemm : List Decl := [
  -- line 591
  ⟨[⟨.library, "lib"⟩, ⟨.backend, "backend"⟩], true, true, .void, "hemm", [
    ⟨.lref .queue, "queue", none⟩, ⟨.side, "left_right", none⟩, ⟨.uplo, "upper_lower", none⟩,
    ⟨.int64, "m", none⟩, ⟨.int64, "n", none⟩, ⟨.complex .float, "alpha", none⟩,
    ⟨.lref (.buffer (.complex .float) 1), "a", none⟩, ⟨.int64, "lda", none⟩,
    ⟨.lref (.buffer (.complex .float) 1), "b", none⟩, ⟨.int64, "ldb", none⟩,
    ⟨.complex .float, "beta", none⟩, ⟨.lref (.buffer (.complex .float) 1), "c", none⟩,
    ⟨.int64, "ldc", none⟩], false⟩,
  -- line 599
  ⟨[⟨.library, "lib"⟩, ⟨.backend, "backend"⟩], true, true, .void, "hemm", [
    ⟨.lref .queue, "queue", none⟩, ⟨.side, "left_right", none⟩, ⟨.uplo, "upper_lower", none⟩,
    ⟨.int64, "m", none⟩, ⟨.int64, "n", none⟩, ⟨.complex .double, "alpha", none⟩,
    ⟨.lref (.buffer (.complex .double) 1), "a", none⟩, ⟨.int64, "lda", none⟩,
    ⟨.lref (.buffer (.complex .double) 1), "b", none⟩, ⟨.int64, "ldb", none⟩,
    ⟨.complex .double, "beta", none⟩, ⟨.lref (.buffer (.complex .double) 1), "c", none⟩,
    ⟨.int64, "ldc", none⟩], false⟩
]

/-- The `hpr2` overloads of the `// Buffer APIs` section (blas_ct_templates.hpp:607). -/
def hpr2 : List Decl := [
  -- line 607
  ⟨[⟨.library, "lib"⟩, ⟨.backend, "backend"⟩], true, true, .void, "hpr2", [
    ⟨.lref .queue, "queue", none⟩, ⟨.uplo, "upper_lower", none⟩, ⟨.int64, "n", none⟩,
    ⟨.complex .float, "alpha", none⟩, ⟨.lref (.buffer (.complex .float) 1), "x", none⟩,
    ⟨.int64, "incx", none⟩, ⟨.lref (.buffer (.complex .float) 1), "y", none⟩,
    ⟨.int64, "incy", none⟩, ⟨.lref (.buffer (.complex .float) 1), "a", none⟩], false⟩,
  -- line 613
  ⟨[⟨.library, "lib"⟩, ⟨.backend, "backend"⟩], true, true, .void, "hpr2", [
    ⟨.lref .queue, "queue", none⟩, ⟨.uplo, "upper_lower", none⟩, ⟨.int64, "n", none⟩,
    ⟨.complex .double, "alpha", none⟩, ⟨.lref (.buffer (.complex .double) 1), "x", none⟩,
    ⟨.int64, "incx", none⟩, ⟨.lref (.buffer (.complex .double) 1), "y", none⟩,
    ⟨.int64, "incy", none⟩, ⟨.lref (.buffer (.complex .double) 1), "a", none⟩], false⟩
]

/-- The `gbmv` overloads of the `// Buffer APIs` section (blas_ct_templates.hpp:619). -/
def gbmv : List Decl := [
  -- line 619
  ⟨[⟨.library, "lib"⟩, ⟨.backend, "backend"⟩], true, true, .void, "gbmv", [
    ⟨.lref .queue, "queue", none⟩, ⟨.transpose, "trans", none⟩, ⟨.int64, "m", none⟩,
    ⟨.int64, "n", none⟩, ⟨.int64, "kl", none⟩, ⟨.int64, "ku", none⟩, ⟨.float, "alpha", none⟩,
    ⟨.lref (.buffer .float 1), "a", none⟩, ⟨.int64, "lda", none⟩,
    ⟨.lref (.buffer .float 1), "x", none⟩, ⟨.int64, "incx", none⟩, ⟨.float, "beta", none⟩,
    ⟨.lref (.buffer .float 1), "y", none⟩, ⟨.int64, "incy", none⟩], false⟩,
  -- line 626
  ⟨[⟨.library, "lib"⟩, ⟨.backend, "backend"⟩], true, true, .void, "gbmv", [
    ⟨.lref .queue, "queue", none⟩, ⟨.transpose, "trans", none⟩, ⟨.int64, "m", none⟩,
    ⟨.int64, "n", none⟩, ⟨.int64, "kl", none⟩, ⟨.int64, "ku", none⟩, ⟨.double, "alpha", none⟩,
    ⟨.lref (.buffer .double 1), "a", none⟩, ⟨.int64, "lda", none⟩,
    ⟨.lref (.buffer .double 1), "x", none⟩, ⟨.int64, "incx", none⟩, ⟨.double, "beta", none⟩,
    ⟨.lref (.buffer .double 1), "y", none⟩, ⟨.int64, "incy", none⟩], false⟩,
  -- line 633
  ⟨[⟨.library, "lib"⟩, ⟨.backend, "backend"⟩], true, true, .void, "gbmv", [
    ⟨.lref .queue, "queue", none⟩, ⟨.transpose, "trans", none⟩, ⟨.int64, "m", none⟩,
    ⟨.int64, "n", none⟩, ⟨.int64, "kl", none⟩, ⟨.int64, "ku", none⟩,
    ⟨.complex .float, "alpha", none⟩, ⟨.lref (.buffer (.complex .float) 1), "a", none⟩,
    ⟨.int64, "lda", none⟩, ⟨.lref (.buffer (.complex .float) 1), "x", none⟩,
    ⟨.int64, "incx", none⟩, ⟨.complex .float, "beta", none⟩,
    ⟨.lref (.buffer (.complex .float) 1), "y", none⟩, ⟨.int64, "incy", none⟩], false⟩,
  -- line 641
  ⟨[⟨.library, "lib"⟩, ⟨.backend, "backend"⟩], true, true, .void, "gbmv", [
    ⟨.lref .queue, "queue", none⟩, ⟨.transpose, "trans", none⟩, ⟨.int64, "m", none⟩,
    ⟨.int64, "n", none⟩, ⟨.int64, "kl", none⟩, ⟨.int64, "ku", none⟩,
    ⟨.complex .double, "alpha", none⟩, ⟨.lref (.buffer (.complex .double) 1), "a", none⟩,
    ⟨.int64, "lda", none⟩, ⟨.lref (.buffer (.complex .double) 1), "x", none⟩,
    ⟨.int64, "incx", none⟩, ⟨.complex .double, "beta", none⟩,
    ⟨.lref (.buffer (.complex .double) 1), "y", none⟩, ⟨.int64, "incy", none⟩], false⟩
]

/-- The `tbmv` overloads of the `// Buffer APIs` section (blas_ct_templates.hpp:649). -/
def tbmv : List Decl := [
  -- line 649
  ⟨[⟨.library, "lib"⟩, ⟨.backend, "backend"⟩], true, true, .void, "tbmv", [
    ⟨.lref .queue, "queue", none⟩, ⟨.uplo, "upper_lower", none⟩, ⟨.transpose, "trans", none⟩,
    ⟨.diag, "unit_diag", none⟩, ⟨.int64, "n", none⟩, ⟨.int64, "k", none⟩,
    ⟨.lref (.buffer .float 1), "a", none⟩, ⟨.int64, "lda", none⟩,
    ⟨.lref (.buffer .float 1), "x", none⟩, ⟨.int64, "incx", none⟩], false⟩,
  -- line 654
  ⟨[⟨.library, "lib"⟩, ⟨.backend, "backend"⟩], true, true, .void, "tbmv", [
    ⟨.lref .queue, "queue", none⟩, ⟨.uplo, "upper_lower", none⟩, ⟨.transpose, "trans", none⟩,
    ⟨.diag, "unit_diag", none⟩, ⟨.int64, "n", none⟩, ⟨.int64, "k", none⟩,
    ⟨.lref (.buffer .double 1), "a", none⟩, ⟨.int64, "lda", none⟩,
    ⟨.lref (.buffer .double 1), "x", none⟩, ⟨.int64, "incx", none⟩], false⟩,
  -- line 659
  ⟨[⟨.library, "lib"⟩, ⟨.backend, "backend"⟩], true, true, .void, "tbmv", [
    ⟨.lref .queue, "queue", none⟩, ⟨.uplo, "upper_lower", none⟩, ⟨.transpose, "trans", none⟩,
    ⟨.diag, "unit_diag", none⟩, ⟨.int64, "n", none⟩, ⟨.int64, "k", none⟩,
    ⟨.lref (.buffer (.complex .float) 1), "a", none⟩, ⟨.int64, "lda", none⟩,
    ⟨.lref (.buffer (.complex .float) 1), "x", none⟩, ⟨.int64, "incx", none⟩], false⟩,
  -- line 665
  ⟨[⟨.library, "lib"⟩, ⟨.backend, "backend"⟩], true, true, .void, "tbmv", [
    ⟨.lref .queue, "queue", none⟩, ⟨.uplo, "upper_lower", none⟩, ⟨.transpose, "trans", none⟩,
    ⟨.diag, "unit_diag", none⟩, ⟨.int64, "n", none⟩, ⟨.int64, "k", none⟩,
    ⟨.lref (.buffer (.complex .double) 1), "a", none⟩, ⟨.int64, "lda", none⟩,
    ⟨.lref (.buffer (.complex .double) 1), "x", none⟩, ⟨.int64, "incx", none⟩], false⟩
]

/-- The `symm` overloads of the `// Buffer APIs` section (blas_ct_templates.hpp:671). -/
def symm : List Decl := [
  -- line 671
  ⟨[⟨.library, "lib"⟩, ⟨.backend, "backend"⟩], true, true, .void, "symm", [
    ⟨.lref .queue, "queue", none⟩, ⟨.side, "left_right", none⟩, ⟨.uplo, "upper_lower", none⟩,
    ⟨.int64, "m", none⟩, ⟨.int64, "n", none⟩, ⟨.float, "alpha", none⟩,
    ⟨.lref (.buffer .float 1), "a", none⟩, ⟨.int64, "lda", none⟩,
    ⟨.lref (.buffer .float 1), "b", none⟩, ⟨.int64, "ldb", none⟩, ⟨.float, "beta", none⟩,
    ⟨.lref (.buffer .float 1), "c", none⟩, ⟨.int64, "ldc", none⟩], false⟩,
  -- line 677
  ⟨[⟨.library, "lib"⟩, ⟨.backend, "backend"⟩], true, true, .void, "symm", [
    ⟨.lref .queue, "queue", none⟩, ⟨.side, "left_right", none⟩, ⟨.uplo, "upper_lower", none⟩,
    ⟨.int64, "m", none⟩, ⟨.int64, "n", none⟩, ⟨.double, "alpha", none⟩,
    ⟨.lref (.buffer .double 1), "a", none⟩, ⟨.int64, "lda", none⟩,
    ⟨.lref (.buffer .double 1), "b", none⟩, ⟨.int64, "ldb", none⟩, ⟨.double, "beta", none⟩,
    ⟨.lref (.buffer .double 1), "c", none⟩, ⟨.int64, "ldc", none⟩], false⟩,
  -- line 683
  ⟨[⟨.library, "lib"⟩, ⟨.backend, "backend"⟩], true, true, .void, "symm", [
    ⟨.lref .queue, "queue", none⟩, ⟨.side, "left_right", none⟩, ⟨.uplo, "upper_lower", none⟩,
    ⟨.int64, "m", none⟩, ⟨.int64, "n", none⟩, ⟨.complex .float, "alpha", none⟩,
    ⟨.lref (.buffer (.complex .float) 1), "a", none⟩, ⟨.int64, "lda", none⟩,
    ⟨.lref (.buffer (.complex .float) 1), "b", none⟩, ⟨.int64, "ldb", none⟩,
    ⟨.complex .float, "beta", none⟩, ⟨.lref (.buffer (.complex .float) 1), "c", none⟩,
    ⟨.int64, "ldc", none⟩], false⟩,
  -- line 691
  ⟨[⟨.library, "lib"⟩, ⟨.backend, "backend"⟩], true, true, .void, "symm", [
    ⟨.lref .queue, "queue", none⟩, ⟨.side, "left_right", none⟩, ⟨.uplo, "upper_lower", none⟩,
    ⟨.int64, "m", none⟩, ⟨.int64, "n", none⟩, ⟨.complex .double, "alpha", none⟩,
    ⟨.lref (.buffer (.complex .double) 1), "a", none⟩, ⟨.int64, "lda", none⟩,
    ⟨.lref (.buffer (.complex .double) 1), "b", none⟩, ⟨.int64, "ldb", none⟩,
    ⟨.complex .double, "beta", none⟩, ⟨.lref (.buffer (.complex .double) 1), "c", none⟩,
    ⟨.int64, "ldc", none⟩], false⟩
]

/-- The `dotc` overloads of the `// Buffer APIs` section (blas_ct_templates.hpp:699). -/
def dotc : List Decl := [
  -- line 699
  ⟨[⟨.library, "lib"⟩, ⟨.backend, "backend"⟩], true, true, .void, "dotc", [
    ⟨.lref .queue, "queue", none⟩, ⟨.int64, "n", none⟩,
    ⟨.lref (.buffer (.complex .float) 1), "x", none⟩, ⟨.int64, "incx", none⟩,
    ⟨.lref (.buffer (.complex .float) 1), "y", none⟩, ⟨.int64, "incy", none⟩,
    ⟨.lref (.buffer (.complex .float) 1), "result", none⟩], false⟩,
  -- line 705
  ⟨[⟨.library, "lib"⟩, ⟨.backend, "backend"⟩], true, true, .void, "dotc", [
    ⟨.lref .queue, "queue", none⟩, ⟨.int64, "n", none⟩,
    ⟨.lref (.buffer (.complex .double) 1), "x", none⟩, ⟨.int64, "incx", none⟩,
    ⟨.lref (.buffer (.complex .double) 1), "y", none⟩, ⟨.int64, "incy", none⟩,
    ⟨.lref (.buffer (.complex .double) 1), "result", none⟩], false⟩
]

/-- The `syr` overloads of the `// Buffer APIs` section (blas_ct_templates.hpp:711). -/
def syr : List Decl := [
  -- line 711
  ⟨[⟨.library, "lib"⟩, ⟨.backend, "backend"⟩], true, true, .void, "syr", [
    ⟨.lref .queue, "queue", none⟩, ⟨.uplo, "upper_lower", none⟩, ⟨.int64, "n", none⟩,
    ⟨.float, "alpha", none⟩, ⟨.lref (.buffer .float 1), "x", none⟩, ⟨.int64, "incx", none⟩,
    ⟨.lref (.buffer .float 1), "a", none⟩, ⟨.int64, "lda", none⟩], false⟩,
  -- line 716
  ⟨[⟨.library, "lib"⟩, ⟨.backend, "backend"⟩], true, true, .void, "syr", [
    ⟨.lref .queue, "queue", none⟩, ⟨.uplo, "upper_lower", none⟩, ⟨.int64, "n", none⟩,
    ⟨.double, "alpha", none⟩, ⟨.lref (.buffer .double 1), "x", none⟩, ⟨.int64, "incx", none⟩,
    ⟨.lref (.buffer .double 1), "a", none⟩, ⟨.int64, "lda", none⟩], false⟩
]

/-- The `trmm` overloads of the `// Buffer APIs` section (blas_ct_templates.hpp:721). -/
def trmm : List Decl := [
  -- line 721
  ⟨[⟨.library, "lib"⟩, ⟨.backend, "backend"⟩], true, true, .void, "trmm", [
    ⟨.lref .queue, "queue", none⟩, ⟨.side, "left_right", none⟩, ⟨.uplo, "upper_lower", none⟩,
    ⟨.transpose, "trans", none⟩, ⟨.diag, "unit_diag", none⟩, ⟨.int64, "m", none⟩,
    ⟨.int64, "n", none⟩, ⟨.float, "alpha", none⟩, ⟨.lref (.buffer .float 1), "a", none⟩,
    ⟨.int64, "lda", none⟩, ⟨.lref (.buffer .float 1), "b", none⟩, ⟨.int64, "ldb", none⟩], false⟩,
  -- line 727
  ⟨[⟨.library, "lib"⟩, ⟨.backend, "backend"⟩], true, true, .void, "trmm", [
    ⟨.lref .queue, "queue", none⟩, ⟨.side, "left_right", none⟩, ⟨.uplo, "upper_lower", none⟩,
    ⟨.transpose, "trans", none⟩, ⟨.diag, "unit_diag", none⟩, ⟨.int64, "m", none⟩,
    ⟨.int64, "n", none⟩, ⟨.double, "alpha", none⟩, ⟨.lref (.buffer .double 1), "a", none⟩,
    ⟨.int64, "lda", none⟩, ⟨.lref (.buffer .double 1), "b", none⟩, ⟨.int64, "ldb", none⟩], false⟩,
  -- line 733
  ⟨[⟨.library, "lib"⟩, ⟨.backend, "backend"⟩], true, true, .void, "trmm", [
    ⟨.lref .queue, "queue", none⟩, ⟨.side, "left_right", none⟩, ⟨.uplo, "upper_lower", none⟩,
    ⟨.transpose, "trans", none⟩, ⟨.diag, "unit_diag", none⟩, ⟨.int64, "m", none⟩,
    ⟨.int64, "n", none⟩, ⟨.complex .float, "alpha", none⟩,
    ⟨.lref (.buffer (.complex .float) 1), "a", none⟩, ⟨.int64, "lda", none⟩,
    ⟨.lref (.buffer (.complex .float) 1), "b", none⟩, ⟨.int64, "ldb", none⟩], false⟩,
  -- line 739
  ⟨[⟨.library, "lib"⟩, ⟨.backend, "backend"⟩], true, true, .void, "trmm", [
    ⟨.lref .queue, "queue", none⟩, ⟨.side, "left_right", none⟩, ⟨.uplo, "upper_lower", none⟩,
    ⟨.transpose, "trans", none⟩, ⟨.diag, "unit_diag", none⟩, ⟨.int64, "m", none⟩,
    ⟨.int64, "n", none⟩, ⟨.complex .double, "alpha", none⟩,
    ⟨.lref (.buffer (.complex .double) 1), "a", none⟩, ⟨.int64, "lda", none⟩,
    ⟨.lref (.buffer (.complex .double) 1), "b", none⟩, ⟨.int64, "ldb", none⟩], false⟩
]

/-- The `rotmg` overloads of the `// Buffer APIs` section (blas_ct_templates.hpp:745). -/
def rotmg : List Decl := [
  -- line 745
  ⟨[⟨.library, "lib"⟩, ⟨.backend, "backend"⟩], true, true, .void, "rotmg", [
    ⟨.lref .queue, "queue", none⟩, ⟨.lref (.buffer .float 1), "d1", none⟩,
    ⟨.lref (.buffer .float 1), "d2", none⟩, ⟨.lref (.buffer .float 1), "x1", none⟩,
    ⟨.float, "y1", none⟩, ⟨.lref (.buffer .float 1), "param", none⟩], false⟩,
  -- line 750
  ⟨[⟨.library, "lib"⟩, ⟨.backend, "backend"⟩], true, true, .void, "rotmg", [
    ⟨.lref .queue, "queue", none⟩, ⟨.lref (.buffer .double 1), "d1", none⟩,
    ⟨.lref (.buffer .double 1), "d2", none⟩, ⟨.lref (.buffer .double 1), "x1", none⟩,
    ⟨.double, "y1", none⟩, ⟨.lref (.buffer .double 1), "param", none⟩], false⟩
]

/-- The `tpsv` overloads of the `// Buffer APIs` section (blas_ct_templates.hpp:755). -/
def tpsv : List Decl := [
  -- line 755
  ⟨[⟨.library, "lib"⟩, ⟨.backend, "backend"⟩], true, true, .void, "tpsv", [
    ⟨.lref .queue, "queue", none⟩, ⟨.uplo, "upper_lower", none⟩, ⟨.transpose, "trans", none⟩,
    ⟨.diag, "unit_diag", none⟩, ⟨.int64, "n", none⟩, ⟨.lref (.buffer .float 1), "a", none⟩,
    ⟨.lref (.buffer .float 1), "x", none⟩, ⟨.int64, "incx", none⟩], false⟩,
  -- line 760
  ⟨[⟨.library, "lib"⟩, ⟨.backend, "backend"⟩], true, true, .void, "tpsv", [
    ⟨.lref .queue, "queue", none⟩, ⟨.uplo, "upper_lower", none⟩, ⟨.transpose, "trans", none⟩,
    ⟨.diag, "unit_diag", none⟩, ⟨.int64, "n", none⟩, ⟨.lref (.buffer .double 1), "a", none⟩,
    ⟨.lref (.buffer .double 1), "x", none⟩, ⟨.int64, "incx", none⟩], false⟩,
  -- line 765
  ⟨[⟨.library, "lib"⟩, ⟨.backend, "backend"⟩], true, true, .void, "tpsv", [
    ⟨.lref .queue, "queue", none⟩, ⟨.uplo, "upper_lower", none⟩, ⟨.transpose, "trans", none⟩,
    ⟨.diag, "unit_diag", none⟩, ⟨.int64, "n", none⟩,
    ⟨.lref (.buffer (.complex .float) 1), "a", none⟩,
    ⟨.lref (.buffer (.complex .float) 1), "x", none⟩, ⟨.int64, "incx", none⟩], false⟩,
  -- line 770
  ⟨[⟨.library, "lib"⟩, ⟨.backend, "backend"⟩], true, true, .void, "tpsv", [
    ⟨.lref .queue, "queue", none⟩, ⟨.uplo, "upper_lower", none⟩, ⟨.transpose, "trans", none⟩,
    ⟨.diag, "unit_diag", none⟩, ⟨.int64, "n", none⟩,
    ⟨.lref (.buffer (.complex .double) 1), "a", none⟩,
    ⟨.lref (.buffer (.complex .double) 1), "x", none⟩, ⟨.int64, "incx", none⟩], false⟩
]

/-- The `trsv` overloads of the `// Buffer APIs` section (blas_ct_templates.hpp:775). -/
def trsv : List Decl := [
  -- line 775
  ⟨[⟨.library, "lib"⟩, ⟨.backend, "backend"⟩], true, true, .void, "trsv", [
    ⟨.lref .queue, "queue", none⟩, ⟨.uplo, "upper_lower", none⟩, ⟨.transpose, "trans", none⟩,
    ⟨.diag, "unit_diag", none⟩, ⟨.int64, "n", none⟩, ⟨.lref (.buffer .float 1), "a", none⟩,
    ⟨.int64, "lda", none⟩, ⟨.lref (.buffer .float 1), "x", none⟩, ⟨.int64, "incx", none⟩], false⟩,
  -- line 780
  ⟨[⟨.library, "lib"⟩, ⟨.backend, "backend"⟩], true, true, .void, "trsv", [
    ⟨.lref .queue, "queue", none⟩, ⟨.uplo, "upper_lower", none⟩, ⟨.transpose, "trans", none⟩,
    ⟨.diag, "unit_diag", none⟩, ⟨.int64, "n", none⟩, ⟨.lref (.buffer .double 1), "a", none⟩,
    ⟨.int64, "lda", none⟩, ⟨.lref (.buffer .double 1), "x", none⟩, ⟨.int64, "incx", none⟩], false⟩,
  -- line 785
  ⟨[⟨.library, "lib"⟩, ⟨.backend, "backend"⟩], true, true, .void, "trsv", [
    ⟨.lref .queue, "queue", none⟩, ⟨.uplo, "upper_lower", none⟩, ⟨.transpose, "trans", none⟩,
    ⟨.diag, "unit_diag", none⟩, ⟨.int64, "n", none⟩,
    ⟨.lref (.buffer (.complex .float) 1), "a", none⟩, ⟨.int64, "lda", none⟩,
    ⟨.lref (.buffer (.complex .float) 1), "x", none⟩, ⟨.int64, "incx", none⟩], false⟩,
  -- line 791
  ⟨[⟨.library, "lib"⟩, ⟨.backend, "backend"⟩], true, true, .void, "trsv", [
    ⟨.lref .queue, "queue", none⟩, ⟨.uplo, "upper_lower", none⟩, ⟨.transpose, "trans", none⟩,
    ⟨.diag, "unit_diag", none⟩, ⟨.int64, "n", none⟩,
    ⟨.lref (.buffer (.complex .double) 1), "a", none⟩, ⟨.int64, "lda", none⟩,
    ⟨.lref (.buffer (.complex .double) 1), "x", none⟩, ⟨.int64, "incx", none⟩], false⟩
]

/-- The `copy` overloads of the `// Buffer APIs` section (blas_ct_templates.hpp:797). -/
def copy : List Decl := [
  -- line 797
  ⟨[⟨.library, "lib"⟩, ⟨.backend, "backend"⟩], true, true, .void, "copy", [
    ⟨.lref .queue, "queue", none⟩, ⟨.int64, "n", none⟩, ⟨.lref (.buffer .float 1), "x", none⟩,
    ⟨.int64, "incx", none⟩, ⟨.lref (.buffer .float 1), "y", none⟩, ⟨.int64, "incy", none⟩], false⟩,
  -- line 801
  ⟨[⟨.library, "lib"⟩, ⟨.backend, "backend"⟩], true, true, .void, "copy", [
    ⟨.lref .queue, "queue", none⟩, ⟨.int64, "n", none⟩, ⟨.lref (.buffer .double 1), "x", none⟩,
    ⟨.int64, "incx", none⟩, ⟨.lref (.buffer .double 1), "y", none⟩, ⟨.int64, "incy", none⟩], false⟩,
  -- line 805
  ⟨[⟨.library, "lib"⟩, ⟨.backend, "backend"⟩], true, true, .void, "copy", [
    ⟨.lref .queue, "queue", none⟩, ⟨.int64, "n", none⟩,
    ⟨.lref (.buffer (.complex .float) 1), "x", none⟩, ⟨.int64, "incx", none⟩,
    ⟨.lref (.buffer (.complex .float) 1), "y", none⟩, ⟨.int64, "incy", none⟩], false⟩,
  -- line 810
  ⟨[⟨.library, "lib"⟩, ⟨.backend, "backend"⟩], true, true, .void, "copy", [
    ⟨.lref .queue, "queue", none⟩, ⟨.int64, "n", none⟩,
    ⟨.lref (.buffer (.complex .double) 1), "x", none⟩, ⟨.int64, "incx", none⟩,
    ⟨.lref (.buffer (.complex .double) 1), "y", none⟩, ⟨.int64, "incy", none⟩], false⟩
]

/-- The `hemv` overloads of the `// Buffer APIs` section (blas_ct_templates.hpp:815). -/
def hemv : List Decl := [
  -- line 815
  ⟨[⟨.library, "lib"⟩, ⟨.backend, "backend"⟩], true, true, .void, "hemv", [
    ⟨.lref .queue, "queue", none⟩, ⟨.uplo, "upper_lower", none⟩, ⟨.int64, "n", none⟩,
    ⟨.complex .float, "alpha", none⟩, ⟨.lref (.buffer (.complex .float) 1), "a", none⟩,
    ⟨.int64, "lda", none⟩, ⟨.lref (.buffer (.complex .float) 1), "x", none⟩,
    ⟨.int64, "incx", none⟩, ⟨.complex .float, "beta", none⟩,
    ⟨.lref (.buffer (.complex .float) 1), "y", none⟩, ⟨.int64, "incy", none⟩], false⟩,
  -- line 822
  ⟨[⟨.library, "lib"⟩, ⟨.backend, "backend"⟩], true, true, .void, "hemv", [
    ⟨.lref .queue, "queue", none⟩, ⟨.uplo, "upper_lower", none⟩, ⟨.int64, "n", none⟩,
    ⟨.complex .double, "alpha", none⟩, ⟨.lref (.buffer (.complex .double) 1), "a", none⟩,
    ⟨.int64, "lda", none⟩, ⟨.lref (.buffer (.complex .double) 1), "x", none⟩,
    ⟨.int64, "incx", none⟩, ⟨.complex .double, "beta", none⟩,
    ⟨.lref (.buffer (.complex .double) 1), "y", none⟩, ⟨.int64, "incy", none⟩], false⟩
]

/-- The `gemmt` overloads of the `// Buffer APIs` section (blas_ct_templates.hpp:829). -/
def gemmt : List Decl := [
  -- line 829
  ⟨[⟨.library, "lib"⟩, ⟨.backend, "backend"⟩], true, true, .void, "gemmt", [
    ⟨.lref .queue, "queue", none⟩, ⟨.uplo, "upper_lower", none⟩, ⟨.transpose, "transa", none⟩,
    ⟨.transpose, "transb", none⟩, ⟨.int64, "n", none⟩, ⟨.int64, "k", none⟩,
    ⟨.float, "alpha", none⟩, ⟨.lref (.buffer .float 1), "a", none⟩, ⟨.int64, "lda", none⟩,
    ⟨.lref (.buffer .float 1), "b", none⟩, ⟨.int64, "ldb", none⟩, ⟨.float, "beta", none⟩,
    ⟨.lref (.buffer .float 1), "c", none⟩, ⟨.int64, "ldc", none⟩], false⟩,
  -- line 836
  ⟨[⟨.library, "lib"⟩, ⟨.backend, "backend"⟩], true, true, .void, "gemmt", [
    ⟨.lref .queue, "queue", none⟩, ⟨.uplo, "upper_lower", none⟩, ⟨.transpose, "transa", none⟩,
    ⟨.transpose, "transb", none⟩, ⟨.int64, "n", none⟩, ⟨.int64, "k", none⟩,
    ⟨.double, "alpha", none⟩, ⟨.lref (.buffer .double 1), "a", none⟩, ⟨.int64, "lda", none⟩,
    ⟨.lref (.buffer .double 1), "b", none⟩, ⟨.int64, "ldb", none⟩, ⟨.double, "beta", none⟩,
    ⟨.lref (.buffer .double 1), "c", none⟩, ⟨.int64, "ldc", none⟩], false⟩,
  -- line 843
  ⟨[⟨.library, "lib"⟩, ⟨.backend, "backend"⟩], true, true, .void, "gemmt", [
    ⟨.lref .queue, "queue", none⟩, ⟨.uplo, "upper_lower", none⟩, ⟨.transpose, "transa", none⟩,
    ⟨.transpose, "transb", none⟩, ⟨.int64, "n", none⟩, ⟨.int64, "k", none⟩,
    ⟨.complex .float, "alpha", none⟩, ⟨.lref (.buffer (.complex .float) 1), "a", none⟩,
    ⟨.int64, "lda", none⟩, ⟨.lref (.buffer (.complex .float) 1), "b", none⟩, ⟨.int64, "ldb", none⟩,
    ⟨.complex .float, "beta", none⟩, ⟨.lref (.buffer (.complex .float) 1), "c", none⟩,
    ⟨.int64, "ldc", none⟩], false⟩,
  -- line 851
  ⟨[⟨.library, "lib"⟩, ⟨.backend, "backend"⟩], true, true, .void, "gemmt", [
    ⟨.lref .queue, "queue", none⟩, ⟨.uplo, "upper_lower", none⟩, ⟨.transpose, "transa", none⟩,
    ⟨.transpose, "transb", none⟩, ⟨.int64, "n", none⟩, ⟨.int64, "k", none⟩,
    ⟨.complex .double, "alpha", none⟩, ⟨.lref (.buffer (.complex .double) 1), "a", none⟩,
    ⟨.int64, "lda", none⟩, ⟨.lref (.buffer (.complex .double) 1), "b", none⟩,
    ⟨.int64, "ldb", none⟩, ⟨.complex .double, "beta", none⟩,
    ⟨.lref (.buffer (.complex .double) 1), "c", none⟩, ⟨.int64, "ldc", none⟩], false⟩
]

/-- The `sbmv` overloads of the `// Buffer APIs` section (blas_ct_templates.hpp:859). -/
def sbmv : List Decl := [
  -- line 859
  ⟨[⟨.library, "lib"⟩, ⟨.backend, "backend"⟩], true, true, .void, "sbmv", [
    ⟨.lref .queue, "queue", none⟩, ⟨.uplo, "upper_lower", none⟩, ⟨.int64, "n", none⟩,
    ⟨.int64, "k", none⟩, ⟨.float, "alpha", none⟩, ⟨.lref (.buffer .float 1), "a", none⟩,
    ⟨.int64, "lda", none⟩, ⟨.lref (.buffer .float 1), "x", none⟩, ⟨.int64, "incx", none⟩,
    ⟨.float, "beta", none⟩, ⟨.lref (.buffer .float 1), "y", none⟩, ⟨.int64, "incy", none⟩], false⟩,
  -- line 865
  ⟨[⟨.library, "lib"⟩, ⟨.backend, "backend"⟩], true, true, .void, "sbmv", [
    ⟨.lref .queue, "queue", none⟩, ⟨.uplo, "upper_lower", none⟩, ⟨.int64, "n", none⟩,
    ⟨.int64, "k", none⟩, ⟨.double, "alpha", none⟩, ⟨.lref (.buffer .double 1), "a", none⟩,
    ⟨.int64, "lda", none⟩, ⟨.lref (.buffer .double 1), "x", none⟩, ⟨.int64, "incx", none⟩,
    ⟨.double, "beta", none⟩, ⟨.lref (.buffer .double 1), "y", none⟩, ⟨.int64, "incy", none⟩], false⟩
]

/-- The `asum` overloads of the `// Buffer APIs` section (blas_ct_templates.hpp:871). -/
def asum : List Decl := [
  -- line 871
  ⟨[⟨.library, "lib"⟩, ⟨.backend, "backend"⟩], true, true, .void, "asum", [
    ⟨.lref .queue, "queue", none⟩, ⟨.int64, "n", none⟩,
    ⟨.lref (.buffer (.complex .float) 1), "x", none⟩, ⟨.int64, "incx", none⟩,
    ⟨.lref (.buffer .float 1), "result", none⟩], false⟩,
  -- line 876
  ⟨[⟨.library, "lib"⟩, ⟨.backend, "backend"⟩], true, true, .void, "asum", [
    ⟨.lref .queue, "queue", none⟩, ⟨.int64, "n", none⟩,
    ⟨.lref (.buffer (.complex .double) 1), "x", none⟩, ⟨.int64, "incx", none⟩,
    ⟨.lref (.buffer .double 1), "result", none⟩], false⟩,
  -- line 881
  ⟨[⟨.library, "lib"⟩, ⟨.backend, "backend"⟩], true, true, .void, "asum", [
    ⟨.lref .queue, "queue", none⟩, ⟨.int64, "n", none⟩, ⟨.lref (.buffer .float 1), "x", none⟩,
    ⟨.int64, "incx", none⟩, ⟨.lref (.buffer .float 1), "result", none⟩], false⟩,
  -- line 885
  ⟨[⟨.library, "lib"⟩, ⟨.backend, "backend"⟩], true, true, .void, "asum", [
    ⟨.lref .queue, "queue", none⟩, ⟨.int64, "n", none⟩, ⟨.lref (.buffer .double 1), "x", none⟩,
    ⟨.int64, "incx", none⟩, ⟨.lref (.buffer .double 1), "result", none⟩], false⟩
]

/-- The `tbsv` overloads of the `// Buffer APIs` section (blas_ct_templates.hpp:889). -/
def tbsv : List Decl := [
  -- line 889
  ⟨[⟨.library, "lib"⟩, ⟨.backend, "backend"⟩], true, true, .void, "tbsv", [
    ⟨.lref .queue, "queue", none⟩, ⟨.uplo, "upper_lower", none⟩, ⟨.transpose, "trans", none⟩,
    ⟨.diag, "unit_diag", none⟩, ⟨.int64, "n", none⟩, ⟨.int64, "k", none⟩,
    ⟨.lref (.buffer .float 1), "a", none⟩, ⟨.int64, "lda", none⟩,
    ⟨.lref (.buffer .float 1), "x", none⟩, ⟨.int64, "incx", none⟩], false⟩,
  -- line 894
  ⟨[⟨.library, "lib"⟩, ⟨.backend, "backend"⟩], true, true, .void, "tbsv", [
    ⟨.lref .queue, "queue", none⟩, ⟨.uplo, "upper_lower", none⟩, ⟨.transpose, "trans", none⟩,
    ⟨.diag, "unit_diag", none⟩, ⟨.int64, "n", none⟩, ⟨.int64, "k", none⟩,
    ⟨.lref (.buffer .double 1), "a", none⟩, ⟨.int64, "lda", none⟩,
    ⟨.lref (.buffer .double 1), "x", none⟩, ⟨.int64, "incx", none⟩], false⟩,
  -- line 899
  ⟨[⟨.library, "lib"⟩, ⟨.backend, "backend"⟩], true, true, .void, "tbsv", [
    ⟨.lref .queue, "queue", none⟩, ⟨.uplo, "upper_lower", none⟩, ⟨.transpose, "trans", none⟩,
    ⟨.diag, "unit_diag", none⟩, ⟨.int64, "n", none⟩, ⟨.int64, "k", none⟩,
    ⟨.lref (.buffer (.complex .float) 1), "a", none⟩, ⟨.int64, "lda", none⟩,
    ⟨.lref (.buffer (.complex .float) 1), "x", none⟩, ⟨.int64, "incx", none⟩], false⟩,
  -- line 905
  ⟨[⟨.library, "lib"⟩, ⟨.backend, "backend"⟩], true, true, .void, "tbsv", [
    ⟨.lref .queue, "queue", none⟩, ⟨.uplo, "upper_lower", none⟩, ⟨.transpose, "trans", none⟩,
    ⟨.diag, "unit_diag", none⟩, ⟨.int64, "n", none⟩, ⟨.int64, "k", none⟩,
    ⟨.lref (.buffer (.complex .double) 1), "a", none⟩, ⟨.int64, "lda", none⟩,
    ⟨.lref (.buffer (.complex .double) 1), "x", none⟩, ⟨.int64, "incx", none⟩], false⟩
]

/-- The `spr2` overloads of the `// Buffer APIs` section (blas_ct_templates.hpp:911). -/
def spr2 : List Decl := [
  -- line 911
  ⟨[⟨.library, "lib"⟩, ⟨.backend, "backend"⟩], true, true, .void, "spr2", [
    ⟨.lref .queue, "queue", none⟩, ⟨.uplo, "upper_lower", none⟩, ⟨.int64, "n", none⟩,
    ⟨.float, "alpha", none⟩, ⟨.lref (.buffer .float 1), "x", none⟩, ⟨.int64, "incx", none⟩,
    ⟨.lref (.buffer .float 1), "y", none⟩, ⟨.int64, "incy", none⟩,
    ⟨.lref (.buffer .float 1), "a", none⟩], false⟩,
  -- line 917
  ⟨[⟨.library, "lib"⟩, ⟨.backend, "backend"⟩], true, true, .void, "spr2", [
    ⟨.lref .queue, "queue", none⟩, ⟨.uplo, "upper_lower", none⟩, ⟨.int64, "n", none⟩,
    ⟨.double, "alpha", none⟩, ⟨.lref (.buffer .double 1), "x", none⟩, ⟨.int64, "incx", none⟩,
    ⟨.lref (.buffer .double 1), "y", none⟩, ⟨.int64, "incy", none⟩,
    ⟨.lref (.buffer .double 1), "a", none⟩], false⟩
]

/-- The `iamax` overloads of the `// Buffer APIs` section (blas_ct_templates.hpp:923). -/
def iamax : List Decl := [
  -- line 923
  ⟨[⟨.library, "lib"⟩, ⟨.backend, "backend"⟩], true, true, .void, "iamax", [
    ⟨.lref .queue, "queue", none⟩, ⟨.int64, "n", none⟩, ⟨.lref (.buffer .float 1), "x", none⟩,
    ⟨.int64, "incx", none⟩, ⟨.lref (.buffer .int64 1), "result", none⟩], false⟩,
  -- line 927
  ⟨[⟨.library, "lib"⟩, ⟨.backend, "backend"⟩], true, true, .void, "iamax", [
    ⟨.lref .queue, "queue", none⟩, ⟨.int64, "n", none⟩, ⟨.lref (.buffer .double 1), "x", none⟩,
    ⟨.int64, "incx", none⟩, ⟨.lref (.buffer .int64 1), "result", none⟩], false⟩,
  -- line 931
  ⟨[⟨.library, "lib"⟩, ⟨.backend, "backend"⟩], true, true, .void, "iamax", [
    ⟨.lref .queue, "queue", none⟩, ⟨.int64, "n", none⟩,
    ⟨.lref (.buffer (.complex .float) 1), "x", none⟩, ⟨.int64, "incx", none⟩,
    ⟨.lref (.buffer .int64 1), "result", none⟩], false⟩,
  -- line 936
  ⟨[⟨.library, "lib"⟩, ⟨.backend, "backend"⟩], true, true, .void, "iamax", [
    ⟨.lref .queue, "queue", none⟩, ⟨.int64, "n", none⟩,
    ⟨.lref (.buffer (.complex .double) 1), "x", none⟩, ⟨.int64, "incx", none⟩,
    ⟨.lref (.buffer .int64 1), "result", none⟩], false⟩
]

/-- The `trsm_batch` overloads of the `// Buffer APIs` section (blas_ct_templates.hpp:941). -/
def trsm_batch : List Decl := [
  -- line 941
  ⟨[⟨.library, "lib"⟩, ⟨.backend, "backend"⟩], true, true, .void, "trsm_batch", [
    ⟨.lref .queue, "queue", none⟩, ⟨.side, "left_right", none⟩, ⟨.uplo, "upper_lower", none⟩,
    ⟨.transpose, "trans", none⟩, ⟨.diag, "unit_diag", none⟩, ⟨.int64, "m", none⟩,
    ⟨.int64, "n", none⟩, ⟨.float, "alpha", none⟩, ⟨.lref (.buffer .float 1), "a", none⟩,
    ⟨.int64, "lda", none⟩, ⟨.int64, "stride_a", none⟩, ⟨.lref (.buffer .float 1), "b", none⟩,
    ⟨.int64, "ldb", none⟩, ⟨.int64, "stride_b", none⟩, ⟨.int64, "batch_size", none⟩], false⟩,
  -- line 948
  ⟨[⟨.library, "lib"⟩, ⟨.backend, "backend"⟩], true, true, .void, "trsm_batch", [
    ⟨.lref .queue, "queue", none⟩, ⟨.side, "left_right", none⟩, ⟨.uplo, "upper_lower", none⟩,
    ⟨.transpose, "trans", none⟩, ⟨.diag, "unit_diag", none⟩, ⟨.int64, "m", none⟩,
    ⟨.int64, "n", none⟩, ⟨.double, "alpha", none⟩, ⟨.lref (.buffer .double 1), "a", none⟩,
    ⟨.int64, "lda", none⟩, ⟨.int64, "stride_a", none⟩, ⟨.lref (.buffer .double 1), "b", none⟩,
    ⟨.int64, "ldb", none⟩, ⟨.int64, "stride_b", none⟩, ⟨.int64, "batch_size", none⟩], false⟩,
  -- line 955
  ⟨[⟨.library, "lib"⟩, ⟨.backend, "backend"⟩], true, true, .void, "trsm_batch", [
    ⟨.lref .queue, "queue", none⟩, ⟨.side, "left_right", none⟩, ⟨.uplo, "upper_lower", none⟩,
    ⟨.transpose, "trans", none⟩, ⟨.diag, "unit_diag", none⟩, ⟨.int64, "m", none⟩,
    ⟨.int64, "n", none⟩, ⟨.complex .float, "alpha", none⟩,
    ⟨.lref (.buffer (.complex .float) 1), "a", none⟩, ⟨.int64, "lda", none⟩,
    ⟨.int64, "stride_a", none⟩, ⟨.lref (.buffer (.complex .float) 1), "b", none⟩,
    ⟨.int64, "ldb", none⟩, ⟨.int64, "stride_b", none⟩, ⟨.int64, "batch_size", none⟩], false⟩,
  -- line 963
  ⟨[⟨.library, "lib"⟩, ⟨.backend, "backend"⟩], true, true, .void, "trsm_batch", [
    ⟨.lref .queue, "queue", none⟩, ⟨.side, "left_right", none⟩, ⟨.uplo, "upper_lower", none⟩,
    ⟨.transpose, "trans", none⟩, ⟨.diag, "unit_diag", none⟩, ⟨.int64, "m", none⟩,
    ⟨.int64, "n", none⟩, ⟨.complex .double, "alpha", none⟩,
    ⟨.lref (.buffer (.complex .double) 1), "a", none⟩, ⟨.int64, "lda", none⟩,
    ⟨.int64, "stride_a", none⟩, ⟨.lref (.buffer (.complex .double) 1), "b", none⟩,
    ⟨.int64, "ldb", none⟩, ⟨.int64, "stride_b", none⟩, ⟨.int64, "batch_size", none⟩], false⟩
]

/-- The `rotm` overloads of the `// Buffer APIs` section (blas_ct_templates.hpp:971). -/
def rotm : List Decl := [
  -- line 971
  ⟨[⟨.library, "lib"⟩, ⟨.backend, "backend"⟩], true, true, .void, "rotm", [
    ⟨.lref .queue, "queue", none⟩, ⟨.int64, "n", none⟩, ⟨.lref (.buffer .float 1), "x", none⟩,
    ⟨.int64, "incx", none⟩, ⟨.lref (.buffer .float 1), "y", none⟩, ⟨.int64, "incy", none⟩,
    ⟨.lref (.buffer .float 1), "param", none⟩], false⟩,
  -- line 976
  ⟨[⟨.library, "lib"⟩, ⟨.backend, "backend"⟩], true, true, .void, "rotm", [
    ⟨.lref .queue, "queue", none⟩, ⟨.int64, "n", none⟩, ⟨.lref (.buffer .double 1), "x", none⟩,
    ⟨.int64, "incx", none⟩, ⟨.lref (.buffer .double 1), "y", none⟩, ⟨.int64, "incy", none⟩,
    ⟨.lref (.buffer .double 1), "param", none⟩], false⟩
]

/-- The `rotg` overloads of the `// Buffer APIs` section (blas_ct_templates.hpp:981). -/
def rotg : List Decl := [
  -- line 981
  ⟨[⟨.library, "lib"⟩, ⟨.backend, "backend"⟩], true, true, .void, "rotg", [
    ⟨.lref .queue, "queue", none⟩, ⟨.lref (.buffer .float 1), "a", none⟩,
    ⟨.lref (.buffer .float 1), "b", none⟩, ⟨.lref (.buffer .float 1), "c", none⟩,
    ⟨.lref (.buffer .float 1), "s", none⟩], false⟩,
  -- line 986
  ⟨[⟨.library, "lib"⟩, ⟨.backend, "backend"⟩], true, true, .void, "rotg", [
    ⟨.lref .queue, "queue", none⟩, ⟨.lref (.buffer .double 1), "a", none⟩,
    ⟨.lref (.buffer .double 1), "b", none⟩, ⟨.lref (.buffer .double 1), "c", none⟩,
    ⟨.lref (.buffer .double 1), "s", none⟩], false⟩,
  -- line 991
  ⟨[⟨.library, "lib"⟩, ⟨.backend, "backend"⟩], true, true, .void, "rotg", [
    ⟨.lref .queue, "queue", none⟩, ⟨.lref (.buffer (.complex .float) 1), "a", none⟩,
    ⟨.lref (.buffer (.complex .float) 1), "b", none⟩, ⟨.lref (.buffer .float 1), "c", none⟩,
    ⟨.lref (.buffer (.complex .float) 1), "s", none⟩], false⟩,
  -- line 996
  ⟨[⟨.library, "lib"⟩, ⟨.backend, "backend"⟩], true, true, .void, "rotg", [
    ⟨.lref .queue, "queue", none⟩, ⟨.lref (.buffer (.complex .double) 1), "a", none⟩,
    ⟨.lref (.buffer (.complex .double) 1), "b", none⟩, ⟨.lref (.buffer .double 1), "c", none⟩,
    ⟨.lref (.buffer (.complex .double) 1), "s", none⟩], false⟩
]

/-- The `sdsdot` overloads of the `// Buffer APIs` section (blas_ct_templates.hpp:1002). -/
def sdsdot : List Decl := [
  -- line 1002
  ⟨[⟨.library, "lib"⟩, ⟨.backend, "backend"⟩], true, true, .void, "sdsdot", [
    ⟨.lref .queue, "queue", none⟩, ⟨.int64, "n", none⟩, ⟨.float, "sb", none⟩,
    ⟨.lref (.buffer .float 1), "x", none⟩, ⟨.int64, "incx", none⟩,
    ⟨.lref (.buffer .float 1), "y", none⟩, ⟨.int64, "incy", none⟩,
    ⟨.lref (.buffer .float 1), "result", none⟩], false⟩
]

/-- The `her2k` overloads of the `// Buffer APIs` section (blas_ct_templates.hpp:1008). -/
def her2k : List Decl := [
  -- line 1008
  ⟨[⟨.library, "lib"⟩, ⟨.backend, "backend"⟩], true, true, .void, "her2k", [
    ⟨.lref .queue, "queue", none⟩, ⟨.uplo, "upper_lower", none⟩, ⟨.transpose, "trans", none⟩,
    ⟨.int64, "n", none⟩, ⟨.int64, "k", none⟩, ⟨.complex .float, "alpha", none⟩,
    ⟨.lref (.buffer (.complex .float) 1), "a", none⟩, ⟨.int64, "lda", none⟩,
    ⟨.lref (.buffer (.complex .float) 1), "b", none⟩, ⟨.int64, "ldb", none⟩,
    ⟨.float, "beta", none⟩, ⟨.lref (.buffer (.complex .float) 1), "c", none⟩, ⟨.int64, "ldc", none⟩], false⟩,
  -- line 1015
  ⟨[⟨.library, "lib"⟩, ⟨.backend, "backend"⟩], true, true, .void, "her2k", [
    ⟨.lref .queue, "queue", none⟩, ⟨.uplo, "upper_lower", none⟩, ⟨.transpose, "trans", none⟩,
    ⟨.int64, "n", none⟩, ⟨.int64, "k", none⟩, ⟨.complex .double, "alpha", none⟩,
    ⟨.lref (.buffer (.complex .double) 1), "a", none⟩, ⟨.int64, "lda", none⟩,
    ⟨.lref (.buffer (.complex .double) 1), "b", none⟩, ⟨.int64, "ldb", none⟩,
    ⟨.double, "beta", none⟩, ⟨.lref (.buffer (.complex .double) 1), "c", none⟩,
    ⟨.int64, "ldc", none⟩], false⟩
]

/-- The `dot` overloads of the `// Buffer APIs` section (blas_ct_templates.hpp:1023). -/
def dot : List Decl := [
  -- line 1023
  ⟨[⟨.library, "lib"⟩, ⟨.backend, "backend"⟩], true, true, .void, "dot", [
    ⟨.lref .queue, "queue", none⟩, ⟨.int64, "n", none⟩, ⟨.lref (.buffer .float 1), "x", none⟩,
    ⟨.int64, "incx", none⟩, ⟨.lref (.buffer .float 1), "y", none⟩, ⟨.int64, "incy", none⟩,
    ⟨.lref (.buffer .float 1), "result", none⟩], false⟩,
  -- line 1028
  ⟨[⟨.library, "lib"⟩, ⟨.backend, "backend"⟩], true, true, .void, "dot", [
    ⟨.lref .queue, "queue", none⟩, ⟨.int64, "n", none⟩, ⟨.lref (.buffer .double 1), "x", none⟩,
    ⟨.int64, "incx", none⟩, ⟨.lref (.buffer .double 1), "y", none⟩, ⟨.int64, "incy", none⟩,
    ⟨.lref (.buffer .double 1), "result", none⟩], false⟩,
  -- line 1033
  ⟨[⟨.library, "lib"⟩, ⟨.backend, "backend"⟩], true, true, .void, "dot", [
    ⟨.lref .queue, "queue", none⟩, ⟨.int64, "n", none⟩, ⟨.lref (.buffer .float 1), "x", none⟩,
    ⟨.int64, "incx", none⟩, ⟨.lref (.buffer .float 1), "y", none⟩, ⟨.int64, "incy", none⟩,
    ⟨.lref (.buffer .double 1), "result", none⟩], false⟩
]

/-- The `symv` overloads of the `// Buffer APIs` section (blas_ct_templates.hpp:1038). -/
def symv : List Decl := [
  -- line 1038
  ⟨[⟨.library, "lib"⟩, ⟨.backend, "backend"⟩], true, true, .void, "symv", [
    ⟨.lref .queue, "queue", none⟩, ⟨.uplo, "upper_lower", none⟩, ⟨.int64, "n", none⟩,
    ⟨.float, "alpha", none⟩, ⟨.lref (.buffer .float 1), "a", none⟩, ⟨.int64, "lda", none⟩,
    ⟨.lref (.buffer .float 1), "x", none⟩, ⟨.int64, "incx", none⟩, ⟨.float, "beta", none⟩,
    ⟨.lref (.buffer .float 1), "y", none⟩, ⟨.int64, "incy", none⟩], false⟩,
  -- line 1044
  ⟨[⟨.library, "lib"⟩, ⟨.backend, "backend"⟩], true, true, .void, "symv", [
    ⟨.lref .queue, "queue", none⟩, ⟨.uplo, "upper_lower", none⟩, ⟨.int64, "n", none⟩,
    ⟨.double, "alpha", none⟩, ⟨.lref (.buffer .double 1), "a", none⟩, ⟨.int64, "lda", none⟩,
    ⟨.lref (.buffer .double 1), "x", none⟩, ⟨.int64, "incx", none⟩, ⟨.double, "beta", none⟩,
    ⟨.lref (.buffer .double 1), "y", none⟩, ⟨.int64, "incy", none⟩], false⟩
]

end buffer

/-- All declarations of the `// Buffer APIs` section of blas_ct_templates.hpp, in source order. -/
def bufferAPIs : List Decl :=
  buffer.syr2 ++ buffer.scal ++ buffer.trmv ++ buffer.tpmv ++ buffer.spr ++ buffer.hpmv ++
  buffer.syrk ++ buffer.her2 ++ buffer.hbmv ++ buffer.rot ++ buffer.axpy ++ buffer.gerc ++
  buffer.syr2k ++ buffer.gemv ++ buffer.her ++ buffer.hpr ++ buffer.iamin ++
  buffer.gemm_batch ++ buffer.spmv ++ buffer.gemm_ext ++ buffer.swap ++ buffer.geru ++
  buffer.nrm2 ++ buffer.gemm ++ buffer.herk ++ buffer.ger ++ buffer.trsm ++ buffer.dotu ++
  buffer.hemm ++ buffer.hpr2 ++ buffer.gbmv ++ buffer.tbmv ++ buffer.symm ++ buffer.dotc ++
  buffer.syr ++ buffer.trmm ++ buffer.rotmg ++ buffer.tpsv ++ buffer.trsv ++ buffer.copy ++
  buffer.hemv ++ buffer.gemmt ++ buffer.sbmv ++ buffer.asum ++ buffer.tbsv ++ buffer.spr2 ++
  buffer.iamax ++ buffer.trsm_batch ++ buffer.rotm ++ buffer.rotg ++ buffer.sdsdot ++
  buffer.her2k ++ buffer.dot ++ buffer.symv

namespace usm

/-- The `syr2` overloads of the `// USM APIs` section (blas_ct_templates.hpp:1052). -/
def syr2 : List Decl := [
  -- line 1052
  ⟨[⟨.library, "lib"⟩, ⟨.backend, "backend"⟩], true, true, .event, "syr2", [
    ⟨.lref .queue, "queue", none⟩, ⟨.uplo, "upper_lower", none⟩, ⟨.int64, "n", none⟩,
    ⟨.float, "alpha", none⟩, ⟨.ptr (.const .float), "x", none⟩, ⟨.int64, "incx", none⟩,
    ⟨.ptr (.const .float), "y", none⟩, ⟨.int64, "incy", none⟩, ⟨.ptr .float, "a", none⟩,
    ⟨.int64, "lda", none⟩,
    ⟨.lref (.const (.vectorClass .event)), "dependencies", (some .emptyBraces)⟩], false⟩,
  -- line 1058
  ⟨[⟨.library, "lib"⟩, ⟨.backend, "backend"⟩], true, true, .event, "syr2", [
    ⟨.lref .queue, "queue", none⟩, ⟨.uplo, "upper_lower", none⟩, ⟨.int64, "n", none⟩,
    ⟨.double, "alpha", none⟩, ⟨.ptr (.const .double), "x", none⟩, ⟨.int64, "incx", none⟩,
    ⟨.ptr (.const .double), "y", none⟩, ⟨.int64, "incy", none⟩, ⟨.ptr .double, "a", none⟩,
    ⟨.int64, "lda", none⟩,
    ⟨.lref (.const (.vectorClass .event)), "dependencies", (some .emptyBraces)⟩], false⟩
]

/-- The `scal` overloads of the `// USM APIs` section (blas_ct_templates.hpp:1064). -/
def scal : List Decl := [
  -- line 1064
  ⟨[⟨.library, "lib"⟩, ⟨.backend, "backend"⟩], true, true, .event, "scal", [
    ⟨.lref .queue, "queue", none⟩, ⟨.int64, "n", none⟩, ⟨.float, "alpha", none⟩,
    ⟨.ptr .float, "x", none⟩, ⟨.int64, "incx", none⟩,
    ⟨.lref (.const (.vectorClass .event)), "dependencies", (some .emptyBraces)⟩], false⟩,
  -- line 1069
  ⟨[⟨.library, "lib"⟩, ⟨.backend, "backend"⟩], true, true, .event, "scal", [
    ⟨.lref .queue, "queue", none⟩, ⟨.int64, "n", none⟩, ⟨.double, "alpha", none⟩,
    ⟨.ptr .double, "x", none⟩, ⟨.int64, "incx", none⟩,
    ⟨.lref (.const (.vectorClass .event)), "dependencies", (some .emptyBraces)⟩], false⟩,
  -- line 1074
  ⟨[⟨.library, "lib"⟩, ⟨.backend, "backend"⟩], true, true, .event, "scal", [
    ⟨.lref .queue, "queue", none⟩, ⟨.int64, "n", none⟩, ⟨.complex .float, "alpha", none⟩,
    ⟨.ptr (.complex .float), "x", none⟩, ⟨.int64, "incx", none⟩,
    ⟨.lref (.const (.vectorClass .event)), "dependencies", (some .emptyBraces)⟩], false⟩,
  -- line 1079
  ⟨[⟨.library, "lib"⟩, ⟨.backend, "backend"⟩], true, true, .event, "scal", [
    ⟨.lref .queue, "queue", none⟩, ⟨.int64, "n", none⟩, ⟨.complex .double, "alpha", none⟩,
    ⟨.ptr (.complex .double), "x", none⟩, ⟨.int64, "incx", none⟩,
    ⟨.lref (.const (.vectorClass .event)), "dependencies", (some .emptyBraces)⟩], false⟩,
  -- line 1084
  ⟨[⟨.library, "lib"⟩, ⟨.backend, "backend"⟩], true, true, .event, "scal", [
    ⟨.lref .queue, "queue", none⟩, ⟨.int64, "n", none⟩, ⟨.float, "alpha", none⟩,
    ⟨.ptr (.complex .float), "x", none⟩, ⟨.int64, "incx", none⟩,
    ⟨.lref (.const (.vectorClass .event)), "dependencies", (some .emptyBraces)⟩], false⟩,
  -- line 1089
  ⟨[⟨.library, "lib"⟩, ⟨.backend, "backend"⟩], true, true, .event, "scal", [
    ⟨.lref .queue, "queue", none⟩, ⟨.int64, "n", none⟩, ⟨.double, "alpha", none⟩,
    ⟨.ptr (.complex .double), "x", none⟩, ⟨.int64, "incx", none⟩,
    ⟨.lref (.const (.vectorClass .event)), "dependencies", (some .emptyBraces)⟩], false⟩
]

/-- The `trmv` overloads of the `// USM APIs` section (blas_ct_templates.hpp:1094). -/
def trmv : List Decl := [
  -- line 1094
  ⟨[⟨.library, "lib"⟩, ⟨.backend, "backend"⟩], true, true, .event, "trmv", [
    ⟨.lref .queue, "queue", none⟩, ⟨.uplo, "upper_lower", none⟩, ⟨.transpose, "trans", none⟩,
    ⟨.diag, "unit_diag", none⟩, ⟨.int64, "n", none⟩, ⟨.ptr (.const .float), "a", none⟩,
    ⟨.int64, "lda", none⟩, ⟨.ptr .float, "x", none⟩, ⟨.int64, "incx", none⟩,
    ⟨.lref (.const (.vectorClass .event)), "dependencies", (some .emptyBraces)⟩], false⟩,
  -- line 1100
  ⟨[⟨.library, "lib"⟩, ⟨.backend, "backend"⟩], true, true, .event, "trmv", [
    ⟨.lref .queue, "queue", none⟩, ⟨.uplo, "upper_lower", none⟩, ⟨.transpose, "trans", none⟩,
    ⟨.diag, "unit_diag", none⟩, ⟨.int64, "n", none⟩, ⟨.ptr (.const .double), "a", none⟩,
    ⟨.int64, "lda", none⟩, ⟨.ptr .double, "x", none⟩, ⟨.int64, "incx", none⟩,
    ⟨.lref (.const (.vectorClass .event)), "dependencies", (some .emptyBraces)⟩], false⟩,
  -- line 1106
  ⟨[⟨.library, "lib"⟩, ⟨.backend, "backend"⟩], true, true, .event, "trmv", [
    ⟨.lref .queue, "queue", none⟩, ⟨.uplo, "upper_lower", none⟩, ⟨.transpose, "trans", none⟩,
    ⟨.diag, "unit_diag", none⟩, ⟨.int64, "n", none⟩, ⟨.ptr (.const (.complex .float)), "a", none⟩,
    ⟨.int64, "lda", none⟩, ⟨.ptr (.complex .float), "x", none⟩, ⟨.int64, "incx", none⟩,
    ⟨.lref (.const (.vectorClass .event)), "dependencies", (some .emptyBraces)⟩], false⟩,
  -- line 1112
  ⟨[⟨.library, "lib"⟩, ⟨.backend, "backend"⟩], true, true, .event, "trmv", [
    ⟨.lref .queue, "queue", none⟩, ⟨.uplo, "upper_lower", none⟩, ⟨.transpose, "trans", none⟩,
    ⟨.diag, "unit_diag", none⟩, ⟨.int64, "n", none⟩, ⟨.ptr (.const (.complex .double)), "a", none⟩,
    ⟨.int64, "lda", none⟩, ⟨.ptr (.complex .double), "x", none⟩, ⟨.int64, "incx", none⟩,
    ⟨.lref (.const (.vectorClass .event)), "dependencies", (some .emptyBraces)⟩], false⟩
]

/-- The `tpmv` overloads of the `// USM APIs` section (blas_ct_templates.hpp:1118). -/
def tpmv : List Decl := [
  -- line 1118
  ⟨[⟨.library, "lib"⟩, ⟨.backend, "backend"⟩], true, true, .event, "tpmv", [
    ⟨.lref .queue, "queue", none⟩, ⟨.uplo, "upper_lower", none⟩, ⟨.transpose, "trans", none⟩,
    ⟨.diag, "unit_diag", none⟩, ⟨.int64, "n", none⟩, ⟨.ptr (.const .float), "a", none⟩,
    ⟨.ptr .float, "x", none⟩, ⟨.int64, "incx", none⟩,
    ⟨.lref (.const (.vectorClass .event)), "dependencies", (some .emptyBraces)⟩], false⟩,
  -- line 1124
  ⟨[⟨.library, "lib"⟩, ⟨.backend, "backend"⟩], true, true, .event, "tpmv", [
    ⟨.lref .queue, "queue", none⟩, ⟨.uplo, "upper_lower", none⟩, ⟨.transpose, "trans", none⟩,
    ⟨.diag, "unit_diag", none⟩, ⟨.int64, "n", none⟩, ⟨.ptr (.const .double), "a", none⟩,
    ⟨.ptr .double, "x", none⟩, ⟨.int64, "incx", none⟩,
    ⟨.lref (.const (.vectorClass .event)), "dependencies", (some .emptyBraces)⟩], false⟩,
  -- line 1130
  ⟨[⟨.library, "lib"⟩, ⟨.backend, "backend"⟩], true, true, .event, "tpmv", [
    ⟨.lref .queue, "queue", none⟩, ⟨.uplo, "upper_lower", none⟩, ⟨.transpose, "trans", none⟩,
    ⟨.diag, "unit_diag", none⟩, ⟨.int64, "n", none⟩, ⟨.ptr (.const (.complex .float)), "a", none⟩,
    ⟨.ptr (.complex .float), "x", none⟩, ⟨.int64, "incx", none⟩,
    ⟨.lref (.const (.vectorClass .event)), "dependencies", (some .emptyBraces)⟩], false⟩,
  -- line 1136
  ⟨[⟨.library, "lib"⟩, ⟨.backend, "backend"⟩], true, true, .event, "tpmv", [
    ⟨.lref .queue, "queue", none⟩, ⟨.uplo, "upper_lower", none⟩, ⟨.transpose, "trans", none⟩,
    ⟨.diag, "unit_diag", none⟩, ⟨.int64, "n", none⟩, ⟨.ptr (.const (.complex .double)), "a", none⟩,
    ⟨.ptr (.complex .double), "x", none⟩, ⟨.int64, "incx", none⟩,
    ⟨.lref (.const (.vectorClass .event)), "dependencies", (some .emptyBraces)⟩], false⟩
]

/-- The `spr` overloads of the `// USM APIs` section (blas_ct_templates.hpp:1142). -/
def spr : List Decl := [
  -- line 1142
  ⟨[⟨.library, "lib"⟩, ⟨.backend, "backend"⟩], true, true, .event, "spr", [
    ⟨.lref .queue, "queue", none⟩, ⟨.uplo, "upper_lower", none⟩, ⟨.int64, "n", none⟩,
    ⟨.float, "alpha", none⟩, ⟨.ptr (.const .float), "x", none⟩, ⟨.int64, "incx", none⟩,
    ⟨.ptr .float, "a", none⟩,
    ⟨.lref (.const (.vectorClass .event)), "dependencies", (some .emptyBraces)⟩], false⟩,
  -- line 1147
  ⟨[⟨.library, "lib"⟩, ⟨.backend, "backend"⟩], true, true, .event, "spr", [
    ⟨.lref .queue, "queue", none⟩, ⟨.uplo, "upper_lower", none⟩, ⟨.int64, "n", none⟩,
    ⟨.double, "alpha", none⟩, ⟨.ptr (.const .double), "x", none⟩, ⟨.int64, "incx", none⟩,
    ⟨.ptr .double, "a", none⟩,
    ⟨.lref (.const (.vectorClass .event)), "dependencies", (some .emptyBraces)⟩], false⟩
]

/-- The `hpmv` overloads of the `// USM APIs` section (blas_ct_templates.hpp:1152). -/
def hpmv : List Decl := [
  -- line 1152
  ⟨[⟨.library, "lib"⟩, ⟨.backend, "backend"⟩], true, true, .event, "hpmv", [
    ⟨.lref .queue, "queue", none⟩, ⟨.uplo, "upper_lower", none⟩, ⟨.int64, "n", none⟩,
    ⟨.complex .float, "alpha", none⟩, ⟨.ptr (.const (.complex .float)), "a", none⟩,
    ⟨.ptr (.const (.complex .float)), "x", none⟩, ⟨.int64, "incx", none⟩,
    ⟨.complex .float, "beta", none⟩, ⟨.ptr (.complex .float), "y", none⟩, ⟨.int64, "incy", none⟩,
    ⟨.lref (.const (.vectorClass .event)), "dependencies", (some .emptyBraces)⟩], false⟩,
  -- line 1159
  ⟨[⟨.library, "lib"⟩, ⟨.backend, "backend"⟩], true, true, .event, "hpmv", [
    ⟨.lref .queue, "queue", none⟩, ⟨.uplo, "upper_lower", none⟩, ⟨.int64, "n", none⟩,
    ⟨.complex .double, "alpha", none⟩, ⟨.ptr (.const (.complex .double)), "a", none⟩,
    ⟨.ptr (.const (.complex .double)), "x", none⟩, ⟨.int64, "incx", none⟩,
    ⟨.complex .double, "beta", none⟩, ⟨.ptr (.complex .double), "y", none⟩, ⟨.int64, "incy", none⟩,
    ⟨.lref (.const (.vectorClass .event)), "dependencies", (some .emptyBraces)⟩], false⟩
]

/-- The `syrk` overloads of the `// USM APIs` section (blas_ct_templates.hpp:1166). -/
def syrk : List Decl := [
  -- line 1166
  ⟨[⟨.library, "lib"⟩, ⟨.backend, "backend"⟩], true, true, .event, "syrk", [
    ⟨.lref .queue, "queue", none⟩, ⟨.uplo, "upper_lower", none⟩, ⟨.transpose, "trans", none⟩,
    ⟨.int64, "n", none⟩, ⟨.int64, "k", none⟩, ⟨.float, "alpha", none⟩,
    ⟨.ptr (.const .float), "a", none⟩, ⟨.int64, "lda", none⟩, ⟨.float, "beta", none⟩,
    ⟨.ptr .float, "c", none⟩, ⟨.int64, "ldc", none⟩,
    ⟨.lref (.const (.vectorClass .event)), "dependencies", (some .emptyBraces)⟩], false⟩,
  -- line 1172
  ⟨[⟨.library, "lib"⟩, ⟨.backend, "backend"⟩], true, true, .event, "syrk", [
    ⟨.lref .queue, "queue", none⟩, ⟨.uplo, "upper_lower", none⟩, ⟨.transpose, "trans", none⟩,
    ⟨.int64, "n", none⟩, ⟨.int64, "k", none⟩, ⟨.double, "alpha", none⟩,
    ⟨.ptr (.const .double), "a", none⟩, ⟨.int64, "lda", none⟩, ⟨.double, "beta", none⟩,
    ⟨.ptr .double, "c", none⟩, ⟨.int64, "ldc", none⟩,
    ⟨.lref (.const (.vectorClass .event)), "dependencies", (some .emptyBraces)⟩], false⟩,
  -- line 1178
  ⟨[⟨.library, "lib"⟩, ⟨.backend, "backend"⟩], true, true, .event, "syrk", [
    ⟨.lref .queue, "queue", none⟩, ⟨.uplo, "upper_lower", none⟩, ⟨.transpose, "trans", none⟩,
    ⟨.int64, "n", none⟩, ⟨.int64, "k", none⟩, ⟨.complex .float, "alpha", none⟩,
    ⟨.ptr (.const (.complex .float)), "a", none⟩, ⟨.int64, "lda", none⟩,
    ⟨.complex .float, "beta", none⟩, ⟨.ptr (.complex .float), "c", none⟩, ⟨.int64, "ldc", none⟩,
    ⟨.lref (.const (.vectorClass .event)), "dependencies", (some .emptyBraces)⟩], false⟩,
  -- line 1185
  ⟨[⟨.library, "lib"⟩, ⟨.backend, "backend"⟩], true, true, .event, "syrk", [
    ⟨.lref .queue, "queue", none⟩, ⟨.uplo, "upper_lower", none⟩, ⟨.transpose, "trans", none⟩,
    ⟨.int64, "n", none⟩, ⟨.int64, "k", none⟩, ⟨.complex .double, "alpha", none⟩,
    ⟨.ptr (.const (.complex .double)), "a", none⟩, ⟨.int64, "lda", none⟩,
    ⟨.complex .double, "beta", none⟩, ⟨.ptr (.complex .double), "c", none⟩, ⟨.int64, "ldc", none⟩,
    ⟨.lref (.const (.vectorClass .event)), "dependencies", (some .emptyBraces)⟩], false⟩
]

/-- The `her2` overloads of the `// USM APIs` section (blas_ct_templates.hpp:1192). -/
def her2 : List Decl := [
  -- line 1192
  ⟨[⟨.library, "lib"⟩, ⟨.backend, "backend"⟩], true, true, .event, "her2", [
    ⟨.lref .queue, "queue", none⟩, ⟨.uplo, "upper_lower", none⟩, ⟨.int64, "n", none⟩,
    ⟨.complex .float, "alpha", none⟩, ⟨.ptr (.const (.complex .float)), "x", none⟩,
    ⟨.int64, "incx", none⟩, ⟨.ptr (.const (.complex .float)), "y", none⟩, ⟨.int64, "incy", none⟩,
    ⟨.ptr (.complex .float), "a", none⟩, ⟨.int64, "lda", none⟩,
    ⟨.lref (.const (.vectorClass .event)), "dependencies", (some .emptyBraces)⟩], false⟩,
  -- line 1199
  ⟨[⟨.library, "lib"⟩, ⟨.backend, "backend"⟩], true, true, .event, "her2", [
    ⟨.lref .queue, "queue", none⟩, ⟨.uplo, "upper_lower", none⟩, ⟨.int64, "n", none⟩,
    ⟨.complex .double, "alpha", none⟩, ⟨.ptr (.const (.complex .double)), "x", none⟩,
    ⟨.int64, "incx", none⟩, ⟨.ptr (.const (.complex .double)), "y", none⟩, ⟨.int64, "incy", none⟩,
    ⟨.ptr (.complex .double), "a", none⟩, ⟨.int64, "lda", none⟩,
    ⟨.lref (.const (.vectorClass .event)), "dependencies", (some .emptyBraces)⟩], false⟩
]

/-- The `hbmv` overloads of the `// USM APIs` section (blas_ct_templates.hpp:1206). -/
def hbmv : List Decl := [
  -- line 1206
  ⟨[⟨.library, "lib"⟩, ⟨.backend, "backend"⟩], true, true, .event, "hbmv", [
    ⟨.lref .queue, "queue", none⟩, ⟨.uplo, "upper_lower", none⟩, ⟨.int64, "n", none⟩,
    ⟨.int64, "k", none⟩, ⟨.complex .float, "alpha", none⟩,
    ⟨.ptr (.const (.complex .float)), "a", none⟩, ⟨.int64, "lda", none⟩,
    ⟨.ptr (.const (.complex .float)), "x", none⟩, ⟨.int64, "incx", none⟩,
    ⟨.complex .float, "beta", none⟩, ⟨.ptr (.complex .float), "y", none⟩, ⟨.int64, "incy", none⟩,
    ⟨.lref (.const (.vectorClass .event)), "dependencies", (some .emptyBraces)⟩], false⟩,
  -- line 1214
  ⟨[⟨.library, "lib"⟩, ⟨.backend, "backend"⟩], true, true, .event, "hbmv", [
    ⟨.lref .queue, "queue", none⟩, ⟨.uplo, "upper_lower", none⟩, ⟨.int64, "n", none⟩,
    ⟨.int64, "k", none⟩, ⟨.complex .double, "alpha", none⟩,
    ⟨.ptr (.const (.complex .double)), "a", none⟩, ⟨.int64, "lda", none⟩,
    ⟨.ptr (.const (.complex .double)), "x", none⟩, ⟨.int64, "incx", none⟩,
    ⟨.complex .double, "beta", none⟩, ⟨.ptr (.complex .double), "y", none⟩, ⟨.int64, "incy", none⟩,
    ⟨.lref (.const (.vectorClass .event)), "dependencies", (some .emptyBraces)⟩], false⟩
]

/-- The `rot` overloads of the `// USM APIs` section (blas_ct_templates.hpp:1222). -/
def rot : List Decl := [
  -- line 1222
  ⟨[⟨.library, "lib"⟩, ⟨.backend, "backend"⟩], true, true, .event, "rot", [
    ⟨.lref .queue, "queue", none⟩, ⟨.int64, "n", none⟩, ⟨.ptr (.complex .float), "x", none⟩,
    ⟨.int64, "incx", none⟩, ⟨.ptr (.complex .float), "y", none⟩, ⟨.int64, "incy", none⟩,
    ⟨.float, "c", none⟩, ⟨.float, "s", none⟩,
    ⟨.lref (.const (.vectorClass .event)), "dependencies", (some .emptyBraces)⟩], false⟩,
  -- line 1228
  ⟨[⟨.library, "lib"⟩, ⟨.backend, "backend"⟩], true, true, .event, "rot", [
    ⟨.lref .queue, "queue", none⟩, ⟨.int64, "n", none⟩, ⟨.ptr (.complex .double), "x", none⟩,
    ⟨.int64, "incx", none⟩, ⟨.ptr (.complex .double), "y", none⟩, ⟨.int64, "incy", none⟩,
    ⟨.double, "c", none⟩, ⟨.double, "s", none⟩,
    ⟨.lref (.const (.vectorClass .event)), "dependencies", (some .emptyBraces)⟩], false⟩,
  -- line 1234
  ⟨[⟨.library, "lib"⟩, ⟨.backend, "backend"⟩], true, true, .event, "rot", [
    ⟨.lref .queue, "queue", none⟩, ⟨.int64, "n", none⟩, ⟨.ptr .float, "x", none⟩,
    ⟨.int64, "incx", none⟩, ⟨.ptr .float, "y", none⟩, ⟨.int64, "incy", none⟩, ⟨.float, "c", none⟩,
    ⟨.float, "s", none⟩,
    ⟨.lref (.const (.vectorClass .event)), "dependencies", (some .emptyBraces)⟩], false⟩,
  -- line 1239
  ⟨[⟨.library, "lib"⟩, ⟨.backend, "backend"⟩], true, true, .event, "rot", [
    ⟨.lref .queue, "queue", none⟩, ⟨.int64, "n", none⟩, ⟨.ptr .double, "x", none⟩,
    ⟨.int64, "incx", none⟩, ⟨.ptr .double, "y", none⟩, ⟨.int64, "incy", none⟩,
    ⟨.double, "c", none⟩, ⟨.double, "s", none⟩,
    ⟨.lref (.const (.vectorClass .event)), "dependencies", (some .emptyBraces)⟩], false⟩
]

/-- The `axpy` overloads of the `// USM APIs` section (blas_ct_templates.hpp:1245). -/
def axpy : List Decl := [
  -- line 1245
  ⟨[⟨.library, "lib"⟩, ⟨.backend, "backend"⟩], true, true, .event, "axpy", [
    ⟨.lref .queue, "queue", none⟩, ⟨.int64, "n", none⟩, ⟨.float, "alpha", none⟩,
    ⟨.ptr (.const .float), "x", none⟩, ⟨.int64, "incx", none⟩, ⟨.ptr .float, "y", none⟩,
    ⟨.int64, "incy", none⟩,
    ⟨.lref (.const (.vectorClass .event)), "dependencies", (some .emptyBraces)⟩], false⟩,
  -- line 1250
  ⟨[⟨.library, "lib"⟩, ⟨.backend, "backend"⟩], true, true, .event, "axpy", [
    ⟨.lref .queue, "queue", none⟩, ⟨.int64, "n", none⟩, ⟨.double, "alpha", none⟩,
    ⟨.ptr (.const .double), "x", none⟩, ⟨.int64, "incx", none⟩, ⟨.ptr .double, "y", none⟩,
    ⟨.int64, "incy", none⟩,
    ⟨.lref (.const (.vectorClass .event)), "dependencies", (some .emptyBraces)⟩], false⟩,
  -- line 1255
  ⟨[⟨.library, "lib"⟩, ⟨.backend, "backend"⟩], true, true, .event, "axpy", [
    ⟨.lref .queue, "queue", none⟩, ⟨.int64, "n", none⟩, ⟨.complex .float, "alpha", none⟩,
    ⟨.ptr (.const (.complex .float)), "x", none⟩, ⟨.int64, "incx", none⟩,
    ⟨.ptr (.complex .float), "y", none⟩, ⟨.int64, "incy", none⟩,
    ⟨.lref (.const (.vectorClass .event)), "dependencies", (some .emptyBraces)⟩], false⟩,
  -- line 1261
  ⟨[⟨.library, "lib"⟩, ⟨.backend, "backend"⟩], true, true, .event, "axpy", [
    ⟨.lref .queue, "queue", none⟩, ⟨.int64, "n", none⟩, ⟨.complex .double, "alpha", none⟩,
    ⟨.ptr (.const (.complex .double)), "x", none⟩, ⟨.int64, "incx", none⟩,
    ⟨.ptr (.complex .double), "y", none⟩, ⟨.int64, "incy", none⟩,
    ⟨.lref (.const (.vectorClass .event)), "dependencies", (some .emptyBraces)⟩], false⟩
]

/-- The `axpy_batch` overloads of the `// USM APIs` section (blas_ct_templates.hpp:1267). -/
def axpy_batch : List Decl := [
  -- line 1267
  ⟨[⟨.library, "lib"⟩, ⟨.backend, "backend"⟩], true, true, .event, "axpy_batch", [
    ⟨.lref .queue, "queue", none⟩, ⟨.ptr .int64, "n", none⟩, ⟨.ptr .float, "alpha", none⟩,
    ⟨.ptr (.ptr (.const .float)), "x", none⟩, ⟨.ptr .int64, "incx", none⟩,
    ⟨.ptr (.ptr .float), "y", none⟩, ⟨.ptr .int64, "incy", none⟩, ⟨.int64, "group_count", none⟩,
    ⟨.ptr .int64, "group_size", none⟩,
    ⟨.lref (.const (.vectorClass .event)), "dependencies", (some .emptyBraces)⟩], false⟩,
  -- line 1273
  ⟨[⟨.library, "lib"⟩, ⟨.backend, "backend"⟩], true, true, .event, "axpy_batch", [
    ⟨.lref .queue, "queue", none⟩, ⟨.ptr .int64, "n", none⟩, ⟨.ptr .double, "alpha", none⟩,
    ⟨.ptr (.ptr (.const .double)), "x", none⟩, ⟨.ptr .int64, "incx", none⟩,
    ⟨.ptr (.ptr .double), "y", none⟩, ⟨.ptr .int64, "incy", none⟩, ⟨.int64, "group_count", none⟩,
    ⟨.ptr .int64, "group_size", none⟩,
    ⟨.lref (.const (.vectorClass .event)), "dependencies", (some .emptyBraces)⟩], false⟩,
  -- line 1279
  ⟨[⟨.library, "lib"⟩, ⟨.backend, "backend"⟩], true, true, .event, "axpy_batch", [
    ⟨.lref .queue, "queue", none⟩, ⟨.ptr .int64, "n", none⟩,
    ⟨.ptr (.complex .float), "alpha", none⟩, ⟨.ptr (.ptr (.const (.complex .float))), "x", none⟩,
    ⟨.ptr .int64, "incx", none⟩, ⟨.ptr (.ptr (.complex .float)), "y", none⟩,
    ⟨.ptr .int64, "incy", none⟩, ⟨.int64, "group_count", none⟩, ⟨.ptr .int64, "group_size", none⟩,
    ⟨.lref (.const (.vectorClass .event)), "dependencies", (some .emptyBraces)⟩], false⟩,
  -- line 1286
  ⟨[⟨.library, "lib"⟩, ⟨.backend, "backend"⟩], true, true, .event, "axpy_batch", [
    ⟨.lref .queue, "queue", none⟩, ⟨.ptr .int64, "n", none⟩,
    ⟨.ptr (.complex .double), "alpha", none⟩, ⟨.ptr (.ptr (.const (.complex .double))), "x", none⟩,
    ⟨.ptr .int64, "incx", none⟩, ⟨.ptr (.ptr (.complex .double)), "y", none⟩,
    ⟨.ptr .int64, "incy", none⟩, ⟨.int64, "group_count", none⟩, ⟨.ptr .int64, "group_size", none⟩,
    ⟨.lref (.const (.vectorClass .event)), "dependencies", (some .emptyBraces)⟩], false⟩
]

/-- The `gerc` overloads of the `// USM APIs` section (blas_ct_templates.hpp:1293). -/
def gerc : List Decl := [
  -- line 1293
  ⟨[⟨.library, "lib"⟩, ⟨.backend, "backend"⟩], true, true, .event, "gerc", [
    ⟨.lref .queue, "queue", none⟩, ⟨.int64, "m", none⟩, ⟨.int64, "n", none⟩,
    ⟨.complex .float, "alpha", none⟩, ⟨.ptr (.const (.complex .float)), "x", none⟩,
    ⟨.int64, "incx", none⟩, ⟨.ptr (.const (.complex .float)), "y", none⟩, ⟨.int64, "incy", none⟩,
    ⟨.ptr (.complex .float), "a", none⟩, ⟨.int64, "lda", none⟩,
    ⟨.lref (.const (.vectorClass .event)), "dependencies", (some .emptyBraces)⟩], false⟩,
  -- line 1300
  ⟨[⟨.library, "lib"⟩, ⟨.backend, "backend"⟩], true, true, .event, "gerc", [
    ⟨.lref .queue, "queue", none⟩, ⟨.int64, "m", none⟩, ⟨.int64, "n", none⟩,
    ⟨.complex .double, "alpha", none⟩, ⟨.ptr (.const (.complex .double)), "x", none⟩,
    ⟨.int64, "incx", none⟩, ⟨.ptr (.const (.complex .double)), "y", none⟩, ⟨.int64, "incy", none⟩,
    ⟨.ptr (.complex .double), "a", none⟩, ⟨.int64, "lda", none⟩,
    ⟨.lref (.const (.vectorClass .event)), "dependencies", (some .emptyBraces)⟩], false⟩
]

/-- The `syr2k` overloads of the `// USM APIs` section (blas_ct_templates.hpp:1307). -/
def syr2k : List Decl := [
  -- line 1307
  ⟨[⟨.library, "lib"⟩, ⟨.backend, "backend"⟩], true, true, .event, "syr2k", [
    ⟨.lref .queue, "queue", none⟩, ⟨.uplo, "upper_lower", none⟩, ⟨.transpose, "trans", none⟩,
    ⟨.int64, "n", none⟩, ⟨.int64, "k", none⟩, ⟨.float, "alpha", none⟩,
    ⟨.ptr (.const .float), "a", none⟩, ⟨.int64, "lda", none⟩, ⟨.ptr (.const .float), "b", none⟩,
    ⟨.int64, "ldb", none⟩, ⟨.float, "beta", none⟩, ⟨.ptr .float, "c", none⟩, ⟨.int64, "ldc", none⟩,
    ⟨.lref (.const (.vectorClass .event)), "dependencies", (some .emptyBraces)⟩], false⟩,
  -- line 1313
  ⟨[⟨.library, "lib"⟩, ⟨.backend, "backend"⟩], true, true, .event, "syr2k", [
    ⟨.lref .queue, "queue", none⟩, ⟨.uplo, "upper_lower", none⟩, ⟨.transpose, "trans", none⟩,
    ⟨.int64, "n", none⟩, ⟨.int64, "k", none⟩, ⟨.double, "alpha", none⟩,
    ⟨.ptr (.const .double), "a", none⟩, ⟨.int64, "lda", none⟩, ⟨.ptr (.const .double), "b", none⟩,
    ⟨.int64, "ldb", none⟩, ⟨.double, "beta", none⟩, ⟨.ptr .double, "c", none⟩,
    ⟨.int64, "ldc", none⟩,
    ⟨.lref (.const (.vectorClass .event)), "dependencies", (some .emptyBraces)⟩], false⟩,
  -- line 1319
  ⟨[⟨.library, "lib"⟩, ⟨.backend, "backend"⟩], true, true, .event, "syr2k", [
    ⟨.lref .queue, "queue", none⟩, ⟨.uplo, "upper_lower", none⟩, ⟨.transpose, "trans", none⟩,
    ⟨.int64, "n", none⟩, ⟨.int64, "k", none⟩, ⟨.complex .float, "alpha", none⟩,
    ⟨.ptr (.const (.complex .float)), "a", none⟩, ⟨.int64, "lda", none⟩,
    ⟨.ptr (.const (.complex .float)), "b", none⟩, ⟨.int64, "ldb", none⟩,
    ⟨.complex .float, "beta", none⟩, ⟨.ptr (.complex .float), "c", none⟩, ⟨.int64, "ldc", none⟩,
    ⟨.lref (.const (.vectorClass .event)), "dependencies", (some .emptyBraces)⟩], false⟩,
  -- line 1327
  ⟨[⟨.library, "lib"⟩, ⟨.backend, "backend"⟩], true, true, .event, "syr2k", [
    ⟨.lref .queue, "queue", none⟩, ⟨.uplo, "upper_lower", none⟩, ⟨.transpose, "trans", none⟩,
    ⟨.int64, "n", none⟩, ⟨.int64, "k", none⟩, ⟨.complex .double, "alpha", none⟩,
    ⟨.ptr (.const (.complex .double)), "a", none⟩, ⟨.int64, "lda", none⟩,
    ⟨.ptr (.const (.complex .double)), "b", none⟩, ⟨.int64, "ldb", none⟩,
    ⟨.complex .double, "beta", none⟩, ⟨.ptr (.complex .double), "c", none⟩, ⟨.int64, "ldc", none⟩,
    ⟨.lref (.const (.vectorClass .event)), "dependencies", (some .emptyBraces)⟩], false⟩
]

/-- The `gemv` overloads of the `// USM APIs` section (blas_ct_templates.hpp:1335). -/
def gemv : List Decl := [
  -- line 1335
  ⟨[⟨.library, "lib"⟩, ⟨.backend, "backend"⟩], true, true, .event, "gemv", [
    ⟨.lref .queue, "queue", none⟩, ⟨.transpose, "trans", none⟩, ⟨.int64, "m", none⟩,
    ⟨.int64, "n", none⟩, ⟨.float, "alpha", none⟩, ⟨.ptr (.const .float), "a", none⟩,
    ⟨.int64, "lda", none⟩, ⟨.ptr (.const .float), "x", none⟩, ⟨.int64, "incx", none⟩,
    ⟨.float, "beta", none⟩, ⟨.ptr .float, "y", none⟩, ⟨.int64, "incy", none⟩,
    ⟨.lref (.const (.vectorClass .event)), "dependencies", (some .emptyBraces)⟩], false⟩,
  -- line 1341
  ⟨[⟨.library, "lib"⟩, ⟨.backend, "backend"⟩], true, true, .event, "gemv", [
    ⟨.lref .queue, "queue", none⟩, ⟨.transpose, "trans", none⟩, ⟨.int64, "m", none⟩,
    ⟨.int64, "n", none⟩, ⟨.double, "alpha", none⟩, ⟨.ptr (.const .double), "a", none⟩,
    ⟨.int64, "lda", none⟩, ⟨.ptr (.const .double), "x", none⟩, ⟨.int64, "incx", none⟩,
    ⟨.double, "beta", none⟩, ⟨.ptr .double, "y", none⟩, ⟨.int64, "incy", none⟩,
    ⟨.lref (.const (.vectorClass .event)), "dependencies", (some .emptyBraces)⟩], false⟩,
  -- line 1347
  ⟨[⟨.library, "lib"⟩, ⟨.backend, "backend"⟩], true, true, .event, "gemv", [
    ⟨.lref .queue, "queue", none⟩, ⟨.transpose, "trans", none⟩, ⟨.int64, "m", none⟩,
    ⟨.int64, "n", none⟩, ⟨.complex .float, "alpha", none⟩,
    ⟨.ptr (.const (.complex .float)), "a", none⟩, ⟨.int64, "lda", none⟩,
    ⟨.ptr (.const (.complex .float)), "x", none⟩, ⟨.int64, "incx", none⟩,
    ⟨.complex .float, "beta", none⟩, ⟨.ptr (.complex .float), "y", none⟩, ⟨.int64, "incy", none⟩,
    ⟨.lref (.const (.vectorClass .event)), "dependencies", (some .emptyBraces)⟩], false⟩,
  -- line 1355
  ⟨[⟨.library, "lib"⟩, ⟨.backend, "backend"⟩], true, true, .event, "gemv", [
    ⟨.lref .queue, "queue", none⟩, ⟨.transpose, "trans", none⟩, ⟨.int64, "m", none⟩,
    ⟨.int64, "n", none⟩, ⟨.complex .double, "alpha", none⟩,
    ⟨.ptr (.const (.complex .double)), "a", none⟩, ⟨.int64, "lda", none⟩,
    ⟨.ptr (.const (.complex .double)), "x", none⟩, ⟨.int64, "incx", none⟩,
    ⟨.complex .double, "beta", none⟩, ⟨.ptr (.complex .double), "y", none⟩, ⟨.int64, "incy", none⟩,
    ⟨.lref (.const (.vectorClass .event)), "dependencies", (some .emptyBraces)⟩], false⟩
]

/-- The `her` overloads of the `// USM APIs` section (blas_ct_templates.hpp:1363). -/
def her : List Decl := [
  -- line 1363
  ⟨[⟨.library, "lib"⟩, ⟨.backend, "backend"⟩], true, true, .event, "her", [
    ⟨.lref .queue, "queue", none⟩, ⟨.uplo, "upper_lower", none⟩, ⟨.int64, "n", none⟩,
    ⟨.float, "alpha", none⟩, ⟨.ptr (.const (.complex .float)), "x", none⟩, ⟨.int64, "incx", none⟩,
    ⟨.ptr (.complex .float), "a", none⟩, ⟨.int64, "lda", none⟩,
    ⟨.lref (.const (.vectorClass .event)), "dependencies", (some .emptyBraces)⟩], false⟩,
  -- line 1369
  ⟨[⟨.library, "lib"⟩, ⟨.backend, "backend"⟩], true, true, .event, "her", [
    ⟨.lref .queue, "queue", none⟩, ⟨.uplo, "upper_lower", none⟩, ⟨.int64, "n", none⟩,
    ⟨.double, "alpha", none⟩, ⟨.ptr (.const (.complex .double)), "x", none⟩,
    ⟨.int64, "incx", none⟩, ⟨.ptr (.complex .double), "a", none⟩, ⟨.int64, "lda", none⟩,
    ⟨.lref (.const (.vectorClass .event)), "dependencies", (some .emptyBraces)⟩], false⟩
]

/-- The `hpr` overloads of the `// USM APIs` section (blas_ct_templates.hpp:1375). -/
def hpr : List Decl := [
  -- line 1375
  ⟨[⟨.library, "lib"⟩, ⟨.backend, "backend"⟩], true, true, .event, "hpr", [
    ⟨.lref .queue, "queue", none⟩, ⟨.uplo, "upper_lower", none⟩, ⟨.int64, "n", none⟩,
    ⟨.float, "alpha", none⟩, ⟨.ptr (.const (.complex .float)), "x", none⟩, ⟨.int64, "incx", none⟩,
    ⟨.ptr (.complex .float), "a", none⟩,
    ⟨.lref (.const (.vectorClass .event)), "dependencies", (some .emptyBraces)⟩], false⟩,
  -- line 1381
  ⟨[⟨.library, "lib"⟩, ⟨.backend, "backend"⟩], true, true, .event, "hpr", [
    ⟨.lref .queue, "queue", none⟩, ⟨.uplo, "upper_lower", none⟩, ⟨.int64, "n", none⟩,
    ⟨.double, "alpha", none⟩, ⟨.ptr (.const (.complex .double)), "x", none⟩,
    ⟨.int64, "incx", none⟩, ⟨.ptr (.complex .double), "a", none⟩,
    ⟨.lref (.const (.vectorClass .event)), "dependencies", (some .emptyBraces)⟩], false⟩
]

/-- The `iamin` overloads of the `// USM APIs` section (blas_ct_templates.hpp:1387). -/
def iamin : List Decl := [
  -- line 1387
  ⟨[⟨.library, "lib"⟩, ⟨.backend, "backend"⟩], true, true, .event, "iamin", [
    ⟨.lref .queue, "queue", none⟩, ⟨.int64, "n", none⟩, ⟨.ptr (.const .float), "x", none⟩,
    ⟨.int64, "incx", none⟩, ⟨.ptr .int64, "result", none⟩,
    ⟨.lref (.const (.vectorClass .event)), "dependencies", (some .emptyBraces)⟩], false⟩,
  -- line 1392
  ⟨[⟨.library, "lib"⟩, ⟨.backend, "backend"⟩], true, true, .event, "iamin", [
    ⟨.lref .queue, "queue", none⟩, ⟨.int64, "n", none⟩, ⟨.ptr (.const .double), "x", none⟩,
    ⟨.int64, "incx", none⟩, ⟨.ptr .int64, "result", none⟩,
    ⟨.lref (.const (.vectorClass .event)), "dependencies", (some .emptyBraces)⟩], false⟩,
  -- line 1397
  ⟨[⟨.library, "lib"⟩, ⟨.backend, "backend"⟩], true, true, .event, "iamin", [
    ⟨.lref .queue, "queue", none⟩, ⟨.int64, "n", none⟩,
    ⟨.ptr (.const (.complex .float)), "x", none⟩, ⟨.int64, "incx", none⟩,
    ⟨.ptr .int64, "result", none⟩,
    ⟨.lref (.const (.vectorClass .event)), "dependencies", (some .emptyBraces)⟩], false⟩,
  -- line 1402
  ⟨[⟨.library, "lib"⟩, ⟨.backend, "backend"⟩], true, true, .event, "iamin", [
    ⟨.lref .queue, "queue", none⟩, ⟨.int64, "n", none⟩,
    ⟨.ptr (.const (.complex .double)), "x", none⟩, ⟨.int64, "incx", none⟩,
    ⟨.ptr .int64, "result", none⟩,
    ⟨.lref (.const (.vectorClass .event)), "dependencies", (some .emptyBraces)⟩], false⟩
]

/-- The `gemm_batch` overloads of the `// USM APIs` section (blas_ct_templates.hpp:1407). -/
def gemm_batch : List Decl := [
  -- line 1407
  ⟨[⟨.library, "lib"⟩, ⟨.backend, "backend"⟩], true, true, .event, "gemm_batch", [
    ⟨.lref .queue, "queue", none⟩, ⟨.ptr .transpose, "transa", none⟩,
    ⟨.ptr .transpose, "transb", none⟩, ⟨.ptr .int64, "m", none⟩, ⟨.ptr .int64, "n", none⟩,
    ⟨.ptr .int64, "k", none⟩, ⟨.ptr .float, "alpha", none⟩,
    ⟨.ptr (.ptr (.const .float)), "a", none⟩, ⟨.ptr .int64, "lda", none⟩,
    ⟨.ptr (.ptr (.const .float)), "b", none⟩, ⟨.ptr .int64, "ldb", none⟩,
    ⟨.ptr .float, "beta", none⟩, ⟨.ptr (.ptr .float), "c", none⟩, ⟨.ptr .int64, "ldc", none⟩,
    ⟨.int64, "group_count", none⟩, ⟨.ptr .int64, "group_size", none⟩,
    ⟨.lref (.const (.vectorClass .event)), "dependencies", (some .emptyBraces)⟩], false⟩,
  -- line 1414
  ⟨[⟨.library, "lib"⟩, ⟨.backend, "backend"⟩], true, true, .event, "gemm_batch", [
    ⟨.lref .queue, "queue", none⟩, ⟨.ptr .transpose, "transa", none⟩,
    ⟨.ptr .transpose, "transb", none⟩, ⟨.ptr .int64, "m", none⟩, ⟨.ptr .int64, "n", none⟩,
    ⟨.ptr .int64, "k", none⟩, ⟨.ptr .double, "alpha", none⟩,
    ⟨.ptr (.ptr (.const .double)), "a", none⟩, ⟨.ptr .int64, "lda", none⟩,
    ⟨.ptr (.ptr (.const .double)), "b", none⟩, ⟨.ptr .int64, "ldb", none⟩,
    ⟨.ptr .double, "beta", none⟩, ⟨.ptr (.ptr .double), "c", none⟩, ⟨.ptr .int64, "ldc", none⟩,
    ⟨.int64, "group_count", none⟩, ⟨.ptr .int64, "group_size", none⟩,
    ⟨.lref (.const (.vectorClass .event)), "dependencies", (some .emptyBraces)⟩], false⟩,
  -- line 1421
  ⟨[⟨.library, "lib"⟩, ⟨.backend, "backend"⟩], true, true, .event, "gemm_batch", [
    ⟨.lref .queue, "queue", none⟩, ⟨.ptr .transpose, "transa", none⟩,
    ⟨.ptr .transpose, "transb", none⟩, ⟨.ptr .int64, "m", none⟩, ⟨.ptr .int64, "n", none⟩,
    ⟨.ptr .int64, "k", none⟩, ⟨.ptr (.complex .float), "alpha", none⟩,
    ⟨.ptr (.ptr (.const (.complex .float))), "a", none⟩, ⟨.ptr .int64, "lda", none⟩,
    ⟨.ptr (.ptr (.const (.complex .float))), "b", none⟩, ⟨.ptr .int64, "ldb", none⟩,
    ⟨.ptr (.complex .float), "beta", none⟩, ⟨.ptr (.ptr (.complex .float)), "c", none⟩,
    ⟨.ptr .int64, "ldc", none⟩, ⟨.int64, "group_count", none⟩, ⟨.ptr .int64, "group_size", none⟩,
    ⟨.lref (.const (.vectorClass .event)), "dependencies", (some .emptyBraces)⟩], false⟩,
  -- line 1429
  ⟨[⟨.library, "lib"⟩, ⟨.backend, "backend"⟩], true, true, .event, "gemm_batch", [
    ⟨.lref .queue, "queue", none⟩, ⟨.ptr .transpose, "transa", none⟩,
    ⟨.ptr .transpose, "transb", none⟩, ⟨.ptr .int64, "m", none⟩, ⟨.ptr .int64, "n", none⟩,
    ⟨.ptr .int64, "k", none⟩, ⟨.ptr (.complex .double), "alpha", none⟩,
    ⟨.ptr (.ptr (.const (.complex .double))), "a", none⟩, ⟨.ptr .int64, "lda", none⟩,
    ⟨.ptr (.ptr (.const (.complex .double))), "b", none⟩, ⟨.ptr .int64, "ldb", none⟩,
    ⟨.ptr (.complex .double), "beta", none⟩, ⟨.ptr (.ptr (.complex .double)), "c", none⟩,
    ⟨.ptr .int64, "ldc", none⟩, ⟨.int64, "group_count", none⟩, ⟨.ptr .int64, "group_size", none⟩,
    ⟨.lref (.const (.vectorClass .event)), "dependencies", (some .emptyBraces)⟩], false⟩,
  -- line 1437
  ⟨[⟨.library, "lib"⟩, ⟨.backend, "backend"⟩], true, true, .event, "gemm_batch", [
    ⟨.lref .queue, "queue", none⟩, ⟨.transpose, "transa", none⟩, ⟨.transpose, "transb", none⟩,
    ⟨.int64, "m", none⟩, ⟨.int64, "n", none⟩, ⟨.int64, "k", none⟩, ⟨.float, "alpha", none⟩,
    ⟨.ptr (.const .float), "a", none⟩, ⟨.int64, "lda", none⟩, ⟨.int64, "stride_a", none⟩,
    ⟨.ptr (.const .float), "b", none⟩, ⟨.int64, "ldb", none⟩, ⟨.int64, "stride_b", none⟩,
    ⟨.float, "beta", none⟩, ⟨.ptr .float, "c", none⟩, ⟨.int64, "ldc", none⟩,
    ⟨.int64, "stride_c", none⟩, ⟨.int64, "batch_size", none⟩,
    ⟨.lref (.const (.vectorClass .event)), "dependencies", (some .emptyBraces)⟩], false⟩,
  -- line 1445
  ⟨[⟨.library, "lib"⟩, ⟨.backend, "backend"⟩], true, true, .event, "gemm_batch", [
    ⟨.lref .queue, "queue", none⟩, ⟨.transpose, "transa", none⟩, ⟨.transpose, "transb", none⟩,
    ⟨.int64, "m", none⟩, ⟨.int64, "n", none⟩, ⟨.int64, "k", none⟩, ⟨.double, "alpha", none⟩,
    ⟨.ptr (.const .double), "a", none⟩, ⟨.int64, "lda", none⟩, ⟨.int64, "stride_a", none⟩,
    ⟨.ptr (.const .double), "b", none⟩, ⟨.int64, "ldb", none⟩, ⟨.int64, "stride_b", none⟩,
    ⟨.double, "beta", none⟩, ⟨.ptr .double, "c", none⟩, ⟨.int64, "ldc", none⟩,
    ⟨.int64, "stride_c", none⟩, ⟨.int64, "batch_size", none⟩,
    ⟨.lref (.const (.vectorClass .event)), "dependencies", (some .emptyBraces)⟩], false⟩,
  -- line 1453
  ⟨[⟨.library, "lib"⟩, ⟨.backend, "backend"⟩], true, true, .event, "gemm_batch", [
    ⟨.lref .queue, "queue", none⟩, ⟨.transpose, "transa", none⟩, ⟨.transpose, "transb", none⟩,
    ⟨.int64, "m", none⟩, ⟨.int64, "n", none⟩, ⟨.int64, "k", none⟩,
    ⟨.complex .float, "alpha", none⟩, ⟨.ptr (.const (.complex .float)), "a", none⟩,
    ⟨.int64, "lda", none⟩, ⟨.int64, "stride_a", none⟩,
    ⟨.ptr (.const (.complex .float)), "b", none⟩, ⟨.int64, "ldb", none⟩,
    ⟨.int64, "stride_b", none⟩, ⟨.complex .float, "beta", none⟩,
    ⟨.ptr (.complex .float), "c", none⟩, ⟨.int64, "ldc", none⟩, ⟨.int64, "stride_c", none⟩,
    ⟨.int64, "batch_size", none⟩,
    ⟨.lref (.const (.vectorClass .event)), "dependencies", (some .emptyBraces)⟩], false⟩,
  -- line 1461
  ⟨[⟨.library, "lib"⟩, ⟨.backend, "backend"⟩], true, true, .event, "gemm_batch", [
    ⟨.lref .queue, "queue", none⟩, ⟨.transpose, "transa", none⟩, ⟨.transpose, "transb", none⟩,
    ⟨.int64, "m", none⟩, ⟨.int64, "n", none⟩, ⟨.int64, "k", none⟩,
    ⟨.complex .double, "alpha", none⟩, ⟨.ptr (.const (.complex .double)), "a", none⟩,
    ⟨.int64, "lda", none⟩, ⟨.int64, "stride_a", none⟩,
    ⟨.ptr (.const (.complex .double)), "b", none⟩, ⟨.int64, "ldb", none⟩,
    ⟨.int64, "stride_b", none⟩, ⟨.complex .double, "beta", none⟩,
    ⟨.ptr (.complex .double), "c", none⟩, ⟨.int64, "ldc", none⟩, ⟨.int64, "stride_c", none⟩,
    ⟨.int64, "batch_size", none⟩,
    ⟨.lref (.const (.vectorClass .event)), "dependencies", (some .emptyBraces)⟩], false⟩
]

/-- The `spmv` overloads of the `// USM APIs` section (blas_ct_templates.hpp:1469). -/
def spmv : List Decl := [
  -- line 1469
  ⟨[⟨.library, "lib"⟩, ⟨.backend, "backend"⟩], true, true, .event, "spmv", [
    ⟨.lref .queue, "queue", none⟩, ⟨.uplo, "upper_lower", none⟩, ⟨.int64, "n", none⟩,
    ⟨.float, "alpha", none⟩, ⟨.ptr (.const .float), "a", none⟩, ⟨.ptr (.const .float), "x", none⟩,
    ⟨.int64, "incx", none⟩, ⟨.float, "beta", none⟩, ⟨.ptr .float, "y", none⟩,
    ⟨.int64, "incy", none⟩,
    ⟨.lref (.const (.vectorClass .event)), "dependencies", (some .emptyBraces)⟩], false⟩,
  -- line 1475
  ⟨[⟨.library, "lib"⟩, ⟨.backend, "backend"⟩], true, true, .event, "spmv", [
    ⟨.lref .queue, "queue", none⟩, ⟨.uplo, "upper_lower", none⟩, ⟨.int64, "n", none⟩,
    ⟨.double, "alpha", none⟩, ⟨.ptr (.const .double), "a", none⟩,
    ⟨.ptr (.const .double), "x", none⟩, ⟨.int64, "incx", none⟩, ⟨.double, "beta", none⟩,
    ⟨.ptr .double, "y", none⟩, ⟨.int64, "incy", none⟩,
    ⟨.lref (.const (.vectorClass .event)), "dependencies", (some .emptyBraces)⟩], false⟩
]

/-- The `swap` overloads of the `// USM APIs` section (blas_ct_templates.hpp:1481). -/
def swap : List Decl := [
  -- line 1481
  ⟨[⟨.library, "lib"⟩, ⟨.backend, "backend"⟩], true, true, .event, "swap", [
    ⟨.lref .queue, "queue", none⟩, ⟨.int64, "n", none⟩, ⟨.ptr .float, "x", none⟩,
    ⟨.int64, "incx", none⟩, ⟨.ptr .float, "y", none⟩, ⟨.int64, "incy", none⟩,
    ⟨.lref (.const (.vectorClass .event)), "dependencies", (some .emptyBraces)⟩], false⟩,
  -- line 1486
  ⟨[⟨.library, "lib"⟩, ⟨.backend, "backend"⟩], true, true, .event, "swap", [
    ⟨.lref .queue, "queue", none⟩, ⟨.int64, "n", none⟩, ⟨.ptr .double, "x", none⟩,
    ⟨.int64, "incx", none⟩, ⟨.ptr .double, "y", none⟩, ⟨.int64, "incy", none⟩,
    ⟨.lref (.const (.vectorClass .event)), "dependencies", (some .emptyBraces)⟩], false⟩,
  -- line 1491
  ⟨[⟨.library, "lib"⟩, ⟨.backend, "backend"⟩], true, true, .event, "swap", [
    ⟨.lref .queue, "queue", none⟩, ⟨.int64, "n", none⟩, ⟨.ptr (.complex .float), "x", none⟩,
    ⟨.int64, "incx", none⟩, ⟨.ptr (.complex .float), "y", none⟩, ⟨.int64, "incy", none⟩,
    ⟨.lref (.const (.vectorClass .event)), "dependencies", (some .emptyBraces)⟩], false⟩,
  -- line 1497
  ⟨[⟨.library, "lib"⟩, ⟨.backend, "backend"⟩], true, true, .event, "swap", [
    ⟨.lref .queue, "queue", none⟩, ⟨.int64, "n", none⟩, ⟨.ptr (.complex .double), "x", none⟩,
    ⟨.int64, "incx", none⟩, ⟨.ptr (.complex .double), "y", none⟩, ⟨.int64, "incy", none⟩,
    ⟨.lref (.const (.vectorClass .event)), "dependencies", (some .emptyBraces)⟩], false⟩
]

/-- The `geru` overloads of the `// USM APIs` section (blas_ct_templates.hpp:1503). -/
def geru : List Decl := [
  -- line 1503
  ⟨[⟨.library, "lib"⟩, ⟨.backend, "backend"⟩], true, true, .event, "geru", [
    ⟨.lref .queue, "queue", none⟩, ⟨.int64, "m", none⟩, ⟨.int64, "n", none⟩,
    ⟨.complex .float, "alpha", none⟩, ⟨.ptr (.const (.complex .float)), "x", none⟩,
    ⟨.int64, "incx", none⟩, ⟨.ptr (.const (.complex .float)), "y", none⟩, ⟨.int64, "incy", none⟩,
    ⟨.ptr (.complex .float), "a", none⟩, ⟨.int64, "lda", none⟩,
    ⟨.lref (.const (.vectorClass .event)), "dependencies", (some .emptyBraces)⟩], false⟩,
  -- line 1510
  ⟨[⟨.library, "lib"⟩, ⟨.backend, "backend"⟩], true, true, .event, "geru", [
    ⟨.lref .queue, "queue", none⟩, ⟨.int64, "m", none⟩, ⟨.int64, "n", none⟩,
    ⟨.complex .double, "alpha", none⟩, ⟨.ptr (.const (.complex .double)), "x", none⟩,
    ⟨.int64, "incx", none⟩, ⟨.ptr (.const (.complex .double)), "y", none⟩, ⟨.int64, "incy", none⟩,
    ⟨.ptr (.complex .double), "a", none⟩, ⟨.int64, "lda", none⟩,
    ⟨.lref (.const (.vectorClass .event)), "dependencies", (some .emptyBraces)⟩], false⟩
]

/-- The `nrm2` overloads of the `// USM APIs` section (blas_ct_templates.hpp:1517). -/
def nrm2 : List Decl := [
  -- line 1517
  ⟨[⟨.library, "lib"⟩, ⟨.backend, "backend"⟩], true, true, .event, "nrm2", [
    ⟨.lref .queue, "queue", none⟩, ⟨.int64, "n", none⟩,
    ⟨.ptr (.const (.complex .float)), "x", none⟩, ⟨.int64, "incx", none⟩,
    ⟨.ptr .float, "result", none⟩,
    ⟨.lref (.const (.vectorClass .event)), "dependencies", (some .emptyBraces)⟩], false⟩,
  -- line 1522
  ⟨[⟨.library, "lib"⟩, ⟨.backend, "backend"⟩], true, true, .event, "nrm2", [
    ⟨.lref .queue, "queue", none⟩, ⟨.int64, "n", none⟩,
    ⟨.ptr (.const (.complex .double)), "x", none⟩, ⟨.int64, "incx", none⟩,
    ⟨.ptr .double, "result", none⟩,
    ⟨.lref (.const (.vectorClass .event)), "dependencies", (some .emptyBraces)⟩], false⟩,
  -- line 1527
  ⟨[⟨.library, "lib"⟩, ⟨.backend, "backend"⟩], true, true, .event, "nrm2", [
    ⟨.lref .queue, "queue", none⟩, ⟨.int64, "n", none⟩, ⟨.ptr (.const .float), "x", none⟩,
    ⟨.int64, "incx", none⟩, ⟨.ptr .float, "result", none⟩,
    ⟨.lref (.const (.vectorClass .event)), "dependencies", (some .emptyBraces)⟩], false⟩,
  -- line 1532
  ⟨[⟨.library, "lib"⟩, ⟨.backend, "backend"⟩], true, true, .event, "nrm2", [
    ⟨.lref .queue, "queue", none⟩, ⟨.int64, "n", none⟩, ⟨.ptr (.const .double), "x", none⟩,
    ⟨.int64, "incx", none⟩, ⟨.ptr .double, "result", none⟩,
    ⟨.lref (.const (.vectorClass .event)), "dependencies", (some .emptyBraces)⟩], false⟩
]

/-- The `gemm` overloads of the `// USM APIs` section (blas_ct_templates.hpp:1537). -/
def gemm : List Decl := [
  -- line 1537
  ⟨[⟨.library, "lib"⟩, ⟨.backend, "backend"⟩], true, true, .event, "gemm", [
    ⟨.lref .queue, "queue", none⟩, ⟨.transpose, "transa", none⟩, ⟨.transpose, "transb", none⟩,
    ⟨.int64, "m", none⟩, ⟨.int64, "n", none⟩, ⟨.int64, "k", none⟩, ⟨.float, "alpha", none⟩,
    ⟨.ptr (.const .float), "a", none⟩, ⟨.int64, "lda", none⟩, ⟨.ptr (.const .float), "b", none⟩,
    ⟨.int64, "ldb", none⟩, ⟨.float, "beta", none⟩, ⟨.ptr .float, "c", none⟩, ⟨.int64, "ldc", none⟩,
    ⟨.lref (.const (.vectorClass .event)), "dependencies", (some .emptyBraces)⟩], false⟩,
  -- line 1544
  ⟨[⟨.library, "lib"⟩, ⟨.backend, "backend"⟩], true, true, .event, "gemm", [
    ⟨.lref .queue, "queue", none⟩, ⟨.transpose, "transa", none⟩, ⟨.transpose, "transb", none⟩,
    ⟨.int64, "m", none⟩, ⟨.int64, "n", none⟩, ⟨.int64, "k", none⟩, ⟨.double, "alpha", none⟩,
    ⟨.ptr (.const .double), "a", none⟩, ⟨.int64, "lda", none⟩, ⟨.ptr (.const .double), "b", none⟩,
    ⟨.int64, "ldb", none⟩, ⟨.double, "beta", none⟩, ⟨.ptr .double, "c", none⟩,
    ⟨.int64, "ldc", none⟩,
    ⟨.lref (.const (.vectorClass .event)), "dependencies", (some .emptyBraces)⟩], false⟩,
  -- line 1551
  ⟨[⟨.library, "lib"⟩, ⟨.backend, "backend"⟩], true, true, .event, "gemm", [
    ⟨.lref .queue, "queue", none⟩, ⟨.transpose, "transa", none⟩, ⟨.transpose, "transb", none⟩,
    ⟨.int64, "m", none⟩, ⟨.int64, "n", none⟩, ⟨.int64, "k", none⟩,
    ⟨.complex .float, "alpha", none⟩, ⟨.ptr (.const (.complex .float)), "a", none⟩,
    ⟨.int64, "lda", none⟩, ⟨.ptr (.const (.complex .float)), "b", none⟩, ⟨.int64, "ldb", none⟩,
    ⟨.complex .float, "beta", none⟩, ⟨.ptr (.complex .float), "c", none⟩, ⟨.int64, "ldc", none⟩,
    ⟨.lref (.const (.vectorClass .event)), "dependencies", (some .emptyBraces)⟩], false⟩,
  -- line 1559
  ⟨[⟨.library, "lib"⟩, ⟨.backend, "backend"⟩], true, true, .event, "gemm", [
    ⟨.lref .queue, "queue", none⟩, ⟨.transpose, "transa", none⟩, ⟨.transpose, "transb", none⟩,
    ⟨.int64, "m", none⟩, ⟨.int64, "n", none⟩, ⟨.int64, "k", none⟩,
    ⟨.complex .double, "alpha", none⟩, ⟨.ptr (.const (.complex .double)), "a", none⟩,
    ⟨.int64, "lda", none⟩, ⟨.ptr (.const (.complex .double)), "b", none⟩, ⟨.int64, "ldb", none⟩,
    ⟨.complex .double, "beta", none⟩, ⟨.ptr (.complex .double), "c", none⟩, ⟨.int64, "ldc", none⟩,
    ⟨.lref (.const (.vectorClass .event)), "dependencies", (some .emptyBraces)⟩], false⟩
]

/-- The `herk` overloads of the `// USM APIs` section (blas_ct_templates.hpp:1567). -/
def herk : List Decl := [
  -- line 1567
  ⟨[⟨.library, "lib"⟩, ⟨.backend, "backend"⟩], true, true, .event, "herk", [
    ⟨.lref .queue, "queue", none⟩, ⟨.uplo, "upper_lower", none⟩, ⟨.transpose, "trans", none⟩,
    ⟨.int64, "n", none⟩, ⟨.int64, "k", none⟩, ⟨.float, "alpha", none⟩,
    ⟨.ptr (.const (.complex .float)), "a", none⟩, ⟨.int64, "lda", none⟩, ⟨.float, "beta", none⟩,
    ⟨.ptr (.complex .float), "c", none⟩, ⟨.int64, "ldc", none⟩,
    ⟨.lref (.const (.vectorClass .event)), "dependencies", (some .emptyBraces)⟩], false⟩,
  -- line 1573
  ⟨[⟨.library, "lib"⟩, ⟨.backend, "backend"⟩], true, true, .event, "herk", [
    ⟨.lref .queue, "queue", none⟩, ⟨.uplo, "upper_lower", none⟩, ⟨.transpose, "trans", none⟩,
    ⟨.int64, "n", none⟩, ⟨.int64, "k", none⟩, ⟨.double, "alpha", none⟩,
    ⟨.ptr (.const (.complex .double)), "a", none⟩, ⟨.int64, "lda", none⟩, ⟨.double, "beta", none⟩,
    ⟨.ptr (.complex .double), "c", none⟩, ⟨.int64, "ldc", none⟩,
    ⟨.lref (.const (.vectorClass .event)), "dependencies", (some .emptyBraces)⟩], false⟩
]

/-- The `ger` overloads of the `// USM APIs` section (blas_ct_templates.hpp:1580). -/
def ger : List Decl := [
  -- line 1580
  ⟨[⟨.library, "lib"⟩, ⟨.backend, "backend"⟩], true, true, .event, "ger", [
    ⟨.lref .queue, "queue", none⟩, ⟨.int64, "m", none⟩, ⟨.int64, "n", none⟩,
    ⟨.float, "alpha", none⟩, ⟨.ptr (.const .float), "x", none⟩, ⟨.int64, "incx", none⟩,
    ⟨.ptr (.const .float), "y", none⟩, ⟨.int64, "incy", none⟩, ⟨.ptr .float, "a", none⟩,
    ⟨.int64, "lda", none⟩,
    ⟨.lref (.const (.vectorClass .event)), "dependencies", (some .emptyBraces)⟩], false⟩,
  -- line 1586
  ⟨[⟨.library, "lib"⟩, ⟨.backend, "backend"⟩], true, true, .event, "ger", [
    ⟨.lref .queue, "queue", none⟩, ⟨.int64, "m", none⟩, ⟨.int64, "n", none⟩,
    ⟨.double, "alpha", none⟩, ⟨.ptr (.const .double), "x", none⟩, ⟨.int64, "incx", none⟩,
    ⟨.ptr (.const .double), "y", none⟩, ⟨.int64, "incy", none⟩, ⟨.ptr .double, "a", none⟩,
    ⟨.int64, "lda", none⟩,
    ⟨.lref (.const (.vectorClass .event)), "dependencies", (some .emptyBraces)⟩], false⟩
]

/-- The `trsm` overloads of the `// USM APIs` section (blas_ct_templates.hpp:1592). -/
def trsm : List Decl := [
  -- line 1592
  ⟨[⟨.library, "lib"⟩, ⟨.backend, "backend"⟩], true, true, .event, "trsm", [
    ⟨.lref .queue, "queue", none⟩, ⟨.side, "left_right", none⟩, ⟨.uplo, "upper_lower", none⟩,
    ⟨.transpose, "trans", none⟩, ⟨.diag, "unit_diag", none⟩, ⟨.int64, "m", none⟩,
    ⟨.int64, "n", none⟩, ⟨.float, "alpha", none⟩, ⟨.ptr (.const .float), "a", none⟩,
    ⟨.int64, "lda", none⟩, ⟨.ptr .float, "b", none⟩, ⟨.int64, "ldb", none⟩,
    ⟨.lref (.const (.vectorClass .event)), "dependencies", (some .emptyBraces)⟩], false⟩,
  -- line 1598
  ⟨[⟨.library, "lib"⟩, ⟨.backend, "backend"⟩], true, true, .event, "trsm", [
    ⟨.lref .queue, "queue", none⟩, ⟨.side, "left_right", none⟩, ⟨.uplo, "upper_lower", none⟩,
    ⟨.transpose, "trans", none⟩, ⟨.diag, "unit_diag", none⟩, ⟨.int64, "m", none⟩,
    ⟨.int64, "n", none⟩, ⟨.double, "alpha", none⟩, ⟨.ptr (.const .double), "a", none⟩,
    ⟨.int64, "lda", none⟩, ⟨.ptr .double, "b", none⟩, ⟨.int64, "ldb", none⟩,
    ⟨.lref (.const (.vectorClass .event)), "dependencies", (some .emptyBraces)⟩], false⟩,
  -- line 1604
  ⟨[⟨.library, "lib"⟩, ⟨.backend, "backend"⟩], true, true, .event, "trsm", [
    ⟨.lref .queue, "queue", none⟩, ⟨.side, "left_right", none⟩, ⟨.uplo, "upper_lower", none⟩,
    ⟨.transpose, "trans", none⟩, ⟨.diag, "unit_diag", none⟩, ⟨.int64, "m", none⟩,
    ⟨.int64, "n", none⟩, ⟨.complex .float, "alpha", none⟩,
    ⟨.ptr (.const (.complex .float)), "a", none⟩, ⟨.int64, "lda", none⟩,
    ⟨.ptr (.complex .float), "b", none⟩, ⟨.int64, "ldb", none⟩,
    ⟨.lref (.const (.vectorClass .event)), "dependencies", (some .emptyBraces)⟩], false⟩,
  -- line 1611
  ⟨[⟨.library, "lib"⟩, ⟨.backend, "backend"⟩], true, true, .event, "trsm", [
    ⟨.lref .queue, "queue", none⟩, ⟨.side, "left_right", none⟩, ⟨.uplo, "upper_lower", none⟩,
    ⟨.transpose, "trans", none⟩, ⟨.diag, "unit_diag", none⟩, ⟨.int64, "m", none⟩,
    ⟨.int64, "n", none⟩, ⟨.complex .double, "alpha", none⟩,
    ⟨.ptr (.const (.complex .double)), "a", none⟩, ⟨.int64, "lda", none⟩,
    ⟨.ptr (.complex .double), "b", none⟩, ⟨.int64, "ldb", none⟩,
    ⟨.lref (.const (.vectorClass .event)), "dependencies", (some .emptyBraces)⟩], false⟩
]

/-- The `dotu` overloads of the `// USM APIs` section (blas_ct_templates.hpp:1618). -/
def dotu : List Decl := [
  -- line 1618
  ⟨[⟨.library, "lib"⟩, ⟨.backend, "backend"⟩], true, true, .event, "dotu", [
    ⟨.lref .queue, "queue", none⟩, ⟨.int64, "n", none⟩,
    ⟨.ptr (.const (.complex .float)), "x", none⟩, ⟨.int64, "incx", none⟩,
    ⟨.ptr (.const (.complex .float)), "y", none⟩, ⟨.int64, "incy", none⟩,
    ⟨.ptr (.complex .float), "result", none⟩,
    ⟨.lref (.const (.vectorClass .event)), "dependencies", (some .emptyBraces)⟩], false⟩,
  -- line 1624
  ⟨[⟨.library, "lib"⟩, ⟨.backend, "backend"⟩], true, true, .event, "dotu", [
    ⟨.lref .queue, "queue", none⟩, ⟨.int64, "n", none⟩,
    ⟨.ptr (.const (.complex .double)), "x", none⟩, ⟨.int64, "incx", none⟩,
    ⟨.ptr (.const (.complex .double)), "y", none⟩, ⟨.int64, "incy", none⟩,
    ⟨.ptr (.complex .double), "result", none⟩,
    ⟨.lref (.const (.vectorClass .event)), "dependencies", (some .emptyBraces)⟩], false⟩
]

/-- The `hemm` overloads of the `// USM APIs` section (blas_ct_templates.hpp:1630). -/
def hemm : List Decl := [
  -- line 1630
  ⟨[⟨.library, "lib"⟩, ⟨.backend, "backend"⟩], true, true, .event, "hemm", [
    ⟨.lref .queue, "queue", none⟩, ⟨.side, "left_right", none⟩, ⟨.uplo, "upper_lower", none⟩,
    ⟨.int64, "m", none⟩, ⟨.int64, "n", none⟩, ⟨.complex .float, "alpha", none⟩,
    ⟨.ptr (.const (.complex .float)), "a", none⟩, ⟨.int64, "lda", none⟩,
    ⟨.ptr (.const (.complex .float)), "b", none⟩, ⟨.int64, "ldb", none⟩,
    ⟨.complex .float, "beta", none⟩, ⟨.ptr (.complex .float), "c", none⟩, ⟨.int64, "ldc", none⟩,
    ⟨.lref (.const (.vectorClass .event)), "dependencies", (some .emptyBraces)⟩], false⟩,
  -- line 1638
  ⟨[⟨.library, "lib"⟩, ⟨.backend, "backend"⟩], true, true, .event, "hemm", [
    ⟨.lref .queue, "queue", none⟩, ⟨.side, "left_right", none⟩, ⟨.uplo, "upper_lower", none⟩,
    ⟨.int64, "m", none⟩, ⟨.int64, "n", none⟩, ⟨.complex .double, "alpha", none⟩,
    ⟨.ptr (.const (.complex .double)), "a", none⟩, ⟨.int64, "lda", none⟩,
    ⟨.ptr (.const (.complex .double)), "b", none⟩, ⟨.int64, "ldb", none⟩,
    ⟨.complex .double, "beta", none⟩, ⟨.ptr (.complex .double), "c", none⟩, ⟨.int64, "ldc", none⟩,
    ⟨.lref (.const (.vectorClass .event)), "dependencies", (some .emptyBraces)⟩], false⟩
]

/-- The `hpr2` overloads of the `// USM APIs` section (blas_ct_templates.hpp:1646). -/
def hpr2 : List Decl := [
  -- line 1646
  ⟨[⟨.library, "lib"⟩, ⟨.backend, "backend"⟩], true, true, .event, "hpr2", [
    ⟨.lref .queue, "queue", none⟩, ⟨.uplo, "upper_lower", none⟩, ⟨.int64, "n", none⟩,
    ⟨.complex .float, "alpha", none⟩, ⟨.ptr (.const (.complex .float)), "x", none⟩,
    ⟨.int64, "incx", none⟩, ⟨.ptr (.const (.complex .float)), "y", none⟩, ⟨.int64, "incy", none⟩,
    ⟨.ptr (.complex .float), "a", none⟩,
    ⟨.lref (.const (.vectorClass .event)), "dependencies", (some .emptyBraces)⟩], false⟩,
  -- line 1653
  ⟨[⟨.library, "lib"⟩, ⟨.backend, "backend"⟩], true, true, .event, "hpr2", [
    ⟨.lref .queue, "queue", none⟩, ⟨.uplo, "upper_lower", none⟩, ⟨.int64, "n", none⟩,
    ⟨.complex .double, "alpha", none⟩, ⟨.ptr (.const (.complex .double)), "x", none⟩,
    ⟨.int64, "incx", none⟩, ⟨.ptr (.const (.complex .double)), "y", none⟩, ⟨.int64, "incy", none⟩,
    ⟨.ptr (.complex .double), "a", none⟩,
    ⟨.lref (.const (.vectorClass .event)), "dependencies", (some .emptyBraces)⟩], false⟩
]

/-- The `gbmv` overloads of the `// USM APIs` section (blas_ct_templates.hpp:1660). -/
def gbmv : List Decl := [
  -- line 1660
  ⟨[⟨.library, "lib"⟩, ⟨.backend, "backend"⟩], true, true, .event, "gbmv", [
    ⟨.lref .queue, "queue", none⟩, ⟨.transpose, "trans", none⟩, ⟨.int64, "m", none⟩,
    ⟨.int64, "n", none⟩, ⟨.int64, "kl", none⟩, ⟨.int64, "ku", none⟩, ⟨.float, "alpha", none⟩,
    ⟨.ptr (.const .float), "a", none⟩, ⟨.int64, "lda", none⟩, ⟨.ptr (.const .float), "x", none⟩,
    ⟨.int64, "incx", none⟩, ⟨.float, "beta", none⟩, ⟨.ptr .float, "y", none⟩,
    ⟨.int64, "incy", none⟩,
    ⟨.lref (.const (.vectorClass .event)), "dependencies", (some .emptyBraces)⟩], false⟩,
  -- line 1667
  ⟨[⟨.library, "lib"⟩, ⟨.backend, "backend"⟩], true, true, .event, "gbmv", [
    ⟨.lref .queue, "queue", none⟩, ⟨.transpose, "trans", none⟩, ⟨.int64, "m", none⟩,
    ⟨.int64, "n", none⟩, ⟨.int64, "kl", none⟩, ⟨.int64, "ku", none⟩, ⟨.double, "alpha", none⟩,
    ⟨.ptr (.const .double), "a", none⟩, ⟨.int64, "lda", none⟩, ⟨.ptr (.const .double), "x", none⟩,
    ⟨.int64, "incx", none⟩, ⟨.double, "beta", none⟩, ⟨.ptr .double, "y", none⟩,
    ⟨.int64, "incy", none⟩,
    ⟨.lref (.const (.vectorClass .event)), "dependencies", (some .emptyBraces)⟩], false⟩,
  -- line 1674
  ⟨[⟨.library, "lib"⟩, ⟨.backend, "backend"⟩], true, true, .event, "gbmv", [
    ⟨.lref .queue, "queue", none⟩, ⟨.transpose, "trans", none⟩, ⟨.int64, "m", none⟩,
    ⟨.int64, "n", none⟩, ⟨.int64, "kl", none⟩, ⟨.int64, "ku", none⟩,
    ⟨.complex .float, "alpha", none⟩, ⟨.ptr (.const (.complex .float)), "a", none⟩,
    ⟨.int64, "lda", none⟩, ⟨.ptr (.const (.complex .float)), "x", none⟩, ⟨.int64, "incx", none⟩,
    ⟨.complex .float, "beta", none⟩, ⟨.ptr (.complex .float), "y", none⟩, ⟨.int64, "incy", none⟩,
    ⟨.lref (.const (.vectorClass .event)), "dependencies", (some .emptyBraces)⟩], false⟩,
  -- line 1682
  ⟨[⟨.library, "lib"⟩, ⟨.backend, "backend"⟩], true, true, .event, "gbmv", [
    ⟨.lref .queue, "queue", none⟩, ⟨.transpose, "trans", none⟩, ⟨.int64, "m", none⟩,
    ⟨.int64, "n", none⟩, ⟨.int64, "kl", none⟩, ⟨.int64, "ku", none⟩,
    ⟨.complex .double, "alpha", none⟩, ⟨.ptr (.const (.complex .double)), "a", none⟩,
    ⟨.int64, "lda", none⟩, ⟨.ptr (.const (.complex .double)), "x", none⟩, ⟨.int64, "incx", none⟩,
    ⟨.complex .double, "beta", none⟩, ⟨.ptr (.complex .double), "y", none⟩, ⟨.int64, "incy", none⟩,
    ⟨.lref (.const (.vectorClass .event)), "dependencies", (some .emptyBraces)⟩], false⟩
]

/-- The `tbmv` overloads of the `// USM APIs` section (blas_ct_templates.hpp:1690). -/
def tbmv : List Decl := [
  -- line 1690
  ⟨[⟨.library, "lib"⟩, ⟨.backend, "backend"⟩], true, true, .event, "tbmv", [
    ⟨.lref .queue, "queue", none⟩, ⟨.uplo, "upper_lower", none⟩, ⟨.transpose, "trans", none⟩,
    ⟨.diag, "unit_diag", none⟩, ⟨.int64, "n", none⟩, ⟨.int64, "k", none⟩,
    ⟨.ptr (.const .float), "a", none⟩, ⟨.int64, "lda", none⟩, ⟨.ptr .float, "x", none⟩,
    ⟨.int64, "incx", none⟩,
    ⟨.lref (.const (.vectorClass .event)), "dependencies", (some .emptyBraces)⟩], false⟩,
  -- line 1696
  ⟨[⟨.library, "lib"⟩, ⟨.backend, "backend"⟩], true, true, .event, "tbmv", [
    ⟨.lref .queue, "queue", none⟩, ⟨.uplo, "upper_lower", none⟩, ⟨.transpose, "trans", none⟩,
    ⟨.diag, "unit_diag", none⟩, ⟨.int64, "n", none⟩, ⟨.int64, "k", none⟩,
    ⟨.ptr (.const .double), "a", none⟩, ⟨.int64, "lda", none⟩, ⟨.ptr .double, "x", none⟩,
    ⟨.int64, "incx", none⟩,
    ⟨.lref (.const (.vectorClass .event)), "dependencies", (some .emptyBraces)⟩], false⟩,
  -- line 1702
  ⟨[⟨.library, "lib"⟩, ⟨.backend, "backend"⟩], true, true, .event, "tbmv", [
    ⟨.lref .queue, "queue", none⟩, ⟨.uplo, "upper_lower", none⟩, ⟨.transpose, "trans", none⟩,
    ⟨.diag, "unit_diag", none⟩, ⟨.int64, "n", none⟩, ⟨.int64, "k", none⟩,
    ⟨.ptr (.const (.complex .float)), "a", none⟩, ⟨.int64, "lda", none⟩,
    ⟨.ptr (.complex .float), "x", none⟩, ⟨.int64, "incx", none⟩,
    ⟨.lref (.const (.vectorClass .event)), "dependencies", (some .emptyBraces)⟩], false⟩,
  -- line 1708
  ⟨[⟨.library, "lib"⟩, ⟨.backend, "backend"⟩], true, true, .event, "tbmv", [
    ⟨.lref .queue, "queue", none⟩, ⟨.uplo, "upper_lower", none⟩, ⟨.transpose, "trans", none⟩,
    ⟨.diag, "unit_diag", none⟩, ⟨.int64, "n", none⟩, ⟨.int64, "k", none⟩,
    ⟨.ptr (.const (.complex .double)), "a", none⟩, ⟨.int64, "lda", none⟩,
    ⟨.ptr (.complex .double), "x", none⟩, ⟨.int64, "incx", none⟩,
    ⟨.lref (.const (.vectorClass .event)), "dependencies", (some .emptyBraces)⟩], false⟩
]

/-- The `symm` overloads of the `// USM APIs` section (blas_ct_templates.hpp:1714). -/
def symm : List Decl := [
  -- line 1714
  ⟨[⟨.library, "lib"⟩, ⟨.backend, "backend"⟩], true, true, .event, "symm", [
    ⟨.lref .queue, "queue", none⟩, ⟨.side, "left_right", none⟩, ⟨.uplo, "upper_lower", none⟩,
    ⟨.int64, "m", none⟩, ⟨.int64, "n", none⟩, ⟨.float, "alpha", none⟩,
    ⟨.ptr (.const .float), "a", none⟩, ⟨.int64, "lda", none⟩, ⟨.ptr (.const .float), "b", none⟩,
    ⟨.int64, "ldb", none⟩, ⟨.float, "beta", none⟩, ⟨.ptr .float, "c", none⟩, ⟨.int64, "ldc", none⟩,
    ⟨.lref (.const (.vectorClass .event)), "dependencies", (some .emptyBraces)⟩], false⟩,
  -- line 1720
  ⟨[⟨.library, "lib"⟩, ⟨.backend, "backend"⟩], true, true, .event, "symm", [
    ⟨.lref .queue, "queue", none⟩, ⟨.side, "left_right", none⟩, ⟨.uplo, "upper_lower", none⟩,
    ⟨.int64, "m", none⟩, ⟨.int64, "n", none⟩, ⟨.double, "alpha", none⟩,
    ⟨.ptr (.const .double), "a", none⟩, ⟨.int64, "lda", none⟩, ⟨.ptr (.const .double), "b", none⟩,
    ⟨.int64, "ldb", none⟩, ⟨.double, "beta", none⟩, ⟨.ptr .double, "c", none⟩,
    ⟨.int64, "ldc", none⟩,
    ⟨.lref (.const (.vectorClass .event)), "dependencies", (some .emptyBraces)⟩], false⟩,
  -- line 1726
  ⟨[⟨.library, "lib"⟩, ⟨.backend, "backend"⟩], true, true, .event, "symm", [
    ⟨.lref .queue, "queue", none⟩, ⟨.side, "left_right", none⟩, ⟨.uplo, "upper_lower", none⟩,
    ⟨.int64, "m", none⟩, ⟨.int64, "n", none⟩, ⟨.complex .float, "alpha", none⟩,
    ⟨.ptr (.const (.complex .float)), "a", none⟩, ⟨.int64, "lda", none⟩,
    ⟨.ptr (.const (.complex .float)), "b", none⟩, ⟨.int64, "ldb", none⟩,
    ⟨.complex .float, "beta", none⟩, ⟨.ptr (.complex .float), "c", none⟩, ⟨.int64, "ldc", none⟩,
    ⟨.lref (.const (.vectorClass .event)), "dependencies", (some .emptyBraces)⟩], false⟩,
  -- line 1734
  ⟨[⟨.library, "lib"⟩, ⟨.backend, "backend"⟩], true, true, .event, "symm", [
    ⟨.lref .queue, "queue", none⟩, ⟨.side, "left_right", none⟩, ⟨.uplo, "upper_lower", none⟩,
    ⟨.int64, "m", none⟩, ⟨.int64, "n", none⟩, ⟨.complex .double, "alpha", none⟩,
    ⟨.ptr (.const (.complex .double)), "a", none⟩, ⟨.int64, "lda", none⟩,
    ⟨.ptr (.const (.complex .double)), "b", none⟩, ⟨.int64, "ldb", none⟩,
    ⟨.complex .double, "beta", none⟩, ⟨.ptr (.complex .double), "c", none⟩, ⟨.int64, "ldc", none⟩,
    ⟨.lref (.const (.vectorClass .event)), "dependencies", (some .emptyBraces)⟩], false⟩
]

/-- The `dotc` overloads of the `// USM APIs` section (blas_ct_templates.hpp:1742). -/
def dotc : List Decl := [
  -- line 1742
  ⟨[⟨.library, "lib"⟩, ⟨.backend, "backend"⟩], true, true, .event, "dotc", [
    ⟨.lref .queue, "queue", none⟩, ⟨.int64, "n", none⟩,
    ⟨.ptr (.const (.complex .float)), "x", none⟩, ⟨.int64, "incx", none⟩,
    ⟨.ptr (.const (.complex .float)), "y", none⟩, ⟨.int64, "incy", none⟩,
    ⟨.ptr (.complex .float), "result", none⟩,
    ⟨.lref (.const (.vectorClass .event)), "dependencies", (some .emptyBraces)⟩], false⟩,
  -- line 1748
  ⟨[⟨.library, "lib"⟩, ⟨.backend, "backend"⟩], true, true, .event, "dotc", [
    ⟨.lref .queue, "queue", none⟩, ⟨.int64, "n", none⟩,
    ⟨.ptr (.const (.complex .double)), "x", none⟩, ⟨.int64, "incx", none⟩,
    ⟨.ptr (.const (.complex .double)), "y", none⟩, ⟨.int64, "incy", none⟩,
    ⟨.ptr (.complex .double), "result", none⟩,
    ⟨.lref (.const (.vectorClass .event)), "dependencies", (some .emptyBraces)⟩], false⟩
]

/-- The `syr` overloads of the `// USM APIs` section (blas_ct_templates.hpp:1754). -/
def syr : List Decl := [
  -- line 1754
  ⟨[⟨.library, "lib"⟩, ⟨.backend, "backend"⟩], true, true, .event, "syr", [
    ⟨.lref .queue, "queue", none⟩, ⟨.uplo, "upper_lower", none⟩, ⟨.int64, "n", none⟩,
    ⟨.float, "alpha", none⟩, ⟨.ptr (.const .float), "x", none⟩, ⟨.int64, "incx", none⟩,
    ⟨.ptr .float, "a", none⟩, ⟨.int64, "lda", none⟩,
    ⟨.lref (.const (.vectorClass .event)), "dependencies", (some .emptyBraces)⟩], false⟩,
  -- line 1760
  ⟨[⟨.library, "lib"⟩, ⟨.backend, "backend"⟩], true, true, .event, "syr", [
    ⟨.lref .queue, "queue", none⟩, ⟨.uplo, "upper_lower", none⟩, ⟨.int64, "n", none⟩,
    ⟨.double, "alpha", none⟩, ⟨.ptr (.const .double), "x", none⟩, ⟨.int64, "incx", none⟩,
    ⟨.ptr .double, "a", none⟩, ⟨.int64, "lda", none⟩,
    ⟨.lref (.const (.vectorClass .event)), "dependencies", (some .emptyBraces)⟩], false⟩
]

/-- The `trmm` overloads of the `// USM APIs` section (blas_ct_templates.hpp:1766). -/
def trmm : List Decl := [
  -- line 1766
  ⟨[⟨.library, "lib"⟩, ⟨.backend, "backend"⟩], true, true, .event, "trmm", [
    ⟨.lref .queue, "queue", none⟩, ⟨.side, "left_right", none⟩, ⟨.uplo, "upper_lower", none⟩,
    ⟨.transpose, "trans", none⟩, ⟨.diag, "unit_diag", none⟩, ⟨.int64, "m", none⟩,
    ⟨.int64, "n", none⟩, ⟨.float, "alpha", none⟩, ⟨.ptr (.const .float), "a", none⟩,
    ⟨.int64, "lda", none⟩, ⟨.ptr .float, "b", none⟩, ⟨.int64, "ldb", none⟩,
    ⟨.lref (.const (.vectorClass .event)), "dependencies", (some .emptyBraces)⟩], false⟩,
  -- line 1772
  ⟨[⟨.library, "lib"⟩, ⟨.backend, "backend"⟩], true, true, .event, "trmm", [
    ⟨.lref .queue, "queue", none⟩, ⟨.side, "left_right", none⟩, ⟨.uplo, "upper_lower", none⟩,
    ⟨.transpose, "trans", none⟩, ⟨.diag, "unit_diag", none⟩, ⟨.int64, "m", none⟩,
    ⟨.int64, "n", none⟩, ⟨.double, "alpha", none⟩, ⟨.ptr (.const .double), "a", none⟩,
    ⟨.int64, "lda", none⟩, ⟨.ptr .double, "b", none⟩, ⟨.int64, "ldb", none⟩,
    ⟨.lref (.const (.vectorClass .event)), "dependencies", (some .emptyBraces)⟩], false⟩,
  -- line 1778
  ⟨[⟨.library, "lib"⟩, ⟨.backend, "backend"⟩], true, true, .event, "trmm", [
    ⟨.lref .queue, "queue", none⟩, ⟨.side, "left_right", none⟩, ⟨.uplo, "upper_lower", none⟩,
    ⟨.transpose, "trans", none⟩, ⟨.diag, "unit_diag", none⟩, ⟨.int64, "m", none⟩,
    ⟨.int64, "n", none⟩, ⟨.complex .float, "alpha", none⟩,
    ⟨.ptr (.const (.complex .float)), "a", none⟩, ⟨.int64, "lda", none⟩,
    ⟨.ptr (.complex .float), "b", none⟩, ⟨.int64, "ldb", none⟩,
    ⟨.lref (.const (.vectorClass .event)), "dependencies", (some .emptyBraces)⟩], false⟩,
  -- line 1785
  ⟨[⟨.library, "lib"⟩, ⟨.backend, "backend"⟩], true, true, .event, "trmm", [
    ⟨.lref .queue, "queue", none⟩, ⟨.side, "left_right", none⟩, ⟨.uplo, "upper_lower", none⟩,
    ⟨.transpose, "trans", none⟩, ⟨.diag, "unit_diag", none⟩, ⟨.int64, "m", none⟩,
    ⟨.int64, "n", none⟩, ⟨.complex .double, "alpha", none⟩,
    ⟨.ptr (.const (.complex .double)), "a", none⟩, ⟨.int64, "lda", none⟩,
    ⟨.ptr (.complex .double), "b", none⟩, ⟨.int64, "ldb", none⟩,
    ⟨.lref (.const (.vectorClass .event)), "dependencies", (some .emptyBraces)⟩], false⟩
]

/-- The `rotmg` overloads of the `// USM APIs` section (blas_ct_templates.hpp:1792). -/
def rotmg : List Decl := [
  -- line 1792
  ⟨[⟨.library, "lib"⟩, ⟨.backend, "backend"⟩], true, true, .event, "rotmg", [
    ⟨.lref .queue, "queue", none⟩, ⟨.ptr .float, "d1", none⟩, ⟨.ptr .float, "d2", none⟩,
    ⟨.ptr .float, "x1", none⟩, ⟨.float, "y1", none⟩, ⟨.ptr .float, "param", none⟩,
    ⟨.lref (.const (.vectorClass .event)), "dependencies", (some .emptyBraces)⟩], false⟩,
  -- line 1797
  ⟨[⟨.library, "lib"⟩, ⟨.backend, "backend"⟩], true, true, .event, "rotmg", [
    ⟨.lref .queue, "queue", none⟩, ⟨.ptr .double, "d1", none⟩, ⟨.ptr .double, "d2", none⟩,
    ⟨.ptr .double, "x1", none⟩, ⟨.double, "y1", none⟩, ⟨.ptr .double, "param", none⟩,
    ⟨.lref (.const (.vectorClass .event)), "dependencies", (some .emptyBraces)⟩], false⟩
]

/-- The `tpsv` overloads of the `// USM APIs` section (blas_ct_templates.hpp:1802). -/
def tpsv : List Decl := [
  -- line 1802
  ⟨[⟨.library, "lib"⟩, ⟨.backend, "backend"⟩], true, true, .event, "tpsv", [
    ⟨.lref .queue, "queue", none⟩, ⟨.uplo, "upper_lower", none⟩, ⟨.transpose, "trans", none⟩,
    ⟨.diag, "unit_diag", none⟩, ⟨.int64, "n", none⟩, ⟨.ptr (.const .float), "a", none⟩,
    ⟨.ptr .float, "x", none⟩, ⟨.int64, "incx", none⟩,
    ⟨.lref (.const (.vectorClass .event)), "dependencies", (some .emptyBraces)⟩], false⟩,
  -- line 1808
  ⟨[⟨.library, "lib"⟩, ⟨.backend, "backend"⟩], true, true, .event, "tpsv", [
    ⟨.lref .queue, "queue", none⟩, ⟨.uplo, "upper_lower", none⟩, ⟨.transpose, "trans", none⟩,
    ⟨.diag, "unit_diag", none⟩, ⟨.int64, "n", none⟩, ⟨.ptr (.const .double), "a", none⟩,
    ⟨.ptr .double, "x", none⟩, ⟨.int64, "incx", none⟩,
    ⟨.lref (.const (.vectorClass .event)), "dependencies", (some .emptyBraces)⟩], false⟩,
  -- line 1814
  ⟨[⟨.library, "lib"⟩, ⟨.backend, "backend"⟩], true, true, .event, "tpsv", [
    ⟨.lref .queue, "queue", none⟩, ⟨.uplo, "upper_lower", none⟩, ⟨.transpose, "trans", none⟩,
    ⟨.diag, "unit_diag", none⟩, ⟨.int64, "n", none⟩, ⟨.ptr (.const (.complex .float)), "a", none⟩,
    ⟨.ptr (.complex .float), "x", none⟩, ⟨.int64, "incx", none⟩,
    ⟨.lref (.const (.vectorClass .event)), "dependencies", (some .emptyBraces)⟩], false⟩,
  -- line 1820
  ⟨[⟨.library, "lib"⟩, ⟨.backend, "backend"⟩], true, true, .event, "tpsv", [
    ⟨.lref .queue, "queue", none⟩, ⟨.uplo, "upper_lower", none⟩, ⟨.transpose, "trans", none⟩,
    ⟨.diag, "unit_diag", none⟩, ⟨.int64, "n", none⟩, ⟨.ptr (.const (.complex .double)), "a", none⟩,
    ⟨.ptr (.complex .double), "x", none⟩, ⟨.int64, "incx", none⟩,
    ⟨.lref (.const (.vectorClass .event)), "dependencies", (some .emptyBraces)⟩], false⟩
]

/-- The `trsv` overloads of the `// USM APIs` section (blas_ct_templates.hpp:1826). -/
def trsv : List Decl := [
  -- line 1826
  ⟨[⟨.library, "lib"⟩, ⟨.backend, "backend"⟩], true, true, .event, "trsv", [
    ⟨.lref .queue, "queue", none⟩, ⟨.uplo, "upper_lower", none⟩, ⟨.transpose, "trans", none⟩,
    ⟨.diag, "unit_diag", none⟩, ⟨.int64, "n", none⟩, ⟨.ptr (.const .float), "a", none⟩,
    ⟨.int64, "lda", none⟩, ⟨.ptr .float, "x", none⟩, ⟨.int64, "incx", none⟩,
    ⟨.lref (.const (.vectorClass .event)), "dependencies", (some .emptyBraces)⟩], false⟩,
  -- line 1832
  ⟨[⟨.library, "lib"⟩, ⟨.backend, "backend"⟩], true, true, .event, "trsv", [
    ⟨.lref .queue, "queue", none⟩, ⟨.uplo, "upper_lower", none⟩, ⟨.transpose, "trans", none⟩,
    ⟨.diag, "unit_diag", none⟩, ⟨.int64, "n", none⟩, ⟨.ptr (.const .double), "a", none⟩,
    ⟨.int64, "lda", none⟩, ⟨.ptr .double, "x", none⟩, ⟨.int64, "incx", none⟩,
    ⟨.lref (.const (.vectorClass .event)), "dependencies", (some .emptyBraces)⟩], false⟩,
  -- line 1838
  ⟨[⟨.library, "lib"⟩, ⟨.backend, "backend"⟩], true, true, .event, "trsv", [
    ⟨.lref .queue, "queue", none⟩, ⟨.uplo, "upper_lower", none⟩, ⟨.transpose, "trans", none⟩,
    ⟨.diag, "unit_diag", none⟩, ⟨.int64, "n", none⟩, ⟨.ptr (.const (.complex .float)), "a", none⟩,
    ⟨.int64, "lda", none⟩, ⟨.ptr (.complex .float), "x", none⟩, ⟨.int64, "incx", none⟩,
    ⟨.lref (.const (.vectorClass .event)), "dependencies", (some .emptyBraces)⟩], false⟩,
  -- line 1844
  ⟨[⟨.library, "lib"⟩, ⟨.backend, "backend"⟩], true, true, .event, "trsv", [
    ⟨.lref .queue, "queue", none⟩, ⟨.uplo, "upper_lower", none⟩, ⟨.transpose, "trans", none⟩,
    ⟨.diag, "unit_diag", none⟩, ⟨.int64, "n", none⟩, ⟨.ptr (.const (.complex .double)), "a", none⟩,
    ⟨.int64, "lda", none⟩, ⟨.ptr (.complex .double), "x", none⟩, ⟨.int64, "incx", none⟩,
    ⟨.lref (.const (.vectorClass .event)), "dependencies", (some .emptyBraces)⟩], false⟩
]

/-- The `copy` overloads of the `// USM APIs` section (blas_ct_templates.hpp:1850). -/
def copy : List Decl := [
  -- line 1850
  ⟨[⟨.library, "lib"⟩, ⟨.backend, "backend"⟩], true, true, .event, "copy", [
    ⟨.lref .queue, "queue", none⟩, ⟨.int64, "n", none⟩, ⟨.ptr (.const .float), "x", none⟩,
    ⟨.int64, "incx", none⟩, ⟨.ptr .float, "y", none⟩, ⟨.int64, "incy", none⟩,
    ⟨.lref (.const (.vectorClass .event)), "dependencies", (some .emptyBraces)⟩], false⟩,
  -- line 1855
  ⟨[⟨.library, "lib"⟩, ⟨.backend, "backend"⟩], true, true, .event, "copy", [
    ⟨.lref .queue, "queue", none⟩, ⟨.int64, "n", none⟩, ⟨.ptr (.const .double), "x", none⟩,
    ⟨.int64, "incx", none⟩, ⟨.ptr .double, "y", none⟩, ⟨.int64, "incy", none⟩,
    ⟨.lref (.const (.vectorClass .event)), "dependencies", (some .emptyBraces)⟩], false⟩,
  -- line 1860
  ⟨[⟨.library, "lib"⟩, ⟨.backend, "backend"⟩], true, true, .event, "copy", [
    ⟨.lref .queue, "queue", none⟩, ⟨.int64, "n", none⟩,
    ⟨.ptr (.const (.complex .float)), "x", none⟩, ⟨.int64, "incx", none⟩,
    ⟨.ptr (.complex .float), "y", none⟩, ⟨.int64, "incy", none⟩,
    ⟨.lref (.const (.vectorClass .event)), "dependencies", (some .emptyBraces)⟩], false⟩,
  -- line 1866
  ⟨[⟨.library, "lib"⟩, ⟨.backend, "backend"⟩], true, true, .event, "copy", [
    ⟨.lref .queue, "queue", none⟩, ⟨.int64, "n", none⟩,
    ⟨.ptr (.const (.complex .double)), "x", none⟩, ⟨.int64, "incx", none⟩,
    ⟨.ptr (.complex .double), "y", none⟩, ⟨.int64, "incy", none⟩,
    ⟨.lref (.const (.vectorClass .event)), "dependencies", (some .emptyBraces)⟩], false⟩
]

/-- The `hemv` overloads of the `// USM APIs` section (blas_ct_templates.hpp:1872). -/
def hemv : List Decl := [
  -- line 1872
  ⟨[⟨.library, "lib"⟩, ⟨.backend, "backend"⟩], true, true, .event, "hemv", [
    ⟨.lref .queue, "queue", none⟩, ⟨.uplo, "upper_lower", none⟩, ⟨.int64, "n", none⟩,
    ⟨.complex .float, "alpha", none⟩, ⟨.ptr (.const (.complex .float)), "a", none⟩,
    ⟨.int64, "lda", none⟩, ⟨.ptr (.const (.complex .float)), "x", none⟩, ⟨.int64, "incx", none⟩,
    ⟨.complex .float, "beta", none⟩, ⟨.ptr (.complex .float), "y", none⟩, ⟨.int64, "incy", none⟩,
    ⟨.lref (.const (.vectorClass .event)), "dependencies", (some .emptyBraces)⟩], false⟩,
  -- line 1879
  ⟨[⟨.library, "lib"⟩, ⟨.backend, "backend"⟩], true, true, .event, "hemv", [
    ⟨.lref .queue, "queue", none⟩, ⟨.uplo, "upper_lower", none⟩, ⟨.int64, "n", none⟩,
    ⟨.complex .double, "alpha", none⟩, ⟨.ptr (.const (.complex .double)), "a", none⟩,
    ⟨.int64, "lda", none⟩, ⟨.ptr (.const (.complex .double)), "x", none⟩, ⟨.int64, "incx", none⟩,
    ⟨.complex .double, "beta", none⟩, ⟨.ptr (.complex .double), "y", none⟩, ⟨.int64, "incy", none⟩,
    ⟨.lref (.const (.vectorClass .event)), "dependencies", (some .emptyBraces)⟩], false⟩
]

/-- The `gemmt` overloads of the `// USM APIs` section (blas_ct_templates.hpp:1886). -/
def gemmt : List Decl := [
  -- line 1886
  ⟨[⟨.library, "lib"⟩, ⟨.backend, "backend"⟩], true, true, .event, "gemmt", [
    ⟨.lref .queue, "queue", none⟩, ⟨.uplo, "upper_lower", none⟩, ⟨.transpose, "transa", none⟩,
    ⟨.transpose, "transb", none⟩, ⟨.int64, "n", none⟩, ⟨.int64, "k", none⟩,
    ⟨.float, "alpha", none⟩, ⟨.ptr (.const .float), "a", none⟩, ⟨.int64, "lda", none⟩,
    ⟨.ptr (.const .float), "b", none⟩, ⟨.int64, "ldb", none⟩, ⟨.float, "beta", none⟩,
    ⟨.ptr .float, "c", none⟩, ⟨.int64, "ldc", none⟩,
    ⟨.lref (.const (.vectorClass .event)), "dependencies", (some .emptyBraces)⟩], false⟩,
  -- line 1893
  ⟨[⟨.library, "lib"⟩, ⟨.backend, "backend"⟩], true, true, .event, "gemmt", [
    ⟨.lref .queue, "queue", none⟩, ⟨.uplo, "upper_lower", none⟩, ⟨.transpose, "transa", none⟩,
    ⟨.transpose, "transb", none⟩, ⟨.int64, "n", none⟩, ⟨.int64, "k", none⟩,
    ⟨.double, "alpha", none⟩, ⟨.ptr (.const .double), "a", none⟩, ⟨.int64, "lda", none⟩,
    ⟨.ptr (.const .double), "b", none⟩, ⟨.int64, "ldb", none⟩, ⟨.double, "beta", none⟩,
    ⟨.ptr .double, "c", none⟩, ⟨.int64, "ldc", none⟩,
    ⟨.lref (.const (.vectorClass .event)), "dependencies", (some .emptyBraces)⟩], false⟩,
  -- line 1900
  ⟨[⟨.library, "lib"⟩, ⟨.backend, "backend"⟩], true, true, .event, "gemmt", [
    ⟨.lref .queue, "queue", none⟩, ⟨.uplo, "upper_lower", none⟩, ⟨.transpose, "transa", none⟩,
    ⟨.transpose, "transb", none⟩, ⟨.int64, "n", none⟩, ⟨.int64, "k", none⟩,
    ⟨.complex .float, "alpha", none⟩, ⟨.ptr (.const (.complex .float)), "a", none⟩,
    ⟨.int64, "lda", none⟩, ⟨.ptr (.const (.complex .float)), "b", none⟩, ⟨.int64, "ldb", none⟩,
    ⟨.complex .float, "beta", none⟩, ⟨.ptr (.complex .float), "c", none⟩, ⟨.int64, "ldc", none⟩,
    ⟨.lref (.const (.vectorClass .event)), "dependencies", (some .emptyBraces)⟩], false⟩,
  -- line 1908
  ⟨[⟨.library, "lib"⟩, ⟨.backend, "backend"⟩], true, true, .event, "gemmt", [
    ⟨.lref .queue, "queue", none⟩, ⟨.uplo, "upper_lower", none⟩, ⟨.transpose, "transa", none⟩,
    ⟨.transpose, "transb", none⟩, ⟨.int64, "n", none⟩, ⟨.int64, "k", none⟩,
    ⟨.complex .double, "alpha", none⟩, ⟨.ptr (.const (.complex .double)), "a", none⟩,
    ⟨.int64, "lda", none⟩, ⟨.ptr (.const (.complex .double)), "b", none⟩, ⟨.int64, "ldb", none⟩,
    ⟨.complex .double, "beta", none⟩, ⟨.ptr (.complex .double), "c", none⟩, ⟨.int64, "ldc", none⟩,
    ⟨.lref (.const (.vectorClass .event)), "dependencies", (some .emptyBraces)⟩], false⟩
]

/-- The `sbmv` overloads of the `// USM APIs` section (blas_ct_templates.hpp:1916). -/
def sbmv : List Decl := [
  -- line 1916
  ⟨[⟨.library, "lib"⟩, ⟨.backend, "backend"⟩], true, true, .event, "sbmv", [
    ⟨.lref .queue, "queue", none⟩, ⟨.uplo, "upper_lower", none⟩, ⟨.int64, "n", none⟩,
    ⟨.int64, "k", none⟩, ⟨.float, "alpha", none⟩, ⟨.ptr (.const .float), "a", none⟩,
    ⟨.int64, "lda", none⟩, ⟨.ptr (.const .float), "x", none⟩, ⟨.int64, "incx", none⟩,
    ⟨.float, "beta", none⟩, ⟨.ptr .float, "y", none⟩, ⟨.int64, "incy", none⟩,
    ⟨.lref (.const (.vectorClass .event)), "dependencies", (some .emptyBraces)⟩], false⟩,
  -- line 1922
  ⟨[⟨.library, "lib"⟩, ⟨.backend, "backend"⟩], true, true, .event, "sbmv", [
    ⟨.lref .queue, "queue", none⟩, ⟨.uplo, "upper_lower", none⟩, ⟨.int64, "n", none⟩,
    ⟨.int64, "k", none⟩, ⟨.double, "alpha", none⟩, ⟨.ptr (.const .double), "a", none⟩,
    ⟨.int64, "lda", none⟩, ⟨.ptr (.const .double), "x", none⟩, ⟨.int64, "incx", none⟩,
    ⟨.double, "beta", none⟩, ⟨.ptr .double, "y", none⟩, ⟨.int64, "incy", none⟩,
    ⟨.lref (.const (.vectorClass .event)), "dependencies", (some .emptyBraces)⟩], false⟩
]

/-- The `asum` overloads of the `// USM APIs` section (blas_ct_templates.hpp:1928). -/
def asum : List Decl := [
  -- line 1928
  ⟨[⟨.library, "lib"⟩, ⟨.backend, "backend"⟩], true, true, .event, "asum", [
    ⟨.lref .queue, "queue", none⟩, ⟨.int64, "n", none⟩,
    ⟨.ptr (.const (.complex .float)), "x", none⟩, ⟨.int64, "incx", none⟩,
    ⟨.ptr .float, "result", none⟩,
    ⟨.lref (.const (.vectorClass .event)), "dependencies", (some .emptyBraces)⟩], false⟩,
  -- line 1933
  ⟨[⟨.library, "lib"⟩, ⟨.backend, "backend"⟩], true, true, .event, "asum", [
    ⟨.lref .queue, "queue", none⟩, ⟨.int64, "n", none⟩,
    ⟨.ptr (.const (.complex .double)), "x", none⟩, ⟨.int64, "incx", none⟩,
    ⟨.ptr .double, "result", none⟩,
    ⟨.lref (.const (.vectorClass .event)), "dependencies", (some .emptyBraces)⟩], false⟩,
  -- line 1938
  ⟨[⟨.library, "lib"⟩, ⟨.backend, "backend"⟩], true, true, .event, "asum", [
    ⟨.lref .queue, "queue", none⟩, ⟨.int64, "n", none⟩, ⟨.ptr (.const .float), "x", none⟩,
    ⟨.int64, "incx", none⟩, ⟨.ptr .float, "result", none⟩,
    ⟨.lref (.const (.vectorClass .event)), "dependencies", (some .emptyBraces)⟩], false⟩,
  -- line 1943
  ⟨[⟨.library, "lib"⟩, ⟨.backend, "backend"⟩], true, true, .event, "asum", [
    ⟨.lref .queue, "queue", none⟩, ⟨.int64, "n", none⟩, ⟨.ptr (.const .double), "x", none⟩,
    ⟨.int64, "incx", none⟩, ⟨.ptr .double, "result", none⟩,
    ⟨.lref (.const (.vectorClass .event)), "dependencies", (some .emptyBraces)⟩], false⟩
]

/-- The `tbsv` overloads of the `// USM APIs` section (blas_ct_templates.hpp:1948). -/
def tbsv : List Decl := [
  -- line 1948
  ⟨[⟨.library, "lib"⟩, ⟨.backend, "backend"⟩], true, true, .event, "tbsv", [
    ⟨.lref .queue, "queue", none⟩, ⟨.uplo, "upper_lower", none⟩, ⟨.transpose, "trans", none⟩,
    ⟨.diag, "unit_diag", none⟩, ⟨.int64, "n", none⟩, ⟨.int64, "k", none⟩,
    ⟨.ptr (.const .float), "a", none⟩, ⟨.int64, "lda", none⟩, ⟨.ptr .float, "x", none⟩,
    ⟨.int64, "incx", none⟩,
    ⟨.lref (.const (.vectorClass .event)), "dependencies", (some .emptyBraces)⟩], false⟩,
  -- line 1954
  ⟨[⟨.library, "lib"⟩, ⟨.backend, "backend"⟩], true, true, .event, "tbsv", [
    ⟨.lref .queue, "queue", none⟩, ⟨.uplo, "upper_lower", none⟩, ⟨.transpose, "trans", none⟩,
    ⟨.diag, "unit_diag", none⟩, ⟨.int64, "n", none⟩, ⟨.int64, "k", none⟩,
    ⟨.ptr (.const .double), "a", none⟩, ⟨.int64, "lda", none⟩, ⟨.ptr .double, "x", none⟩,
    ⟨.int64, "incx", none⟩,
    ⟨.lref (.const (.vectorClass .event)), "dependencies", (some .emptyBraces)⟩], false⟩,
  -- line 1960
  ⟨[⟨.library, "lib"⟩, ⟨.backend, "backend"⟩], true, true, .event, "tbsv", [
    ⟨.lref .queue, "queue", none⟩, ⟨.uplo, "upper_lower", none⟩, ⟨.transpose, "trans", none⟩,
    ⟨.diag, "unit_diag", none⟩, ⟨.int64, "n", none⟩, ⟨.int64, "k", none⟩,
    ⟨.ptr (.const (.complex .float)), "a", none⟩, ⟨.int64, "lda", none⟩,
    ⟨.ptr (.complex .float), "x", none⟩, ⟨.int64, "incx", none⟩,
    ⟨.lref (.const (.vectorClass .event)), "dependencies", (some .emptyBraces)⟩], false⟩,
  -- line 1966
  ⟨[⟨.library, "lib"⟩, ⟨.backend, "backend"⟩], true, true, .event, "tbsv", [
    ⟨.lref .queue, "queue", none⟩, ⟨.uplo, "upper_lower", none⟩, ⟨.transpose, "trans", none⟩,
    ⟨.diag, "unit_diag", none⟩, ⟨.int64, "n", none⟩, ⟨.int64, "k", none⟩,
    ⟨.ptr (.const (.complex .double)), "a", none⟩, ⟨.int64, "lda", none⟩,
    ⟨.ptr (.complex .double), "x", none⟩, ⟨.int64, "incx", none⟩,
    ⟨.lref (.const (.vectorClass .event)), "dependencies", (some .emptyBraces)⟩], false⟩
]

/-- The `spr2` overloads of the `// USM APIs` section (blas_ct_templates.hpp:1972). -/
def spr2 : List Decl := [
  -- line 1972
  ⟨[⟨.library, "lib"⟩, ⟨.backend, "backend"⟩], true, true, .event, "spr2", [
    ⟨.lref .queue, "queue", none⟩, ⟨.uplo, "upper_lower", none⟩, ⟨.int64, "n", none⟩,
    ⟨.float, "alpha", none⟩, ⟨.ptr (.const .float), "x", none⟩, ⟨.int64, "incx", none⟩,
    ⟨.ptr (.const .float), "y", none⟩, ⟨.int64, "incy", none⟩, ⟨.ptr .float, "a", none⟩,
    ⟨.lref (.const (.vectorClass .event)), "dependencies", (some .emptyBraces)⟩], false⟩,
  -- line 1978
  ⟨[⟨.library, "lib"⟩, ⟨.backend, "backend"⟩], true, true, .event, "spr2", [
    ⟨.lref .queue, "queue", none⟩, ⟨.uplo, "upper_lower", none⟩, ⟨.int64, "n", none⟩,
    ⟨.double, "alpha", none⟩, ⟨.ptr (.const .double), "x", none⟩, ⟨.int64, "incx", none⟩,
    ⟨.ptr (.const .double), "y", none⟩, ⟨.int64, "incy", none⟩, ⟨.ptr .double, "a", none⟩,
    ⟨.lref (.const (.vectorClass .event)), "dependencies", (some .emptyBraces)⟩], false⟩
]

/-- The `iamax` overloads of the `// USM APIs` section (blas_ct_templates.hpp:1984). -/
def iamax : List Decl := [
  -- line 1984
  ⟨[⟨.library, "lib"⟩, ⟨.backend, "backend"⟩], true, true, .event, "iamax", [
    ⟨.lref .queue, "queue", none⟩, ⟨.int64, "n", none⟩, ⟨.ptr (.const .float), "x", none⟩,
    ⟨.int64, "incx", none⟩, ⟨.ptr .int64, "result", none⟩,
    ⟨.lref (.const (.vectorClass .event)), "dependencies", (some .emptyBraces)⟩], false⟩,
  -- line 1989
  ⟨[⟨.library, "lib"⟩, ⟨.backend, "backend"⟩], true, true, .event, "iamax", [
    ⟨.lref .queue, "queue", none⟩, ⟨.int64, "n", none⟩, ⟨.ptr (.const .double), "x", none⟩,
    ⟨.int64, "incx", none⟩, ⟨.ptr .int64, "result", none⟩,
    ⟨.lref (.const (.vectorClass .event)), "dependencies", (some .emptyBraces)⟩], false⟩,
  -- line 1994
  ⟨[⟨.library, "lib"⟩, ⟨.backend, "backend"⟩], true, true, .event, "iamax", [
    ⟨.lref .queue, "queue", none⟩, ⟨.int64, "n", none⟩,
    ⟨.ptr (.const (.complex .float)), "x", none⟩, ⟨.int64, "incx", none⟩,
    ⟨.ptr .int64, "result", none⟩,
    ⟨.lref (.const (.vectorClass .event)), "dependencies", (some .emptyBraces)⟩], false⟩,
  -- line 1999
  ⟨[⟨.library, "lib"⟩, ⟨.backend, "backend"⟩], true, true, .event, "iamax", [
    ⟨.lref .queue, "queue", none⟩, ⟨.int64, "n", none⟩,
    ⟨.ptr (.const (.complex .double)), "x", none⟩, ⟨.int64, "incx", none⟩,
    ⟨.ptr .int64, "result", none⟩,
    ⟨.lref (.const (.vectorClass .event)), "dependencies", (some .emptyBraces)⟩], false⟩
]

/-- The `rotm` overloads of the `// USM APIs` section (blas_ct_templates.hpp:2004). -/
def rotm : List Decl := [
  -- line 2004
  ⟨[⟨.library, "lib"⟩, ⟨.backend, "backend"⟩], true, true, .event, "rotm", [
    ⟨.lref .queue, "queue", none⟩, ⟨.int64, "n", none⟩, ⟨.ptr .float, "x", none⟩,
    ⟨.int64, "incx", none⟩, ⟨.ptr .float, "y", none⟩, ⟨.int64, "incy", none⟩,
    ⟨.ptr .float, "param", none⟩,
    ⟨.lref (.const (.vectorClass .event)), "dependencies", (some .emptyBraces)⟩], false⟩,
  -- line 2010
  ⟨[⟨.library, "lib"⟩, ⟨.backend, "backend"⟩], true, true, .event, "rotm", [
    ⟨.lref .queue, "queue", none⟩, ⟨.int64, "n", none⟩, ⟨.ptr .double, "x", none⟩,
    ⟨.int64, "incx", none⟩, ⟨.ptr .double, "y", none⟩, ⟨.int64, "incy", none⟩,
    ⟨.ptr .double, "param", none⟩,
    ⟨.lref (.const (.vectorClass .event)), "dependencies", (some .emptyBraces)⟩], false⟩
]

/-- The `rotg` overloads of the `// USM APIs` section (blas_ct_templates.hpp:2016). -/
def rotg : List Decl := [
  -- line 2016
  ⟨[⟨.library, "lib"⟩, ⟨.backend, "backend"⟩], true, true, .event, "rotg", [
    ⟨.lref .queue, "queue", none⟩, ⟨.ptr .float, "a", none⟩, ⟨.ptr .float, "b", none⟩,
    ⟨.ptr .float, "c", none⟩, ⟨.ptr .float, "s", none⟩,
    ⟨.lref (.const (.vectorClass .event)), "dependencies", (some .emptyBraces)⟩], false⟩,
  -- line 2021
  ⟨[⟨.library, "lib"⟩, ⟨.backend, "backend"⟩], true, true, .event, "rotg", [
    ⟨.lref .queue, "queue", none⟩, ⟨.ptr .double, "a", none⟩, ⟨.ptr .double, "b", none⟩,
    ⟨.ptr .double, "c", none⟩, ⟨.ptr .double, "s", none⟩,
    ⟨.lref (.const (.vectorClass .event)), "dependencies", (some .emptyBraces)⟩], false⟩,
  -- line 2026
  ⟨[⟨.library, "lib"⟩, ⟨.backend, "backend"⟩], true, true, .event, "rotg", [
    ⟨.lref .queue, "queue", none⟩, ⟨.ptr (.complex .float), "a", none⟩,
    ⟨.ptr (.complex .float), "b", none⟩, ⟨.ptr .float, "c", none⟩,
    ⟨.ptr (.complex .float), "s", none⟩,
    ⟨.lref (.const (.vectorClass .event)), "dependencies", (some .emptyBraces)⟩], false⟩,
  -- line 2031
  ⟨[⟨.library, "lib"⟩, ⟨.backend, "backend"⟩], true, true, .event, "rotg", [
    ⟨.lref .queue, "queue", none⟩, ⟨.ptr (.complex .double), "a", none⟩,
    ⟨.ptr (.complex .double), "b", none⟩, ⟨.ptr .double, "c", none⟩,
    ⟨.ptr (.complex .double), "s", none⟩,
    ⟨.lref (.const (.vectorClass .event)), "dependencies", (some .emptyBraces)⟩], false⟩
]

/-- The `sdsdot` overloads of the `// USM APIs` section (blas_ct_templates.hpp:2036). -/
def sdsdot : List Decl := [
  -- line 2036
  ⟨[⟨.library, "lib"⟩, ⟨.backend, "backend"⟩], true, true, .event, "sdsdot", [
    ⟨.lref .queue, "queue", none⟩, ⟨.int64, "n", none⟩, ⟨.float, "sb", none⟩,
    ⟨.ptr (.const .float), "x", none⟩, ⟨.int64, "incx", none⟩, ⟨.ptr (.const .float), "y", none⟩,
    ⟨.int64, "incy", none⟩, ⟨.ptr .float, "result", none⟩,
    ⟨.lref (.const (.vectorClass .event)), "dependencies", (some .emptyBraces)⟩], false⟩
]

/-- The `her2k` overloads of the `// USM APIs` section (blas_ct_templates.hpp:2042). -/
def her2k : List Decl := [
  -- line 2042
  ⟨[⟨.library, "lib"⟩, ⟨.backend, "backend"⟩], true, true, .event, "her2k", [
    ⟨.lref .queue, "queue", none⟩, ⟨.uplo, "upper_lower", none⟩, ⟨.transpose, "trans", none⟩,
    ⟨.int64, "n", none⟩, ⟨.int64, "k", none⟩, ⟨.complex .float, "alpha", none⟩,
    ⟨.ptr (.const (.complex .float)), "a", none⟩, ⟨.int64, "lda", none⟩,
    ⟨.ptr (.const (.complex .float)), "b", none⟩, ⟨.int64, "ldb", none⟩, ⟨.float, "beta", none⟩,
    ⟨.ptr (.complex .float), "c", none⟩, ⟨.int64, "ldc", none⟩,
    ⟨.lref (.const (.vectorClass .event)), "dependencies", (some .emptyBraces)⟩], false⟩,
  -- line 2049
  ⟨[⟨.library, "lib"⟩, ⟨.backend, "backend"⟩], true, true, .event, "her2k", [
    ⟨.lref .queue, "queue", none⟩, ⟨.uplo, "upper_lower", none⟩, ⟨.transpose, "trans", none⟩,
    ⟨.int64, "n", none⟩, ⟨.int64, "k", none⟩, ⟨.complex .double, "alpha", none⟩,
    ⟨.ptr (.const (.complex .double)), "a", none⟩, ⟨.int64, "lda", none⟩,
    ⟨.ptr (.const (.complex .double)), "b", none⟩, ⟨.int64, "ldb", none⟩, ⟨.double, "beta", none⟩,
    ⟨.ptr (.complex .double), "c", none⟩, ⟨.int64, "ldc", none⟩,
    ⟨.lref (.const (.vectorClass .event)), "dependencies", (some .emptyBraces)⟩], false⟩
]

/-- The `dot` overloads of the `// USM APIs` section (blas_ct_templates.hpp:2056). -/
def dot : List Decl := [
  -- line 2056
  ⟨[⟨.library, "lib"⟩, ⟨.backend, "backend"⟩], true, true, .event, "dot", [
    ⟨.lref .queue, "queue", none⟩, ⟨.int64, "n", none⟩, ⟨.ptr (.const .float), "x", none⟩,
    ⟨.int64, "incx", none⟩, ⟨.ptr (.const .float), "y", none⟩, ⟨.int64, "incy", none⟩,
    ⟨.ptr .float, "result", none⟩,
    ⟨.lref (.const (.vectorClass .event)), "dependencies", (some .emptyBraces)⟩], false⟩,
  -- line 2062
  ⟨[⟨.library, "lib"⟩, ⟨.backend, "backend"⟩], true, true, .event, "dot", [
    ⟨.lref .queue, "queue", none⟩, ⟨.int64, "n", none⟩, ⟨.ptr (.const .double), "x", none⟩,
    ⟨.int64, "incx", none⟩, ⟨.ptr (.const .double), "y", none⟩, ⟨.int64, "incy", none⟩,
    ⟨.ptr .double, "result", none⟩,
    ⟨.lref (.const (.vectorClass .event)), "dependencies", (some .emptyBraces)⟩], false⟩,
  -- line 2068
  ⟨[⟨.library, "lib"⟩, ⟨.backend, "backend"⟩], true, true, .event, "dot", [
    ⟨.lref .queue, "queue", none⟩, ⟨.int64, "n", none⟩, ⟨.ptr (.const .float), "x", none⟩,
    ⟨.int64, "incx", none⟩, ⟨.ptr (.const .float), "y", none⟩, ⟨.int64, "incy", none⟩,
    ⟨.ptr .double, "result", none⟩,
    ⟨.lref (.const (.vectorClass .event)), "dependencies", (some .emptyBraces)⟩], false⟩
]

/-- The `symv` overloads of the `// USM APIs` section (blas_ct_templates.hpp:2074). -/
def symv : List Decl := [
  -- line 2074
  ⟨[⟨.library, "lib"⟩, ⟨.backend, "backend"⟩], true, true, .event, "symv", [
    ⟨.lref .queue, "queue", none⟩, ⟨.uplo, "upper_lower", none⟩, ⟨.int64, "n", none⟩,
    ⟨.float, "alpha", none⟩, ⟨.ptr (.const .float), "a", none⟩, ⟨.int64, "lda", none⟩,
    ⟨.ptr (.const .float), "x", none⟩, ⟨.int64, "incx", none⟩, ⟨.float, "beta", none⟩,
    ⟨.ptr .float, "y", none⟩, ⟨.int64, "incy", none⟩,
    ⟨.lref (.const (.vectorClass .event)), "dependencies", (some .emptyBraces)⟩], false⟩,
  -- line 2080
  ⟨[⟨.library, "lib"⟩, ⟨.backend, "backend"⟩], true, true, .event, "symv", [
    ⟨.lref .queue, "queue", none⟩, ⟨.uplo, "upper_lower", none⟩, ⟨.int64, "n", none⟩,
    ⟨.double, "alpha", none⟩, ⟨.ptr (.const .double), "a", none⟩, ⟨.int64, "lda", none⟩,
    ⟨.ptr (.const .double), "x", none⟩, ⟨.int64, "incx", none⟩, ⟨.double, "beta", none⟩,
    ⟨.ptr .double, "y", none⟩, ⟨.int64, "incy", none⟩,
    ⟨.lref (.const (.vectorClass .event)), "dependencies", (some .emptyBraces)⟩], false⟩
]

end usm

/-- All declarations of the `// USM APIs` section of blas_ct_templates.hpp, in source order. -/
def usmAPIs : List Decl :=
  usm.syr2 ++ usm.scal ++ usm.trmv ++ usm.tpmv ++ usm.spr ++ usm.hpmv ++ usm.syrk ++
  usm.her2 ++ usm.hbmv ++ usm.rot ++ usm.axpy ++ usm.axpy_batch ++ usm.gerc ++ usm.syr2k ++
  usm.gemv ++ usm.her ++ usm.hpr ++ usm.iamin ++ usm.gemm_batch ++ usm.spmv ++ usm.swap ++
  usm.geru ++ usm.nrm2 ++ usm.gemm ++ usm.herk ++ usm.ger ++ usm.trsm ++ usm.dotu ++
  usm.hemm ++ usm.hpr2 ++ usm.gbmv ++ usm.tbmv ++ usm.symm ++ usm.dotc ++ usm.syr ++
  usm.trmm ++ usm.rotmg ++ usm.tpsv ++ usm.trsv ++ usm.copy ++ usm.hemv ++ usm.gemmt ++
  usm.sbmv ++ usm.asum ++ usm.tbsv ++ usm.spr2 ++ usm.iamax ++ usm.rotm ++ usm.rotg ++
  usm.sdsdot ++ usm.her2k ++ usm.dot ++ usm.symv

/-- Every declaration of the header, Buffer APIs first, then USM APIs (source order). -/
def allDecls : List Decl := bufferAPIs ++ usmAPIs

/-- Does the type mention `cl::sycl::event` anywhere (bare, or under `const`, a pointer, a
reference, or as the element of a `vector_class`)? -/
def CType.mentionsEvent : CType → Bool
  | .event => true
  | .complex t | .buffer t _ | .vectorClass t | .const t | .ptr t | .lref t => t.mentionsEvent
  | _ => false

/-- Does the type mention `cl::sycl::queue` anywhere? -/
def CType.mentionsQueue : CType → Bool
  | .queue => true
  | .complex t | .buffer t _ | .vectorClass t | .const t | .ptr t | .lref t => t.mentionsQueue
  | _ => false

/-- Does the type mention `onemkl::library` or `onemkl::backend` anywhere? -/
def CType.mentionsTag : CType → Bool
  | .library | .backend => true
  | .complex t | .buffer t _ | .vectorClass t | .const t | .ptr t | .lref t => t.mentionsTag
  | _ => false

/-- The parameter `const cl::sycl::vector_class<cl::sycl::event> &dependencies = {}`. -/
def dependenciesParam : Param :=
  ⟨.lref (.const (.vectorClass .event)), "dependencies", some .emptyBraces⟩

/-- The parameter `cl::sycl::queue &queue`. -/
def queueParam : Param := ⟨.lref .queue, "queue", none⟩

/-- The template parameter list `<onemkl::library lib, onemkl::backend backend>`. -/
def tagTemplateParams : List TemplateParam := [⟨.library, "lib"⟩, ⟨.backend, "backend"⟩]

/-- Least number of arguments a call of the declaration must supply: the parameters up to the
last one without a default argument. -/
def Decl.minArgs (d : Decl) : Nat :=
  (d.params.reverse.dropWhile fun p => p.default.isSome).length

/-! ## Overloads, element types and the two calling conventions -/

/-- The sequence of parameter types of a declaration. -/
def Decl.paramTypes (d : Decl) : List CType := d.params.map fun p => p.type

/-- A declaration accepts a call with exactly these argument types when they are its parameter
types, of which trailing parameters with a default argument may be left out. -/
def Decl.accepts (d : Decl) (argTypes : List CType) : Bool :=
  decide (d.minArgs ≤ argTypes.length) && argTypes.isPrefixOf d.paramTypes

/-- The overloads among `decls` that a call of `name` with exactly these argument types
selects. -/
def candidates (decls : List Decl) (name : String) (argTypes : List CType) : List Decl :=
  decls.filter fun d => decide (d.name = name) && d.accepts argTypes

/-- Strips `const` qualifiers and pointers from a pointee type: the type of the elements an
array argument finally points to. -/
def CType.pointee : CType → CType
  | .const t => t.pointee
  | .ptr t => t.pointee
  | t => t

/-- The element type of an array argument: `T` for `cl::sycl::buffer<T, 1> &`, the type pointed
to (without `const`, through every level of pointer) for a raw pointer; nothing for the other
parameters. -/
def CType.elementType? : CType → Option CType
  | .lref (.buffer t _) => some t
  | .ptr t => some t.pointee
  | _ => none

/-- The closed set of numeric element types: float, double, std::complex<float>,
std::complex<double>, half, int8_t, uint8_t, int32_t. -/
def numericElementTypes : List CType :=
  [.float, .double, .complex .float, .complex .double, .half, .int8, .uint8, .int32]

/-- The numeric type a parameter contributes to the element-type combination of its
declaration: the type itself for a numeric value passed by copy, the element type for an array
argument (managed buffer or raw pointer) with numeric elements; nothing for the queue, the
flags, the sizes, the index arrays and the dependency list. -/
def CType.numeric? (t : CType) : Option CType :=
  if t ∈ numericElementTypes then some t
  else match t.elementType? with
    | some e => if e ∈ numericElementTypes then some e else none
    | none => none

/-- The element-type combination of a declaration: the numeric types of its scalars and
arrays, in the order of the parameters. -/
def Decl.elementTypes (d : Decl) : List CType := d.params.filterMap fun p => p.type.numeric?

/-- How many of the declarations have this name and this element-type combination. -/
def declaredTimes (decls : List Decl) (name : String) (elementTypes : List CType) : Nat :=
  (decls.filter fun d => decide (d.name = name) && decide (d.elementTypes = elementTypes)).length

/-- Is the declaration a pointer-array (group) overload: has it a pointer-to-pointer
parameter? -/
def Decl.isGroup (d : Decl) : Bool :=
  d.params.any fun p => match p.type with
    | .ptr (.ptr _) => true
    | _ => false

/-- Does the type mention `half`? -/
def CType.mentionsHalf : CType → Bool
  | .half => true
  | .complex t | .buffer t _ | .vectorClass t | .const t | .ptr t | .lref t => t.mentionsHalf
  | _ => false

/-- Does a parameter of the declaration mention `half`? -/
def Decl.isHalf (d : Decl) : Bool := d.params.any fun p => p.type.mentionsHalf

/-- A raw-pointer parameter type stands for a managed-buffer parameter type when a
`cl::sycl::buffer<T, 1> &` became `T *` or `const T *` and any other type is unchanged. -/
def CType.standsFor (usmType bufferType : CType) : Bool :=
  match bufferType with
  | .lref (.buffer t 1) => decide (usmType = .ptr t) || decide (usmType = .ptr (.const t))
  | t => decide (usmType = t)

/-- Position by position, the raw-pointer types stand for the managed-buffer types. -/
def standsForAll : List CType → List CType → Bool
  | [], [] => true
  | u :: us, b :: bs => u.standsFor b && standsForAll us bs
  | _, _ => false

/-- A raw-pointer declaration `u` is the counterpart of a managed-buffer declaration `b`: same
name, and the parameter list of `u` is that of `b` with every buffer reference replaced in place
by a pointer, followed by the trailing `dependencies` parameter. -/
def Decl.counterpart (b u : Decl) : Bool :=
  decide (u.name = b.name) && standsForAll u.paramTypes.dropLast b.paramTypes &&
    decide (u.params.getLast? = some dependenciesParam)

/-- The managed-buffer declarations other than `gemm_ext`, `trsm_batch` and the
half-precision `gemm`. -/
def bufferCommon : List Decl :=
  bufferAPIs.filter fun d =>
    !(decide (d.name = "gemm_ext") || decide (d.name = "trsm_batch") ||
      (decide (d.name = "gemm") && d.isHalf))

/-- The raw-pointer declarations other than `axpy_batch` and the pointer-array `gemm_batch`
overloads. -/
def usmCommon : List Decl :=
  usmAPIs.filter fun d =>
    !(decide (d.name = "axpy_batch") || (decide (d.name = "gemm_batch") && d.isGroup))

/-- The pairs are counterparts, position by position. -/
def counterpartAll : List Decl → List Decl → Bool
  | [], [] => true
  | b :: bs, u :: us => b.counterpart u && counterpartAll bs us
  | _, _ => false

/-- The 50 standard BLAS routine families: level 1, level 2, level 3. -/
def blasFamilies : List String :=
  ["asum", "axpy", "copy", "dot", "dotc", "dotu", "sdsdot", "iamax", "iamin", "nrm2", "rot",
   "rotg", "rotm", "rotmg", "scal", "swap",
   "gbmv", "gemv", "ger", "gerc", "geru", "hbmv", "hemv", "her", "her2", "hpmv", "hpr", "hpr2",
   "sbmv", "spmv", "spr", "spr2", "symv", "syr", "syr2", "tbmv", "tbsv", "tpmv", "tpsv", "trmv",
   "trsv",
   "gemm", "hemm", "herk", "her2k", "symm", "syrk", "syr2k", "trmm", "trsm"]

/-- What a declaration at namespace scope can be. -/
inductive Entity where
  | functionTemplate (d : Decl)
  | variable (type : CType) (name : String)
  | classDefinition (name : String)
  deriving DecidableEq, Repr

/-- Everything declared between `namespace blas {` and its closing brace in
blas_ct_templates.hpp (lines 35 to 2086): the 336 function-template declarations and nothing
else (the two section comments apart). -/
def namespaceEntities : List Entity := allDecls.map .functionTemplate

/-- A `static inline` function-template declaration without a body. -/
def Entity.isBodilessTemplate : Entity → Bool
  | .functionTemplate d => !d.templateParams.isEmpty && d.isStatic && d.isInline && !d.hasBody
  | _ => false

/-- The ways a call receives something: the queue by reference, a value by copy (flag, size,
scalar), an operand handle (managed buffer by reference, or raw pointer), or the list of
tokens by const reference. -/
inductive Passing where
  | queue
  | value
  | operand
  | tokens
  deriving DecidableEq, Repr

/-- How a parameter of this type is passed; `none` for a type that is none of the four. -/
def CType.passing? : CType → Option Passing
  | .lref .queue => some .queue
  | .lref (.buffer _ _) => some .operand
  | .ptr _ => some .operand
  | .lref (.const (.vectorClass .event)) => some .tokens
  | .int64 | .int32 | .int8 | .uint8 | .half | .float | .double | .complex _ => some .value
  | .transpose | .uplo | .diag | .side | .offset => some .value
  | _ => none

/-- The pointer parameters of a declaration, in order: name and type. -/
def Decl.pointerParams (d : Decl) : List (String × CType) :=
  d.params.filterMap fun p => match p.type with
    | .ptr t => some (p.name, .ptr t)
    | _ => none

/-- The type of the parameter with this name, if there is one. -/
def Decl.typeOf? (d : Decl) (name : String) : Option CType :=
  (d.params.find? fun p => p.name = name).map fun p => p.type

/-- The four element types of the tested raw-pointer operations. -/
def fpTypes : List CType := [.float, .double, .complex .float, .complex .double]

/-! ## Precisions and integer parameters -/

/-- Replaces `float` by `double` throughout a type, so that `std::complex<float>` becomes
`std::complex<double>`. -/
def CType.toDouble : CType → CType
  | .float => .double
  | .complex t => .complex t.toDouble
  | .buffer t dims => .buffer t.toDouble dims
  | .vectorClass t => .vectorClass t.toDouble
  | .const t => .const t.toDouble
  | .ptr t => .ptr t.toDouble
  | .lref t => .lref t.toDouble
  | t => t

/-- The parameter with `float` replaced by `double` in its type. -/
def Param.toDouble (p : Param) : Param := ⟨p.type.toDouble, p.name, p.default⟩

/-- Does the type mention `float` (bare or as `std::complex<float>`)? -/
def CType.mentionsFloat : CType → Bool
  | .float => true
  | .complex t | .buffer t _ | .vectorClass t | .const t | .ptr t | .lref t => t.mentionsFloat
  | _ => false

/-- Does the type mention an 8-bit or 32-bit integer type (`int8_t`, `uint8_t`, `int32_t`)? -/
def CType.mentionsSmallInt : CType → Bool
  | .int8 | .uint8 | .int32 => true
  | .complex t | .buffer t _ | .vectorClass t | .const t | .ptr t | .lref t =>
    t.mentionsSmallInt
  | _ => false

/-- A single-precision declaration: its parameter types mention `float` and mention neither
`half` nor an 8/32-bit integer type. -/
def Decl.isSinglePrecision (d : Decl) : Bool :=
  (d.params.any fun p => p.type.mentionsFloat) && !d.isHalf &&
    !(d.params.any fun p => p.type.mentionsSmallInt)

/-- The names the header gives to dimensions (`m`, `n`, `k`), band widths (`k`, `kl`, `ku`),
increments, leading dimensions, strides, the group count and batch sizes. -/
def sizeNames : List String :=
  ["m", "n", "k", "kl", "ku", "incx", "incy", "lda", "ldb", "ldc", "stride_a", "stride_b",
   "stride_c", "group_count", "group_size", "batch_size"]

/-- An integer type passed by value. -/
def CType.isIntegerScalar : CType → Bool
  | .int64 | .int32 | .int8 | .uint8 => true
  | _ => false

/-- Does the type mention `int32_t`? -/
def CType.mentionsInt32 : CType → Bool
  | .int32 => true
  | .complex t | .buffer t _ | .vectorClass t | .const t | .ptr t | .lref t => t.mentionsInt32
  | _ => false

/-! ## Routing of a call (spec §2, §4.1, §7, §8)

The header declares the function templates; their specialisations per (library, backend) pair,
and the vendor entry points they forward to, are defined elsewhere in the repository. -/

/-- Modelled from the spec: the operation tag, "a pair of compile-time identifiers" selecting
the vendor library and the compute backend (§3).  The enumerations `onemkl::library` and
`onemkl::backend` are declared in `onemkl/detail/libraries.hpp` and
`onemkl/detail/backends.hpp`, which are not among the sources; their enumerators are
numbered. -/
structure Tag where
  lib : Nat
  backend : Nat
  deriving DecidableEq, Repr

/-- Modelled from the spec: the failure taxonomy of §7 as surfaced to the caller. The class
`onemkl::backend_unsupported_exception` is only named by the tests. -/
inductive Failure where
  /-- Unsupported-configuration failure, `onemkl::backend_unsupported_exception`. -/
  | backend_unsupported
  /-- Vendor-surfaced failure, propagated unmodified. -/
  | vendor (code : Nat)
  deriving DecidableEq, Repr

/-- Modelled from the spec: what the stub backend and the execution queue of §8 let a test
observe: the vendor entry points invoked so far, the device work queued so far, and the
contents of operand memory (address to stored word). -/
structure World where
  invoked : List Nat
  queued : List Nat
  memory : Nat → Nat

/-- Modelled from the spec: the body of a routed call, which is absent from the header.  The
table says which vendor entry point, if any, implements an overload for a tag (§2: "a call
into exactly one vendor numerical implementation matching the selected tag pair"); without
one the call "signals an unsupported configuration failure" (§4.1) "synchronously at the call
site, before any device work is queued" (§7) and "before any stub backend entry point is
invoked" (§8.2).  Otherwise the arguments are forwarded unchanged to the entry point, whose
behaviour is the vendor's. -/
def route (table : Tag → Decl → Option Nat)
    (vendor : Nat → List Nat → World → Except Failure Nat × World)
    (tag : Tag) (op : Decl) (args : List Nat) (w : World) : Except Failure Nat × World :=
  match table tag op with
  | none => (.error .backend_unsupported, w)
  | some entry => vendor entry args ⟨w.invoked ++ [entry], w.queued, w.memory⟩

/-- A stub table for tests of the router: entry point 7 implements the `gemv` overloads for
the tag (0, 0); nothing else is implemented. -/
def stubTable (tag : Tag) (op : Decl) : Option Nat :=
  if tag = ⟨0, 0⟩ ∧ op.name = "gemv" then some 7 else none

/-- A stub vendor backend for tests of the router: queues one unit of device work named after
the entry point, writes 1 to every address passed as an argument, and returns token 0. -/
def stubVendor (entry : Nat) (args : List Nat) (w : World) : Except Failure Nat × World :=
  (.ok 0, ⟨w.invoked, w.queued ++ [entry], fun a => if a ∈ args then 1 else w.memory a⟩)

/-- The state before any call: nothing invoked, nothing queued, memory zeroed. -/
def World.initial : World := ⟨[], [], fun _ => 0⟩

/-! ## Completion tokens and the dependency graph (spec §3, §8.3, §8.4) -/

/-- Modelled from the spec: a completion token, "an opaque handle"; the stub queue numbers the
tokens it hands out. `cl::sycl::event` is a type of the SYCL runtime, not of the sources. -/
abbrev Token := Nat

/-- Modelled from the spec: the bookkeeping of the stub queue of §8.4: how many tokens it has
handed out, and the depends-on edges `(t, d)`, token `t` depends on token `d`. -/
structure StubQueue where
  next : Nat
  edges : List (Token × Token)
  deriving DecidableEq, Repr

/-- Modelled from the spec: one raw-pointer call as the stub queue sees it.  Every USM
declaration takes the dependency list by const reference and returns one event by value: the
call records an edge from its new token to each listed token and returns the new token. -/
def StubQueue.submit (q : StubQueue) (dependencies : List Token) : Token × StubQueue :=
  (q.next, ⟨q.next + 1, q.edges ++ dependencies.map fun d => (q.next, d)⟩)

/-- Modelled from the spec: the caller's side of a sequence of calls.  The caller holds the
tokens returned so far, in order of return; for its next call it names the dependencies by
their position among the tokens it holds (a token exists only as the return value of a call).
A position that holds nothing names no token of any call, as a default-constructed event
does, and contributes no dependency. -/
def callStep (st : StubQueue × List Token) (picks : List Nat) : StubQueue × List Token :=
  let r := st.1.submit (picks.filterMap fun i => st.2[i]?)
  (r.2, st.2 ++ [r.1])

/-- A sequence of raw-pointer calls on a fresh stub queue; returns the bookkeeping of the
queue and the tokens returned, in order. -/
def runCalls (script : List (List Nat)) : StubQueue × List Token :=
  script.foldl callStep (⟨0, []⟩, [])

/-- The depends-on relation recorded by the stub queue. -/
def StubQueue.dependsOn (q : StubQueue) (t d : Token) : Prop := (t, d) ∈ q.edges

instance (q : StubQueue) (t d : Token) : Decidable (q.dependsOn t d) :=
  inferInstanceAs (Decidable ((t, d) ∈ q.edges))

/-! ## Scheduling of raw-pointer calls (spec §3, §4.1, §8.3) -/

/-- Modelled from the spec: what the stub queue of §8.3 keeps track of while operations are
submitted and run: the bookkeeping of the calls (with the tokens the caller holds), the
operations that have begun executing, and the tokens "marked complete". The execution queue is
an external collaborator of the sources. -/
structure Schedule where
  calls : StubQueue × List Token
  started : List Token
  completed : List Token
  deriving DecidableEq, Repr

/-- The state of a fresh queue. -/
def Schedule.initial : Schedule := ⟨(⟨0, []⟩, []), [], []⟩

/-- Modelled from the spec: an operation is "marked runnable" when every token of its
dependency list is marked complete (§8.3); with an empty list there is nothing to wait for. -/
def Schedule.runnable (s : Schedule) (t : Token) : Bool :=
  s.calls.1.edges.all fun e => e.1 != t || s.completed.contains e.2

/-- What can happen on the queue. -/
inductive Happening where
  /-- The caller issues a raw-pointer call, naming its dependencies as in `callStep`. -/
  | call (picks : List Nat)
  /-- The operation of token `t` begins executing. -/
  | start (t : Token)
  /-- The operation of token `t` completes. -/
  | complete (t : Token)
  deriving DecidableEq, Repr

/-- Modelled from the spec: one happening on the stub queue, `none` when the queue does not
allow it.  An operation begins executing only if it was submitted, has not begun yet and is
runnable ("the operation must not begin until all named tokens have completed", §3); it
completes only after it began. -/
def Schedule.step (s : Schedule) : Happening → Option Schedule
  | .call picks => some ⟨callStep s.calls picks, s.started, s.completed⟩
  | .start t =>
    if t < s.calls.1.next ∧ t ∉ s.started ∧ s.runnable t = true then
      some ⟨s.calls, t :: s.started, s.completed⟩
    else none
  | .complete t =>
    if t ∈ s.started ∧ t ∉ s.completed then
      some ⟨s.calls, s.started, t :: s.completed⟩
    else none

/-- A sequence of happenings, from a given state; `none` when one of them is not allowed. -/
def Schedule.exec (s : Schedule) : List Happening → Option Schedule
  | [] => some s
  | h :: hs => (s.step h).bind fun s1 => s1.exec hs

/-- The dependency lists of the calls of a history, as the caller passed them, in order of
issue. -/
def callsOf : List Happening → List (List Nat)
  | [] => []
  | .call picks :: hs => picks :: callsOf hs
  | .start _ :: hs => callsOf hs
  | .complete _ :: hs => callsOf hs

/-! ## The USM unit tests (tests/unit_tests/blas/level2/gemv_usm.cpp, sbmv_usm.cpp,
tests/unit_tests/blas/level3/trsm_usm.cpp)

Each file defines `template <typename fp> int test(...)` in an anonymous namespace.  The
embedding of a `test` returns what the function does, step by step, and how it ends.  What the
function gets from its collaborators is a parameter: what the guarded statements (the routed
call and the wait that follows it inside the `try` block) do, and what the comparison of the
output with the reference answers. -/

/-- The enumeration `onemkl::transpose`, with the enumerators the tests name. -/
inductive transpose where
  | nontrans
  | trans
  | conjtrans
  deriving DecidableEq, Repr

/-- The enumeration `onemkl::uplo`, with the enumerators the tests name. -/
inductive uplo where
  | upper
  | lower
  deriving DecidableEq, Repr

/-- The enumeration `onemkl::side`, with the enumerators the tests name. -/
inductive side where
  | left
  | right
  deriving DecidableEq, Repr

/-- The enumeration `onemkl::diag`, with the enumerators the tests name. -/
inductive diag where
  | nonunit
  | unit
  deriving DecidableEq, Repr

/-- A thrown exception, as far as the handlers of the tests tell exceptions apart: whether its
class is (or derives from) `cl::sycl::exception`, `onemkl::backend_unsupported_exception`,
`std::runtime_error`, and its `what()` text.  The three classes are declared outside the
sources. -/
structure Thrown where
  isSyclException : Bool
  isBackendUnsupported : Bool
  isRuntimeError : Bool
  what : String
  deriving DecidableEq, Repr

/-- What the statements inside the `try` block do: they return, or one of them throws. -/
inductive Outcome where
  | returned
  | threw (e : Thrown)
  deriving DecidableEq, Repr

/-- An argument of a call made by a test. -/
inductive Arg where
  /-- `main_queue` -/
  | queue
  | trans (t : transpose)
  | uplo (u : uplo)
  | side (s : side)
  | diag (d : diag)
  | int (i : Int)
  /-- A scalar of type `fp`, by the name of the variable: `alpha`, `beta`. -/
  | scalar (name : String)
  /-- The storage of a container, `A.data()`, by the name of the container. -/
  | data (container : String)
  /-- The `std::vector<event> dependencies`, with the tokens it holds. -/
  | dependencies (tokens : List Token)
  deriving DecidableEq, Repr

/-- One step of a test. -/
inductive Step where
  /-- `rand_vector(v, n, inc)` -/
  | rand_vector (v : String) (n inc : Int)
  /-- `rand_matrix(a, t, m, n, ld)` -/
  | rand_matrix (a : String) (t : transpose) (m n ld : Int)
  /-- `rand_trsm_matrix(a, t, m, n, ld)` -/
  | rand_trsm_matrix (a : String) (t : transpose) (m n ld : Int)
  /-- `auto dst = src;` -/
  | copy (dst src : String)
  /-- The call of the reference BLAS routine, `::gemv(...)`. -/
  | reference (routine : String) (args : List Arg)
  /-- The statements inside the `try` block: the call of `onemkl::blas::routine` with these
  arguments and the wait for its completion. -/
  | routed (routine : String) (args : List Arg)
  /-- Output to `std::cout` by a handler: the fixed text and the `what()` of the exception. -/
  | print (text what : String)
  /-- `check_equal_vector(v, ref, n, inc, bound, std::cout)` -/
  | check_equal_vector (v ref : String) (n inc bound : Int)
  /-- `check_equal_trsm_matrix(a, ref, m, n, ld, bound, std::cout)` -/
  | check_equal_trsm_matrix (a ref : String) (m n ld bound : Int)
  deriving DecidableEq, Repr

/-- Is the step a comparison of the output with the reference? -/
def Step.isComparison : Step → Bool
  | .check_equal_vector .. => true
  | .check_equal_trsm_matrix .. => true
  | _ => false

/-- Is the step output of a handler? -/
def Step.isPrint : Step → Bool
  | .print .. => true
  | _ => false

/-- How a call of `test` ends: it returns an `int`, or an exception leaves it. -/
inductive Ending where
  | returned (value : Int)
  | propagated (e : Thrown)
  deriving DecidableEq, Repr

/-- A run of `test`: the steps taken, in order, and the ending. -/
structure TestRun where
  steps : List Step
  ending : Ending
  deriving DecidableEq, Repr

/-- What a `test` gets from outside: the value of the macro `test_skipped` (test_helper.hpp,
not among the sources), what the guarded statements do, and the answer of the comparison
should it be reached. -/
structure Collaborators where
  test_skipped : Int
  outcome : Outcome
  good : Bool
  deriving DecidableEq, Repr

namespace gemv_usm

/-- The function `test<fp>` of gemv_usm.cpp (lines 45 to 120).  `outer_dimension` and
`inner_dimension` are declared in test_common.hpp, not among the sources, and are
parameters.  The handlers are tried in the order of the source. -/
def test (outer_dimension inner_dimension : transpose → Int → Int → Int) (c : Collaborators)
    (transa : transpose) (m n incx incy lda : Int) : TestRun :=
  let x_len := outer_dimension transa m n
  let y_len := inner_dimension transa m n
  let prepare : List Step :=
    [.rand_vector "x" x_len incx,
     .rand_vector "y" y_len incy,
     .rand_matrix "A" .nontrans m n lda,
     .copy "y_ref" "y",
     .reference "gemv" [.trans transa, .int m, .int n, .scalar "alpha", .data "A", .int lda,
       .data "x", .int incx, .scalar "beta", .data "y_ref", .int incy],
     .routed "gemv" [.queue, .trans transa, .int m, .int n, .scalar "alpha", .data "A",
       .int lda, .data "x", .int incx, .scalar "beta", .data "y", .int incy, .dependencies []]]
  let compare : List Step := [.check_equal_vector "y" "y_ref" y_len incy (max m n)]
  let value : Int := if c.good then 1 else 0
  match c.outcome with
  | .returned => ⟨prepare ++ compare, .returned value⟩
  | .threw e =>
    if e.isSyclException then
      ⟨prepare ++ [.print "Caught synchronous SYCL exception during GEMV:" e.what] ++ compare,
        .returned value⟩
    else if e.isBackendUnsupported then
      ⟨prepare, .returned c.test_skipped⟩
    else if e.isRuntimeError then
      ⟨prepare ++ [.print "Error raised during execution of GEMV:" e.what] ++ compare,
        .returned value⟩
    else
      ⟨prepare, .propagated e⟩

end gemv_usm

namespace sbmv_usm

/-- The function `test<fp>` of sbmv_usm.cpp (lines 45 to 118).  The handlers are tried in the
order of the source. -/
def test (c : Collaborators) (upper_lower : uplo) (n k incx incy lda : Int) : TestRun :=
  let prepare : List Step :=
    [.rand_vector "x" n incx,
     .rand_vector "y" n incy,
     .rand_matrix "A" .nontrans n n lda,
     .copy "y_ref" "y",
     .reference "sbmv" [.uplo upper_lower, .int n, .int k, .scalar "alpha", .data "A", .int lda,
       .data "x", .int incx, .scalar "beta", .data "y_ref", .int incy],
     .routed "sbmv" [.queue, .uplo upper_lower, .int n, .int k, .scalar "alpha", .data "A",
       .int lda, .data "x", .int incx, .scalar "beta", .data "y", .int incy, .dependencies []]]
  let compare : List Step := [.check_equal_vector "y" "y_ref" n incy n]
  let value : Int := if c.good then 1 else 0
  match c.outcome with
  | .returned => ⟨prepare ++ compare, .returned value⟩
  | .threw e =>
    if e.isSyclException then
      ⟨prepare ++ [.print "Caught synchronous SYCL exception during SBMV:" e.what] ++ compare,
        .returned value⟩
    else if e.isBackendUnsupported then
      ⟨prepare, .returned c.test_skipped⟩
    else if e.isRuntimeError then
      ⟨prepare ++ [.print "Error raised during execution of SBMV:" e.what] ++ compare,
        .returned value⟩
    else
      ⟨prepare, .propagated e⟩

end sbmv_usm

namespace trsm_usm

/-- The function `test<fp>` of trsm_usm.cpp (lines 45 to 123).  The handlers are tried in the
order of the source.  The bound `10 * std::max(m, n)` is computed in `int`; it is taken here
without overflow. -/
def test (c : Collaborators) (left_right : side) (upper_lower : uplo) (transa : transpose)
    (unit_nonunit : diag) (m n lda ldb : Int) : TestRun :=
  let prepare : List Step :=
    [if left_right = .right then .rand_trsm_matrix "A" transa n n lda
      else .rand_trsm_matrix "A" transa m m lda,
     .rand_matrix "B" .nontrans m n ldb,
     .copy "B_ref" "B",
     .reference "trsm" [.side left_right, .uplo upper_lower, .trans transa, .diag unit_nonunit,
       .int m, .int n, .scalar "alpha", .data "A", .int lda, .data "B_ref", .int ldb],
     .routed "trsm" [.queue, .side left_right, .uplo upper_lower, .trans transa,
       .diag unit_nonunit, .int m, .int n, .scalar "alpha", .data "A", .int lda, .data "B",
       .int ldb, .dependencies []]]
  let compare : List Step := [.check_equal_trsm_matrix "B" "B_ref" m n ldb (10 * max m n)]
  let value : Int := if c.good then 1 else 0
  match c.outcome with
  | .returned => ⟨prepare ++ compare, .returned value⟩
  | .threw e =>
    if e.isSyclException then
      ⟨prepare ++ [.print "Caught synchronous SYCL exception during TRSM:" e.what] ++ compare,
        .returned value⟩
    else if e.isBackendUnsupported then
      ⟨prepare, .returned c.test_skipped⟩
    else if e.isRuntimeError then
      ⟨prepare ++ [.print "Error raised during execution of TRSM:" e.what] ++ compare,
        .returned value⟩
    else
      ⟨prepare, .propagated e⟩

end trsm_usm

/-! ## The test cases (the `TEST_P` bodies of the three files)

A `TEST_P` body declares its scalars and then makes its calls of `test<fp>`, each wrapped in
`EXPECT_TRUEORSKIP`.  A call is recorded with its template argument and its arguments after
`GetParam()`, scalars by the name of the variable passed. -/

/-- A scalar declared at the top of a `TEST_P` body: type, name and initialiser as written,
`float alpha(2.0);`. -/
structure Scalar where
  type : CType
  name : String
  init : String
  deriving DecidableEq, Repr

namespace gemv_usm

/-- A call `test<fp>(GetParam(), transa, m, n, alpha, beta, incx, incy, lda)`. -/
structure Invocation where
  fp : CType
  transa : transpose
  m : Int
  n : Int
  alpha : String
  beta : String
  incx : Int
  incy : Int
  lda : Int
  deriving DecidableEq, Repr

end gemv_usm

namespace sbmv_usm

/-- A call `test<fp>(GetParam(), upper_lower, n, k, alpha, beta, incx, incy, lda)`. -/
structure Invocation where
  fp : CType
  upper_lower : uplo
  n : Int
  k : Int
  alpha : String
  beta : String
  incx : Int
  incy : Int
  lda : Int
  deriving DecidableEq, Repr

end sbmv_usm

namespace trsm_usm

/-- A call
`test<fp>(GetParam(), left_right, upper_lower, transa, unit_nonunit, m, n, lda, ldb, alpha)`. -/
structure Invocation where
  fp : CType
  left_right : side
  upper_lower : uplo
  transa : transpose
  unit_nonunit : diag
  m : Int
  n : Int
  lda : Int
  ldb : Int
  alpha : String
  deriving DecidableEq, Repr

end trsm_usm

namespace GemvUsmTests

/-- The scalars of `TEST_P(GemvUsmTests, RealSinglePrecision)` (gemv_usm.cpp:124). -/
def RealSinglePrecision.scalars : List Scalar :=
  [⟨.float, "alpha", "2.0"⟩, ⟨.float, "beta", "3.0"⟩]

/-- The calls of `TEST_P(GemvUsmTests, RealSinglePrecision)`, in source order. -/
def RealSinglePrecision : List gemv_usm.Invocation := [
  ⟨.float, .nontrans, 25, 30, "alpha", "beta", 2, 3, 42⟩,
  ⟨.float, .nontrans, 25, 30, "alpha", "beta", -2, -3, 42⟩,
  ⟨.float, .nontrans, 25, 30, "alpha", "beta", 1, 1, 42⟩,
  ⟨.float, .trans, 25, 30, "alpha", "beta", 2, 3, 42⟩,
  ⟨.float, .trans, 25, 30, "alpha", "beta", -2, -3, 42⟩,
  ⟨.float, .trans, 25, 30, "alpha", "beta", 1, 1, 42⟩]

/-- The scalars of `TEST_P(GemvUsmTests, RealDoublePrecision)` (gemv_usm.cpp:140). -/
def RealDoublePrecision.scalars : List Scalar :=
  [⟨.double, "alpha", "2.0"⟩, ⟨.double, "beta", "3.0"⟩]

/-- The calls of `TEST_P(GemvUsmTests, RealDoublePrecision)`, in source order. -/
def RealDoublePrecision : List gemv_usm.Invocation := [
  ⟨.double, .nontrans, 25, 30, "alpha", "beta", 2, 3, 42⟩,
  ⟨.double, .nontrans, 25, 30, "alpha", "beta", -2, -3, 42⟩,
  ⟨.double, .nontrans, 25, 30, "alpha", "beta", 1, 1, 42⟩,
  ⟨.double, .trans, 25, 30, "alpha", "beta", 2, 3, 42⟩,
  ⟨.double, .trans, 25, 30, "alpha", "beta", -2, -3, 42⟩,
  ⟨.double, .trans, 25, 30, "alpha", "beta", 1, 1, 42⟩]

/-- The scalars of `TEST_P(GemvUsmTests, ComplexSinglePrecision)` (gemv_usm.cpp:156). -/
def ComplexSinglePrecision.scalars : List Scalar :=
  [⟨.complex .float, "alpha", "2.0, -0.5"⟩, ⟨.complex .float, "beta", "3.0, -1.5"⟩]

/-- The calls of `TEST_P(GemvUsmTests, ComplexSinglePrecision)`, in source order. -/
def ComplexSinglePrecision : List gemv_usm.Invocation := [
  ⟨(.complex .float), .nontrans, 25, 30, "alpha", "beta", 2, 3, 42⟩,
  ⟨(.complex .float), .nontrans, 25, 30, "alpha", "beta", -2, -3, 42⟩,
  ⟨(.complex .float), .nontrans, 25, 30, "alpha", "beta", 1, 1, 42⟩,
  ⟨(.complex .float), .trans, 25, 30, "alpha", "beta", 2, 3, 42⟩,
  ⟨(.complex .float), .trans, 25, 30, "alpha", "beta", -2, -3, 42⟩,
  ⟨(.complex .float), .trans, 25, 30, "alpha", "beta", 1, 1, 42⟩,
  ⟨(.complex .float), .conjtrans, 25, 30, "alpha", "beta", 2, 3, 42⟩,
  ⟨(.complex .float), .conjtrans, 25, 30, "alpha", "beta", -2, -3, 42⟩,
  ⟨(.complex .float), .conjtrans, 25, 30, "alpha", "beta", 1, 1, 42⟩]

/-- The scalars of `TEST_P(GemvUsmTests, ComplexDoublePrecision)` (gemv_usm.cpp:178). -/
def ComplexDoublePrecision.scalars : List Scalar :=
  [⟨.complex .double, "alpha", "2.0, -0.5"⟩, ⟨.complex .double, "beta", "3.0, -1.5"⟩]

/-- The calls of `TEST_P(GemvUsmTests, ComplexDoublePrecision)`, in source order. -/
def ComplexDoublePrecision : List gemv_usm.Invocation := [
  ⟨(.complex .double), .nontrans, 25, 30, "alpha", "beta", 2, 3, 42⟩,
  ⟨(.complex .double), .nontrans, 25, 30, "alpha", "beta", -2, -3, 42⟩,
  ⟨(.complex .double), .nontrans, 25, 30, "alpha", "beta", 1, 1, 42⟩,
  ⟨(.complex .double), .trans, 25, 30, "alpha", "beta", 2, 3, 42⟩,
  ⟨(.complex .double), .trans, 25, 30, "alpha", "beta", -2, -3, 42⟩,
  ⟨(.complex .double), .trans, 25, 30, "alpha", "beta", 1, 1, 42⟩,
  ⟨(.complex .double), .conjtrans, 25, 30, "alpha", "beta", 2, 3, 42⟩,
  ⟨(.complex .double), .conjtrans, 25, 30, "alpha", "beta", -2, -3, 42⟩,
  ⟨(.complex .double), .conjtrans, 25, 30, "alpha", "beta", 1, 1, 42⟩]

end GemvUsmTests

namespace SbmvUsmTests

/-- The scalars of `TEST_P(SbmvUsmTests, RealSinglePrecision)` (sbmv_usm.cpp:122). -/
def RealSinglePrecision.scalars : List Scalar :=
  [⟨.float, "alpha", "2.0"⟩, ⟨.float, "beta", "3.0"⟩]

/-- The calls of `TEST_P(SbmvUsmTests, RealSinglePrecision)`, in source order. -/
def RealSinglePrecision : List sbmv_usm.Invocation := [
  ⟨.float, .lower, 30, 5, "alpha", "beta", 2, 3, 42⟩,
  ⟨.float, .upper, 30, 5, "alpha", "beta", 2, 3, 42⟩,
  ⟨.float, .lower, 30, 5, "alpha", "beta", -2, -3, 42⟩,
  ⟨.float, .upper, 30, 5, "alpha", "beta", -2, -3, 42⟩,
  ⟨.float, .lower, 30, 5, "alpha", "beta", 1, 1, 42⟩,
  ⟨.float, .upper, 30, 5, "alpha", "beta", 1, 1, 42⟩]

/-- The scalars of `TEST_P(SbmvUsmTests, RealDoublePrecision)` (sbmv_usm.cpp:132). -/
def RealDoublePrecision.scalars : List Scalar :=
  [⟨.double, "alpha", "2.0"⟩, ⟨.double, "beta", "3.0"⟩]

/-- The calls of `TEST_P(SbmvUsmTests, RealDoublePrecision)`, in source order. -/
def RealDoublePrecision : List sbmv_usm.Invocation := [
  ⟨.double, .lower, 30, 5, "alpha", "beta", 2, 3, 42⟩,
  ⟨.double, .upper, 30, 5, "alpha", "beta", 2, 3, 42⟩,
  ⟨.double, .lower, 30, 5, "alpha", "beta", -2, -3, 42⟩,
  ⟨.double, .upper, 30, 5, "alpha", "beta", -2, -3, 42⟩,
  ⟨.double, .lower, 30, 5, "alpha", "beta", 1, 1, 42⟩,
  ⟨.double, .upper, 30, 5, "alpha", "beta", 1, 1, 42⟩]

end SbmvUsmTests

namespace TrsmUsmTests

/-- The scalars of `TEST_P(TrsmUsmTests, RealSinglePrecision)` (trsm_usm.cpp:127). -/
def RealSinglePrecision.scalars : List Scalar :=
  [⟨.float, "alpha", "2.0"⟩]

/-- The calls of `TEST_P(TrsmUsmTests, RealSinglePrecision)`, in source order. -/
def RealSinglePrecision : List trsm_usm.Invocation := [
  ⟨.float, .left, .lower, .nontrans, .unit, 72, 27, 101, 102, "alpha"⟩,
  ⟨.float, .right, .lower, .nontrans, .unit, 72, 27, 101, 102, "alpha"⟩,
  ⟨.float, .left, .upper, .nontrans, .unit, 72, 27, 101, 102, "alpha"⟩,
  ⟨.float, .right, .upper, .nontrans, .unit, 72, 27, 101, 102, "alpha"⟩,
  ⟨.float, .left, .lower, .trans, .unit, 72, 27, 101, 102, "alpha"⟩,
  ⟨.float, .right, .lower, .trans, .unit, 72, 27, 101, 102, "alpha"⟩,
  ⟨.float, .left, .upper, .trans, .unit, 72, 27, 101, 102, "alpha"⟩,
  ⟨.float, .right, .upper, .trans, .unit, 72, 27, 101, 102, "alpha"⟩,
  ⟨.float, .left, .lower, .nontrans, .nonunit, 72, 27, 101, 102, "alpha"⟩,
  ⟨.float, .right, .lower, .nontrans, .nonunit, 72, 27, 101, 102, "alpha"⟩,
  ⟨.float, .left, .upper, .nontrans, .nonunit, 72, 27, 101, 102, "alpha"⟩,
  ⟨.float, .right, .upper, .nontrans, .nonunit, 72, 27, 101, 102, "alpha"⟩,
  ⟨.float, .left, .lower, .trans, .nonunit, 72, 27, 101, 102, "alpha"⟩,
  ⟨.float, .right, .lower, .trans, .nonunit, 72, 27, 101, 102, "alpha"⟩,
  ⟨.float, .left, .upper, .trans, .nonunit, 72, 27, 101, 102, "alpha"⟩,
  ⟨.float, .right, .upper, .trans, .nonunit, 72, 27, 101, 102, "alpha"⟩]

/-- The scalars of `TEST_P(TrsmUsmTests, RealDoublePrecision)` (trsm_usm.cpp:178). -/
def RealDoublePrecision.scalars : List Scalar :=
  [⟨.double, "alpha", "2.0"⟩]

/-- The calls of `TEST_P(TrsmUsmTests, RealDoublePrecision)`, in source order. -/
def RealDoublePrecision : List trsm_usm.Invocation := [
  ⟨.double, .left, .lower, .nontrans, .unit, 72, 27, 101, 102, "alpha"⟩,
  ⟨.double, .right, .lower, .nontrans, .unit, 72, 27, 101, 102, "alpha"⟩,
  ⟨.double, .left, .upper, .nontrans, .unit, 72, 27, 101, 102, "alpha"⟩,
  ⟨.double, .right, .upper, .nontrans, .unit, 72, 27, 101, 102, "alpha"⟩,
  ⟨.double, .left, .lower, .trans, .unit, 72, 27, 101, 102, "alpha"⟩,
  ⟨.double, .right, .lower, .trans, .unit, 72, 27, 101, 102, "alpha"⟩,
  ⟨.double, .left, .upper, .trans, .unit, 72, 27, 101, 102, "alpha"⟩,
  ⟨.double, .right, .upper, .trans, .unit, 72, 27, 101, 102, "alpha"⟩,
  ⟨.double, .left, .lower, .nontrans, .nonunit, 72, 27, 101, 102, "alpha"⟩,
  ⟨.double, .right, .lower, .nontrans, .nonunit, 72, 27, 101, 102, "alpha"⟩,
  ⟨.double, .left, .upper, .nontrans, .nonunit, 72, 27, 101, 102, "alpha"⟩,
  ⟨.double, .right, .upper, .nontrans, .nonunit, 72, 27, 101, 102, "alpha"⟩,
  ⟨.double, .left, .lower, .trans, .nonunit, 72, 27, 101, 102, "alpha"⟩,
  ⟨.double, .right, .lower, .trans, .nonunit, 72, 27, 101, 102, "alpha"⟩,
  ⟨.double, .left, .upper, .trans, .nonunit, 72, 27, 101, 102, "alpha"⟩,
  ⟨.double, .right, .upper, .trans, .nonunit, 72, 27, 101, 102, "alpha"⟩]

/-- The scalars of `TEST_P(TrsmUsmTests, ComplexSinglePrecision)` (trsm_usm.cpp:229). -/
def ComplexSinglePrecision.scalars : List Scalar :=
  [⟨.complex .float, "alpha", "2.0, -0.5"⟩]

/-- The calls of `TEST_P(TrsmUsmTests, ComplexSinglePrecision)`, in source order. -/
def ComplexSinglePrecision : List trsm_usm.Invocation := [
  ⟨(.complex .float), .left, .lower, .nontrans, .unit, 72, 27, 101, 102, "alpha"⟩,
  ⟨(.complex .float), .right, .lower, .nontrans, .unit, 72, 27, 101, 102, "alpha"⟩,
  ⟨(.complex .float), .left, .upper, .nontrans, .unit, 72, 27, 101, 102, "alpha"⟩,
  ⟨(.complex .float), .right, .upper, .nontrans, .unit, 72, 27, 101, 102, "alpha"⟩,
  ⟨(.complex .float), .left, .lower, .trans, .unit, 72, 27, 101, 102, "alpha"⟩,
  ⟨(.complex .float), .right, .lower, .trans, .unit, 72, 27, 101, 102, "alpha"⟩,
  ⟨(.complex .float), .left, .upper, .trans, .unit, 72, 27, 101, 102, "alpha"⟩,
  ⟨(.complex .float), .right, .upper, .trans, .unit, 72, 27, 101, 102, "alpha"⟩,
  ⟨(.complex .float), .left, .lower, .conjtrans, .unit, 72, 27, 101, 102, "alpha"⟩,
  ⟨(.complex .float), .right, .lower, .conjtrans, .unit, 72, 27, 101, 102, "alpha"⟩,
  ⟨(.complex .float), .left, .upper, .conjtrans, .unit, 72, 27, 101, 102, "alpha"⟩,
  ⟨(.complex .float), .right, .upper, .conjtrans, .unit, 72, 27, 101, 102, "alpha"⟩,
  ⟨(.complex .float), .left, .lower, .nontrans, .nonunit, 72, 27, 101, 102, "alpha"⟩,
  ⟨(.complex .float), .right, .lower, .nontrans, .nonunit, 72, 27, 101, 102, "alpha"⟩,
  ⟨(.complex .float), .left, .upper, .nontrans, .nonunit, 72, 27, 101, 102, "alpha"⟩,
  ⟨(.complex .float), .right, .upper, .nontrans, .nonunit, 72, 27, 101, 102, "alpha"⟩,
  ⟨(.complex .float), .left, .lower, .trans, .nonunit, 72, 27, 101, 102, "alpha"⟩,
  ⟨(.complex .float), .right, .lower, .trans, .nonunit, 72, 27, 101, 102, "alpha"⟩,
  ⟨(.complex .float), .left, .upper, .trans, .nonunit, 72, 27, 101, 102, "alpha"⟩,
  ⟨(.complex .float), .right, .upper, .trans, .nonunit, 72, 27, 101, 102, "alpha"⟩,
  ⟨(.complex .float), .left, .lower, .conjtrans, .nonunit, 72, 27, 101, 102, "alpha"⟩,
  ⟨(.complex .float), .right, .lower, .conjtrans, .nonunit, 72, 27, 101, 102, "alpha"⟩,
  ⟨(.complex .float), .left, .upper, .conjtrans, .nonunit, 72, 27, 101, 102, "alpha"⟩,
  ⟨(.complex .float), .right, .upper, .conjtrans, .nonunit, 72, 27, 101, 102, "alpha"⟩]

/-- The scalars of `TEST_P(TrsmUsmTests, ComplexDoublePrecision)` (trsm_usm.cpp:304). -/
def ComplexDoublePrecision.scalars : List Scalar :=
  [⟨.complex .double, "alpha", "2.0, -0.5"⟩]

/-- The calls of `TEST_P(TrsmUsmTests, ComplexDoublePrecision)`, in source order. -/
def ComplexDoublePrecision : List trsm_usm.Invocation := [
  ⟨(.complex .double), .left, .lower, .nontrans, .unit, 72, 27, 101, 102, "alpha"⟩,
  ⟨(.complex .double), .right, .lower, .nontrans, .unit, 72, 27, 101, 102, "alpha"⟩,
  ⟨(.complex .double), .left, .upper, .nontrans, .unit, 72, 27, 101, 102, "alpha"⟩,
  ⟨(.complex .double), .right, .upper, .nontrans, .unit, 72, 27, 101, 102, "alpha"⟩,
  ⟨(.complex .double), .left, .lower, .trans, .unit, 72, 27, 101, 102, "alpha"⟩,
  ⟨(.complex .double), .right, .lower, .trans, .unit, 72, 27, 101, 102, "alpha"⟩,
  ⟨(.complex .double), .left, .upper, .trans, .unit, 72, 27, 101, 102, "alpha"⟩,
  ⟨(.complex .double), .right, .upper, .trans, .unit, 72, 27, 101, 102, "alpha"⟩,
  ⟨(.complex .double), .left, .lower, .conjtrans, .unit, 72, 27, 101, 102, "alpha"⟩,
  ⟨(.complex .double), .right, .lower, .conjtrans, .unit, 72, 27, 101, 102, "alpha"⟩,
  ⟨(.complex .double), .left, .upper, .conjtrans, .unit, 72, 27, 101, 102, "alpha"⟩,
  ⟨(.complex .double), .right, .upper, .conjtrans, .unit, 72, 27, 101, 102, "alpha"⟩,
  ⟨(.complex .double), .left, .lower, .nontrans, .nonunit, 72, 27, 101, 102, "alpha"⟩,
  ⟨(.complex .double), .right, .lower, .nontrans, .nonunit, 72, 27, 101, 102, "alpha"⟩,
  ⟨(.complex .double), .left, .upper, .nontrans, .nonunit, 72, 27, 101, 102, "alpha"⟩,
  ⟨(.complex .double), .right, .upper, .nontrans, .nonunit, 72, 27, 101, 102, "alpha"⟩,
  ⟨(.complex .double), .left, .lower, .trans, .nonunit, 72, 27, 101, 102, "alpha"⟩,
  ⟨(.complex .double), .right, .lower, .trans, .nonunit, 72, 27, 101, 102, "alpha"⟩,
  ⟨(.complex .double), .left, .upper, .trans, .nonunit, 72, 27, 101, 102, "alpha"⟩,
  ⟨(.complex .double), .right, .upper, .trans, .nonunit, 72, 27, 101, 102, "alpha"⟩,
  ⟨(.complex .double), .left, .lower, .conjtrans, .nonunit, 72, 27, 101, 102, "alpha"⟩,
  ⟨(.complex .double), .right, .lower, .conjtrans, .nonunit, 72, 27, 101, 102, "alpha"⟩,
  ⟨(.complex .double), .left, .upper, .conjtrans, .nonunit, 72, 27, 101, 102, "alpha"⟩,
  ⟨(.complex .double), .right, .upper, .conjtrans, .nonunit, 72, 27, 101, 102, "alpha"⟩]

end TrsmUsmTests

/-- Every call of the suite `GemvUsmTests`, in source order. -/
def GemvUsmTests.calls : List gemv_usm.Invocation :=
  GemvUsmTests.RealSinglePrecision ++ GemvUsmTests.RealDoublePrecision ++
    GemvUsmTests.ComplexSinglePrecision ++ GemvUsmTests.ComplexDoublePrecision

/-- Every call of the suite `SbmvUsmTests`, in source order. -/
def SbmvUsmTests.calls : List sbmv_usm.Invocation :=
  SbmvUsmTests.RealSinglePrecision ++ SbmvUsmTests.RealDoublePrecision

/-- Every call of the suite `TrsmUsmTests`, in source order. -/
def TrsmUsmTests.calls : List trsm_usm.Invocation :=
  TrsmUsmTests.RealSinglePrecision ++ TrsmUsmTests.RealDoublePrecision ++
    TrsmUsmTests.ComplexSinglePrecision ++ TrsmUsmTests.ComplexDoublePrecision

/-- The run of `test` that a recorded call of trsm_usm.cpp makes. -/
def trsm_usm.Invocation.run (i : trsm_usm.Invocation) (c : Collaborators) : TestRun :=
  trsm_usm.test c i.left_right i.upper_lower i.transa i.unit_nonunit i.m i.n i.lda i.ldb

/-- How often a suite calls `test` with these four flags. -/
def trsm_usm.timesCalled (calls : List trsm_usm.Invocation) (s : side) (u : uplo)
    (t : transpose) (d : diag) : Nat :=
  (calls.filter fun c =>
    decide (c.left_right = s) && decide (c.upper_lower = u) && decide (c.transa = t) &&
      decide (c.unit_nonunit = d)).length

/-! ## Shape of the declarations -/

set_option maxRecDepth 1000000 in
/-- C1: the USM APIs section holds 166 declarations and each of them has return type
`cl::sycl::event` itself (a value, neither a reference nor a pointer). -/
theorem usm_returns_event :
    usmAPIs.length = 166 ∧ ∀ d ∈ usmAPIs, d.returnType = CType.event := by
  decide

/-- Witness of C1 at the single-precision raw-pointer `gemv` (blas_ct_templates.hpp:1335). -/
theorem usm_returns_event_witness :
    usm.gemv.get ⟨0, by decide⟩ ∈ usmAPIs ∧
      (usm.gemv.get ⟨0, by decide⟩).returnType = CType.event :=
  ⟨by decide, usm_returns_event.2 _ (by decide)⟩

set_option maxRecDepth 1000000 in
/-- C2: in every USM declaration the last parameter is
`const cl::sycl::vector_class<cl::sycl::event> &dependencies = {}`, no parameter before it
mentions an event, and the declaration can be called with every argument but the dependency
list (the dependency list is the only parameter a call may leave out). -/
theorem usm_dependencies_last :
    ∀ d ∈ usmAPIs,
      d.params.getLast? = some dependenciesParam ∧
      (∀ p ∈ d.params.dropLast, p.type.mentionsEvent = false) ∧
      d.minArgs + 1 = d.params.length := by
  decide

/-- Witness of C2 at the single-precision raw-pointer `trsm` (blas_ct_templates.hpp:1592). -/
theorem usm_dependencies_last_witness :
    usm.trsm.get ⟨0, by decide⟩ ∈ usmAPIs ∧
      (usm.trsm.get ⟨0, by decide⟩).params.getLast? = some dependenciesParam ∧
      (usm.trsm.get ⟨0, by decide⟩).minArgs = 12 :=
  ⟨by decide, (usm_dependencies_last _ (by decide)).1,
    Nat.succ.inj (usm_dependencies_last _ (by decide)).2.2⟩

set_option maxRecDepth 1000000 in
/-- C3: the Buffer APIs section holds 170 declarations; each returns `void` and none of its
parameters mentions `cl::sycl::event` (so none is a completion token or a dependency list). -/
theorem buffer_returns_void :
    bufferAPIs.length = 170 ∧
      ∀ d ∈ bufferAPIs, d.returnType = CType.void ∧
        ∀ p ∈ d.params, p.type.mentionsEvent = false := by
  decide

/-- Witness of C3 at the single-precision managed-buffer `syr2` (blas_ct_templates.hpp:39). -/
theorem buffer_returns_void_witness :
    buffer.syr2.get ⟨0, by decide⟩ ∈ bufferAPIs ∧
      (buffer.syr2.get ⟨0, by decide⟩).returnType = CType.void :=
  ⟨by decide, (buffer_returns_void.2 _ (by decide)).1⟩

set_option maxRecDepth 1000000 in
/-- C4: the header holds 336 declarations; in each, of either calling convention, the first
parameter is `cl::sycl::queue &queue` and no later parameter mentions `cl::sycl::queue`. -/
theorem queue_first :
    allDecls.length = 336 ∧
      ∀ d ∈ allDecls, d.params.head? = some queueParam ∧
        ∀ p ∈ d.params.tail, p.type.mentionsQueue = false := by
  decide

/-- Witness of C4 at the single-precision raw-pointer `sbmv` (blas_ct_templates.hpp:1916). -/
theorem queue_first_witness :
    usm.sbmv.get ⟨0, by decide⟩ ∈ allDecls ∧
      (usm.sbmv.get ⟨0, by decide⟩).params.head? = some queueParam :=
  ⟨by decide, (queue_first.2 _ (by decide)).1⟩

set_option maxRecDepth 1000000 in
/-- C5: every declaration of the header is a template over exactly
`<onemkl::library lib, onemkl::backend backend>`, and none of its function parameters
mentions `onemkl::library` or `onemkl::backend`. -/
theorem tag_is_template_argument :
    ∀ d ∈ allDecls, d.templateParams = tagTemplateParams ∧
      ∀ p ∈ d.params, p.type.mentionsTag = false := by
  decide

/-- Witness of C5 at the half-precision managed-buffer `gemm` (blas_ct_templates.hpp). -/
theorem tag_is_template_argument_witness :
    buffer.gemm.get ⟨4, by decide⟩ ∈ allDecls ∧
      (buffer.gemm.get ⟨4, by decide⟩).templateParams = tagTemplateParams :=
  ⟨by decide, (tag_is_template_argument _ (by decide)).1⟩

/-! ## Unsupported configurations -/

/-- C9: when the table holds no entry point for the overload under the selected tag, the call
fails with `backend_unsupported`, and it does so before anything happens: no entry point is
invoked, no device work is queued, and memory (so the output operand) is unchanged. -/
theorem unsupported_fails_before_any_effect (table : Tag → Decl → Option Nat)
    (vendor : Nat → List Nat → World → Except Failure Nat × World)
    (tag : Tag) (op : Decl) (args : List Nat) (w : World) (h : table tag op = none) :
    (route table vendor tag op args w).1 = .error .backend_unsupported ∧
      (route table vendor tag op args w).2.invoked = w.invoked ∧
      (route table vendor tag op args w).2.queued = w.queued ∧
      (route table vendor tag op args w).2.memory = w.memory := by
  simp [route, h]

/-- Witness of C9: the single-precision raw-pointer `gemv` under tag (1, 2), for which the stub
table has no entry point. -/
theorem unsupported_fails_before_any_effect_witness :
    stubTable ⟨1, 2⟩ (usm.gemv.get ⟨0, by decide⟩) = none ∧
      (route stubTable stubVendor ⟨1, 2⟩ (usm.gemv.get ⟨0, by decide⟩) [10, 20, 30]
        World.initial).1 = .error .backend_unsupported ∧
      (route stubTable stubVendor ⟨1, 2⟩ (usm.gemv.get ⟨0, by decide⟩) [10, 20, 30]
        World.initial).2.invoked = [] ∧
      (route stubTable stubVendor ⟨1, 2⟩ (usm.gemv.get ⟨0, by decide⟩) [10, 20, 30]
        World.initial).2.queued = [] :=
  have h := unsupported_fails_before_any_effect stubTable stubVendor ⟨1, 2⟩
    (usm.gemv.get ⟨0, by decide⟩) [10, 20, 30] World.initial (by decide)
  ⟨by decide, h.1, h.2.1, h.2.2.1⟩

/-! ## The dependency graph -/

/-- One more call at the end of a sequence is one more step of the caller. -/
theorem runCalls_snoc (script : List (List Nat)) (picks : List Nat) :
    runCalls (script ++ [picks]) = callStep (runCalls script) picks := by
  simp [runCalls, List.foldl_append]

/-- After `n` calls the stub queue has handed out `n` tokens and the caller holds the tokens
`0, …, n - 1` in this order. -/
theorem runCalls_tokens (script : List (List Nat)) :
    (runCalls script).1.next = script.length ∧
      (runCalls script).2 = List.range script.length := by
  induction script using List.reverseRecOn with
  | nil => exact ⟨rfl, rfl⟩
  | append_singleton s p ih =>
    rw [runCalls_snoc]
    refine ⟨?_, ?_⟩
    · simp [callStep, StubQueue.submit, ih.1]
    · simp [callStep, StubQueue.submit, ih.1, ih.2, List.range_succ]

/-- The edges recorded by the call that follows `script`. -/
theorem runCalls_snoc_edges (script : List (List Nat)) (picks : List Nat) :
    (runCalls (script ++ [picks])).1.edges =
      (runCalls script).1.edges ++
        (picks.filter fun i => decide (i < script.length)).map fun d => (script.length, d) := by
  rw [runCalls_snoc]
  obtain ⟨hn, hh⟩ := runCalls_tokens script
  simp only [callStep, StubQueue.submit, hn, hh]
  congr 2
  induction picks with
  | nil => rfl
  | cons i is ih =>
    by_cases hi : i < script.length
    · simp [List.filterMap_cons, List.filter_cons, hi, List.getElem?_range, ih]
    · have hnone : (List.range script.length)[i]? = none := by
        simp [Nat.le_of_not_lt hi]
      simp [List.filterMap_cons, List.filter_cons, hi, hnone, ih]

/-- Every recorded edge points from a token to one handed out earlier. -/
theorem runCalls_edges_lt (script : List (List Nat)) :
    ∀ e ∈ (runCalls script).1.edges, e.2 < e.1 ∧ e.1 < script.length := by
  induction script using List.reverseRecOn with
  | nil => intro e he; simp [runCalls] at he
  | append_singleton s p ih =>
    intro e he
    rw [runCalls_snoc_edges, List.mem_append] at he
    rcases he with he | he
    · have := ih e he
      exact ⟨this.1, by rw [List.length_append]; exact Nat.lt_add_right _ this.2⟩
    · simp only [List.mem_map, List.mem_filter, decide_eq_true_eq] at he
      obtain ⟨d, ⟨_, hd⟩, rfl⟩ := he
      exact ⟨hd, by simp⟩

/-- Edges are never removed by later calls. -/
theorem runCalls_edges_mono (script more : List (List Nat)) :
    ∀ e ∈ (runCalls script).1.edges, e ∈ (runCalls (script ++ more)).1.edges := by
  induction more using List.reverseRecOn with
  | nil => simp
  | append_singleton m p ih =>
    intro e he
    rw [← List.append_assoc, runCalls_snoc_edges]
    exact List.mem_append_left _ (ih e he)

/-- A chain of dependencies leads to a token handed out strictly earlier. -/
theorem transGen_dependsOn_lt (script : List (List Nat)) {t d : Token}
    (h : Relation.TransGen (runCalls script).1.dependsOn t d) : d < t := by
  induction h with
  | single h => exact (runCalls_edges_lt script _ h).1
  | tail _ h ih => exact Nat.lt_trans (runCalls_edges_lt script _ h).1 ih

/-- If call `b` names position `a < b`, the queue records the edge from token `b` to token `a`. -/
theorem runCalls_edge_of_pick (script : List (List Nat)) (a b : Nat) (picks : List Nat)
    (hb : script[b]? = some picks) (ha : a ∈ picks) (hab : a < b) :
    (b, a) ∈ (runCalls script).1.edges := by
  have hlt : b < script.length := by
    rcases Nat.lt_or_ge b script.length with h | h
    · exact h
    · rw [List.getElem?_eq_none h] at hb; cases hb
  have hsplit : script = script.take b ++ [picks] ++ script.drop (b + 1) := by
    have h1 : script[b] = picks := by
      rw [List.getElem?_eq_getElem hlt] at hb; exact Option.some.inj hb
    conv_lhs => rw [← List.take_append_drop b script]
    rw [List.append_assoc]
    congr 1
    rw [List.drop_eq_getElem_cons hlt]
    simp only [List.singleton_append, List.cons.injEq, and_true]
    exact h1
  rw [hsplit]
  apply runCalls_edges_mono
  rw [runCalls_snoc_edges]
  apply List.mem_append_right
  have hlen : (script.take b).length = b := by simp [List.length_take, Nat.le_of_lt hlt]
  simp only [List.mem_map, List.mem_filter, decide_eq_true_eq, hlen]
  exact ⟨a, ⟨ha, hab⟩, rfl⟩

/-- C10: in every sequence of raw-pointer calls, every recorded dependency of a token is a
token handed out by an earlier call; no chain of dependencies leads from a token back to
itself (the depends-on relation is acyclic, and in particular irreflexive); and when call `b`
lists the token of an earlier call `a`, the token of `b` depends on the token of `a`, comes
strictly after it, and the token of `a` does not depend on it, not even through a chain. -/
theorem dependency_graph_acyclic (script : List (List Nat)) :
    (∀ t d, (runCalls script).1.dependsOn t d → d < t ∧ t < (runCalls script).1.next) ∧
    (∀ t, ¬ Relation.TransGen (runCalls script).1.dependsOn t t) ∧
    (∀ (a b : Nat) (picks : List Nat), script[b]? = some picks → a ∈ picks → a < b →
      ∃ ta tb, (runCalls script).2[a]? = some ta ∧ (runCalls script).2[b]? = some tb ∧
        (runCalls script).1.dependsOn tb ta ∧ ta < tb ∧
        ¬ Relation.TransGen (runCalls script).1.dependsOn ta tb) := by
  refine ⟨?_, ?_, ?_⟩
  · intro t d h
    rw [(runCalls_tokens script).1]
    exact runCalls_edges_lt script _ h
  · intro t h
    exact Nat.lt_irrefl _ (transGen_dependsOn_lt script h)
  · intro a b picks hb ha hab
    have hlt : b < script.length := by
      rcases Nat.lt_or_ge b script.length with h | h
      · exact h
      · rw [List.getElem?_eq_none h] at hb; cases hb
    refine ⟨a, b, ?_, ?_, runCalls_edge_of_pick script a b picks hb ha hab, hab, ?_⟩
    · rw [(runCalls_tokens script).2]; exact List.getElem?_range (Nat.lt_trans hab hlt)
    · rw [(runCalls_tokens script).2]; exact List.getElem?_range hlt
    · intro h
      exact Nat.lt_asymm hab (transGen_dependsOn_lt script h)

/-- Witness of C10: three calls, the second listing the first token, the third listing both
(and one position that holds nothing). -/
theorem dependency_graph_acyclic_witness :
    (runCalls [[], [0], [0, 1, 5]]).1.dependsOn 2 1 ∧
      (1 < 2 ∧ 2 < (runCalls [[], [0], [0, 1, 5]]).1.next) :=
  ⟨by decide, (dependency_graph_acyclic [[], [0], [0, 1, 5]]).1 2 1 (by decide)⟩

/-! ## Overloads -/

set_option maxRecDepth 1000000 in
/-- C11: in each calling convention, a call that names an operation and passes exactly the
parameter types of one of its declared overloads (with or without the defaulted trailing
argument) selects that overload and no other: no two overloads of an operation have the same
sequence of parameter types. -/
theorem overloads_distinct :
    (∀ d ∈ bufferAPIs, candidates bufferAPIs d.name d.paramTypes = [d]) ∧
    (∀ d ∈ usmAPIs, candidates usmAPIs d.name d.paramTypes = [d] ∧
      candidates usmAPIs d.name d.paramTypes.dropLast = [d]) := by
  decide!

/-- Witness of C11: a call of the raw-pointer `gemv` with the double-precision argument types
selects the double-precision overload (blas_ct_templates.hpp:1342), the second of the four. -/
theorem overloads_distinct_witness :
    usm.gemv.get ⟨1, by decide⟩ ∈ usmAPIs ∧
      candidates usmAPIs "gemv"
        [.lref .queue, .transpose, .int64, .int64, .double, .ptr (.const .double), .int64,
         .ptr (.const .double), .int64, .double, .ptr .double, .int64,
         .lref (.const (.vectorClass .event))] = [usm.gemv.get ⟨1, by decide⟩] :=
  ⟨by decide, (overloads_distinct.2 (usm.gemv.get ⟨1, by decide⟩) (by decide)).1⟩

/-! ## Element types -/

set_option maxRecDepth 1000000 in
/-- The element types of the array arguments, in a form that evaluates. -/
theorem element_types_closed_aux :
    ∀ d ∈ allDecls, ∀ p ∈ d.params, ∀ t ∈ p.type.elementType?.toList,
      t ∈ numericElementTypes ∨
      (t = CType.int64 ∧
        (((d.name = "iamax" ∨ d.name = "iamin") ∧ p.name = "result") ∨ d.isGroup = true)) ∨
      (t = CType.transpose ∧ d.name = "gemm_batch" ∧ d.isGroup = true) := by
  decide!

/-- C12 fails as stated: the `result` of the managed-buffer `iamax`
(blas_ct_templates.hpp:923) is a `cl::sycl::buffer<std::int64_t, 1> &`, whose element type
`std::int64_t` is outside the closed set. -/
theorem iamax_result_is_int64 :
    buffer.iamax.get ⟨0, by decide⟩ ∈ allDecls ∧
      (buffer.iamax.get ⟨0, by decide⟩).typeOf? "result" = some (.lref (.buffer .int64 1)) ∧
      CType.elementType? (.lref (.buffer .int64 1)) = some .int64 ∧
      CType.int64 ∉ numericElementTypes ∧
      ¬ (∀ d ∈ allDecls, ∀ p ∈ d.params, ∀ t, p.type.elementType? = some t →
          t ∈ numericElementTypes) := by
  refine ⟨by decide, by decide, rfl, by decide, ?_⟩
  intro h
  have h1 := h (buffer.iamax.get ⟨0, by decide⟩) (by decide)
    ⟨.lref (.buffer .int64 1), "result", none⟩ (by decide) .int64 rfl
  revert h1
  decide

/-- C12, amended: the element type of every managed-buffer argument and of every raw-pointer
argument is one of float, double, std::complex<float>, std::complex<double>, half, int8_t,
uint8_t, int32_t, or it is `std::int64_t` (only for the `result` of `iamax` and `iamin` and in
the pointer-array batch overloads), or it is `transpose` (only in the pointer-array
`gemm_batch`). -/
theorem element_types_closed :
    ∀ d ∈ allDecls, ∀ p ∈ d.params, ∀ t, p.type.elementType? = some t →
      t ∈ numericElementTypes ∨
      (t = CType.int64 ∧
        (((d.name = "iamax" ∨ d.name = "iamin") ∧ p.name = "result") ∨ d.isGroup = true)) ∨
      (t = CType.transpose ∧ d.name = "gemm_batch" ∧ d.isGroup = true) := by
  intro d hd p hp t ht
  exact element_types_closed_aux d hd p hp t (by simp [ht])

/-- Witness of C12, amended: the `result` pointer of the single-precision raw-pointer `iamax`
(blas_ct_templates.hpp) has element type `std::int64_t`. -/
theorem element_types_closed_witness :
    usm.iamax.get ⟨0, by decide⟩ ∈ allDecls ∧
      (CType.int64 ∈ numericElementTypes ∨
        (CType.int64 = CType.int64 ∧
          ((((usm.iamax.get ⟨0, by decide⟩).name = "iamax" ∨
              (usm.iamax.get ⟨0, by decide⟩).name = "iamin") ∧ "result" = "result") ∨
            (usm.iamax.get ⟨0, by decide⟩).isGroup = true)) ∨
        (CType.int64 = CType.transpose ∧ (usm.iamax.get ⟨0, by decide⟩).name = "gemm_batch" ∧
          (usm.iamax.get ⟨0, by decide⟩).isGroup = true)) :=
  ⟨by decide, element_types_closed (usm.iamax.get ⟨0, by decide⟩) (by decide)
    ⟨.ptr .int64, "result", none⟩ (by decide) .int64 rfl⟩

/-! ## The two calling conventions -/

set_option maxRecDepth 1000000 in
/-- C13 fails as stated: `gemm_ext` is declared in the Buffer APIs section
(blas_ct_templates.hpp:380) and no declaration of the USM APIs section has this name, so it is
not true that every operation name and element-type combination with a managed-buffer
declaration has a raw-pointer declaration, and conversely. -/
theorem gemm_ext_without_usm :
    buffer.gemm_ext.get ⟨0, by decide⟩ ∈ bufferAPIs ∧
      (buffer.gemm_ext.get ⟨0, by decide⟩).name = "gemm_ext" ∧
      (¬ ∃ u ∈ usmAPIs, u.name = "gemm_ext") ∧
      ¬ ((∀ b ∈ bufferAPIs, ∃ u ∈ usmAPIs,
            u.name = b.name ∧ u.elementTypes = b.elementTypes) ∧
         (∀ u ∈ usmAPIs, ∃ b ∈ bufferAPIs,
            b.name = u.name ∧ b.elementTypes = u.elementTypes)) := by
  decide!

set_option maxRecDepth 1000000 in
/-- C13, amended: a managed-buffer declaration has a raw-pointer declaration with its name and
element types exactly when it is not a `gemm_ext`, a `trsm_batch` or the half-precision `gemm`;
a raw-pointer declaration has a managed-buffer declaration with its name and element types
exactly when it is not an `axpy_batch`; each name and element-type combination is declared
once per convention, except `gemm_batch`, which the raw-pointer convention declares twice per
element type (with strides and with pointer arrays). -/
theorem conventions_agree_on_common :
    (∀ b ∈ bufferAPIs,
      (∃ u ∈ usmAPIs, u.name = b.name ∧ u.elementTypes = b.elementTypes) ↔
        ¬ (b.name = "gemm_ext" ∨ b.name = "trsm_batch" ∨
          (b.name = "gemm" ∧ b.isHalf = true))) ∧
    (∀ u ∈ usmAPIs,
      (∃ b ∈ bufferAPIs, b.name = u.name ∧ b.elementTypes = u.elementTypes) ↔
        u.name ≠ "axpy_batch") ∧
    (∀ b ∈ bufferAPIs, declaredTimes bufferAPIs b.name b.elementTypes = 1) ∧
    (∀ u ∈ usmAPIs,
      declaredTimes usmAPIs u.name u.elementTypes = if u.name = "gemm_batch" then 2 else 1) := by
  decide!

/-- Witness of C13, amended: the pointer-array raw-pointer `gemm_batch` for `float`
(blas_ct_templates.hpp:1407) has a managed-buffer declaration with its name and element
types, and the raw-pointer convention declares this combination twice. -/
theorem conventions_agree_on_common_witness :
    usm.gemm_batch.get ⟨0, by decide⟩ ∈ usmAPIs ∧
      (usm.gemm_batch.get ⟨0, by decide⟩).isGroup = true ∧
      (∃ b ∈ bufferAPIs, b.name = (usm.gemm_batch.get ⟨0, by decide⟩).name ∧
        b.elementTypes = (usm.gemm_batch.get ⟨0, by decide⟩).elementTypes) ∧
      declaredTimes usmAPIs "gemm_batch" [.float, .float, .float, .float, .float] = 2 :=
  ⟨by decide, by decide,
    (conventions_agree_on_common.2.1 (usm.gemm_batch.get ⟨0, by decide⟩) (by decide)).2
      (by decide),
    conventions_agree_on_common.2.2.2 (usm.gemm_batch.get ⟨0, by decide⟩) (by decide)⟩

set_option maxRecDepth 1000000 in
/-- C14: each of the 50 standard BLAS routine families, and `gemm_batch`, is declared at least
once in the Buffer APIs section and at least once in the USM APIs section. -/
theorem blas_families_declared :
    blasFamilies.length = 50 ∧ blasFamilies.Nodup ∧
      ∀ f ∈ blasFamilies ++ ["gemm_batch"],
        (∃ d ∈ bufferAPIs, d.name = f) ∧ (∃ d ∈ usmAPIs, d.name = f) := by
  decide!

/-- Witness of C14 at the family `trsm`. -/
theorem blas_families_declared_witness :
    "trsm" ∈ blasFamilies ++ ["gemm_batch"] ∧
      (∃ d ∈ bufferAPIs, d.name = "trsm") ∧ (∃ d ∈ usmAPIs, d.name = "trsm") :=
  ⟨by decide, blas_families_declared.2.2 "trsm" (by decide)⟩

set_option maxRecDepth 1000000 in
/-- C16: every entity declared in namespace `onemkl::blas` of the header is a `static inline`
function-template declaration without a body (so there is no variable and no class), and
every parameter of every declaration is the queue, a value passed by copy, an operand handle
or the list of tokens. -/
theorem header_is_stateless :
    namespaceEntities.length = 336 ∧
      (∀ e ∈ namespaceEntities, e.isBodilessTemplate = true) ∧
      (∀ d ∈ allDecls, ∀ p ∈ d.params, p.type.passing? ≠ none) := by
  decide!

/-- Witness of C16 at the first declaration of the header, the single-precision
managed-buffer `syr2`. -/
theorem header_is_stateless_witness :
    Entity.functionTemplate (buffer.syr2.get ⟨0, by decide⟩) ∈ namespaceEntities ∧
      (Entity.functionTemplate (buffer.syr2.get ⟨0, by decide⟩)).isBodilessTemplate = true :=
  ⟨by decide, header_is_stateless.2.1 _ (by decide)⟩

set_option maxRecDepth 1000000 in
/-- C17: the raw-pointer `gemv` has one overload per element type (float, double,
std::complex<float>, std::complex<double>), and the pointer parameters of each are `const T *a`,
`const T *x` and `T *y`: the inputs are pointers to const, the output `y` is the only pointer
to mutable data. The same holds of `sbmv` for float and double. The raw-pointer `trsm` has one
overload per element type, and the pointer parameters of each are `const T *a` and `T *b`. -/
theorem tested_operations_const_inputs :
    (usmAPIs.filter fun d => d.name = "gemv") = usm.gemv ∧
    (usmAPIs.filter fun d => d.name = "sbmv") = usm.sbmv ∧
    (usmAPIs.filter fun d => d.name = "trsm") = usm.trsm ∧
    (usm.gemv.map fun d => d.pointerParams) =
      fpTypes.map (fun t => [("a", CType.ptr (.const t)), ("x", .ptr (.const t)), ("y", .ptr t)]) ∧
    (usm.sbmv.map fun d => d.pointerParams) =
      [CType.float, CType.double].map
        (fun t => [("a", CType.ptr (.const t)), ("x", .ptr (.const t)), ("y", .ptr t)]) ∧
    (usm.trsm.map fun d => d.pointerParams) =
      fpTypes.map (fun t => [("a", CType.ptr (.const t)), ("b", .ptr t)]) := by
  decide!

set_option maxRecDepth 1000000 in
/-- C20: leaving out `gemm_ext` (7 overloads), `trsm_batch` (4) and the half-precision `gemm`
(1) on the managed-buffer side, and `axpy_batch` (4) and the pointer-array `gemm_batch` (4) on
the raw-pointer side, 158 declarations remain on each side; taken in source order they pair up
as counterparts (same name, every buffer reference replaced in place by `T *` or `const T *`,
every other parameter type unchanged, `dependencies` appended), and the pairing is one-to-one:
each declaration of one side has exactly one counterpart on the other. -/
theorem common_one_to_one :
    (bufferAPIs.filter fun d => d.name = "gemm_ext").length = 7 ∧
    (bufferAPIs.filter fun d => d.name = "trsm_batch").length = 4 ∧
    (bufferAPIs.filter fun d => d.name = "gemm" ∧ d.isHalf = true).length = 1 ∧
    (usmAPIs.filter fun d => d.name = "axpy_batch").length = 4 ∧
    (usmAPIs.filter fun d => d.name = "gemm_batch" ∧ d.isGroup = true).length = 4 ∧
    bufferCommon.length = 158 ∧ usmCommon.length = 158 ∧
    counterpartAll bufferCommon usmCommon = true ∧
    (∀ b ∈ bufferCommon, (usmCommon.filter fun u => b.counterpart u).length = 1) ∧
    (∀ u ∈ usmCommon, (bufferCommon.filter fun b => b.counterpart u).length = 1) := by
  decide!

/-- Witness of C20: the single-precision managed-buffer `trsm` has exactly one counterpart
among the raw-pointer declarations, the single-precision raw-pointer `trsm`. -/
theorem common_one_to_one_witness :
    buffer.trsm.get ⟨0, by decide⟩ ∈ bufferCommon ∧
      (usmCommon.filter fun u => (buffer.trsm.get ⟨0, by decide⟩).counterpart u).length = 1 ∧
      (buffer.trsm.get ⟨0, by decide⟩).counterpart (usm.trsm.get ⟨0, by decide⟩) = true :=
  ⟨by decide, common_one_to_one.2.2.2.2.2.2.2.2.1 _ (by decide), by decide⟩

/-! ## Scheduling -/

/-- What a call does to the bookkeeping: one more token, and edges that start at the new
token. -/
theorem callStep_queue (st : StubQueue × List Token) (picks : List Nat) :
    (callStep st picks).1.next = st.1.next + 1 ∧
      ∀ e ∈ (callStep st picks).1.edges, e ∈ st.1.edges ∨ e.1 = st.1.next := by
  refine ⟨rfl, ?_⟩
  intro e he
  simp only [callStep, StubQueue.submit, List.mem_append, List.mem_map] at he
  rcases he with he | ⟨d, _, rfl⟩
  · exact Or.inl he
  · exact Or.inr rfl

/-- One happening never takes a token back, keeps the recorded edges of the tokens handed out
before, and marks complete at most the token it names. -/
theorem Schedule.step_spec {s s1 : Schedule} {h : Happening} (hs : s.step h = some s1) :
    s.calls.1.next ≤ s1.calls.1.next ∧
      (∀ e ∈ s1.calls.1.edges, e ∈ s.calls.1.edges ∨ s.calls.1.next ≤ e.1) ∧
      (∀ d ∈ s1.completed, d ∈ s.completed ∨ h = .complete d) ∧
      (∀ t ∈ s1.started, t ∈ s.started ∨ t < s.calls.1.next) := by
  cases h with
  | call picks =>
    simp only [Schedule.step, Option.some.injEq] at hs
    subst hs
    refine ⟨?_, ?_, ?_, ?_⟩
    · rw [(callStep_queue s.calls picks).1]; exact Nat.le_succ _
    · intro e he
      rcases (callStep_queue s.calls picks).2 e he with h1 | h1
      · exact Or.inl h1
      · exact Or.inr (Nat.le_of_eq h1.symm)
    · intro d hd; exact Or.inl hd
    · intro t ht; exact Or.inl ht
  | start t =>
    simp only [Schedule.step] at hs
    split at hs
    · rename_i hc
      simp only [Option.some.injEq] at hs
      subst hs
      refine ⟨Nat.le_refl _, fun e he => Or.inl he, fun d hd => Or.inl hd, ?_⟩
      intro u hu
      rcases List.mem_cons.1 hu with rfl | hu
      · exact Or.inr hc.1
      · exact Or.inl hu
    · cases hs
  | complete t =>
    simp only [Schedule.step] at hs
    split at hs
    · simp only [Option.some.injEq] at hs
      subst hs
      refine ⟨Nat.le_refl _, fun e he => Or.inl he, ?_, fun u hu => Or.inl hu⟩
      intro d hd
      rcases List.mem_cons.1 hd with rfl | hd
      · exact Or.inr rfl
      · exact Or.inl hd
    · cases hs

/-- A sequence of happenings never takes a token back, keeps the recorded edges of the tokens
handed out before, and marks complete only tokens whose completion is in the sequence. -/
theorem Schedule.exec_spec (hs : List Happening) :
    ∀ {s s1 : Schedule}, s.exec hs = some s1 →
      s.calls.1.next ≤ s1.calls.1.next ∧
      (∀ e ∈ s1.calls.1.edges, e ∈ s.calls.1.edges ∨ s.calls.1.next ≤ e.1) ∧
      (∀ d ∈ s1.completed, d ∈ s.completed ∨ Happening.complete d ∈ hs) := by
  induction hs with
  | nil =>
    intro s s1 h
    simp only [Schedule.exec, Option.some.injEq] at h
    subst h
    exact ⟨Nat.le_refl _, fun e he => Or.inl he, fun d hd => Or.inl hd⟩
  | cons h hs ih =>
    intro s s1 hx
    simp only [Schedule.exec] at hx
    cases hstep : s.step h with
    | none => simp [hstep] at hx
    | some s2 =>
      simp only [hstep, Option.some_bind] at hx
      obtain ⟨a1, a2, a3, _⟩ := Schedule.step_spec hstep
      obtain ⟨b1, b2, b3⟩ := ih hx
      refine ⟨Nat.le_trans a1 b1, ?_, ?_⟩
      · intro e he
        rcases b2 e he with h1 | h1
        · exact a2 e h1
        · exact Or.inr (Nat.le_trans a1 h1)
      · intro d hd
        rcases b3 d hd with h1 | h1
        · rcases a3 d h1 with h2 | h2
          · exact Or.inl h2
          · exact Or.inr (by rw [h2]; exact List.mem_cons_self _ _)
        · exact Or.inr (List.mem_cons_of_mem _ h1)

/-- Executing a sequence in two parts. -/
theorem Schedule.exec_append (s : Schedule) (a b : List Happening) :
    s.exec (a ++ b) = (s.exec a).bind fun s1 => s1.exec b := by
  induction a generalizing s with
  | nil => simp [Schedule.exec]
  | cons h hs ih =>
    simp only [List.cons_append, Schedule.exec]
    cases s.step h with
    | none => rfl
    | some s2 => simp [ih]

/-- On a queue that started fresh, edges start at tokens handed out, and so did every
operation that began executing. -/
theorem Schedule.exec_initial_lt (hs : List Happening) :
    ∀ {s : Schedule}, Schedule.initial.exec hs = some s →
      (∀ e ∈ s.calls.1.edges, e.1 < s.calls.1.next) ∧
      (∀ t ∈ s.started, t < s.calls.1.next) := by
  induction hs using List.reverseRecOn with
  | nil =>
    intro s h
    simp only [Schedule.exec, Option.some.injEq] at h
    subst h
    exact ⟨fun e he => by simp [Schedule.initial] at he,
      fun t ht => by simp [Schedule.initial] at ht⟩
  | append_singleton hs h ih =>
    intro s hx
    rw [Schedule.exec_append] at hx
    cases h0 : Schedule.initial.exec hs with
    | none => simp [h0] at hx
    | some s0 =>
      simp only [h0, Option.some_bind, Schedule.exec] at hx
      cases hstep : s0.step h with
      | none => simp [hstep] at hx
      | some s2 =>
        simp only [hstep, Option.some_bind, Option.some.injEq] at hx
        subst hx
        obtain ⟨i1, i2⟩ := ih h0
        obtain ⟨a1, a2, _, a4⟩ := Schedule.step_spec hstep
        refine ⟨?_, ?_⟩
        · intro e he
          cases h with
          | call picks =>
            simp only [Schedule.step, Option.some.injEq] at hstep
            subst hstep
            rw [(callStep_queue s0.calls picks).1]
            rcases (callStep_queue s0.calls picks).2 e he with h1 | h1
            · exact Nat.lt_succ_of_lt (i1 e h1)
            · rw [h1]; exact Nat.lt_succ_self _
          | start t =>
            rcases a2 e he with h1 | h1
            · exact Nat.lt_of_lt_of_le (i1 e h1) a1
            · simp only [Schedule.step] at hstep
              split at hstep
              · simp only [Option.some.injEq] at hstep
                subst hstep
                exact i1 e he
              · cases hstep
          | complete t =>
            simp only [Schedule.step] at hstep
            split at hstep
            · simp only [Option.some.injEq] at hstep
              subst hstep
              exact i1 e he
            · cases hstep
        · intro t ht
          rcases a4 t ht with h1 | h1
          · exact Nat.lt_of_lt_of_le (i2 t h1) a1
          · exact Nat.lt_of_lt_of_le h1 a1

/-- The bookkeeping after a history is that of its calls, made in order. -/
theorem Schedule.exec_calls (hs : List Happening) :
    ∀ {s s1 : Schedule}, s.exec hs = some s1 →
      s1.calls = (callsOf hs).foldl callStep s.calls := by
  induction hs with
  | nil =>
    intro s s1 h
    simp only [Schedule.exec, Option.some.injEq] at h
    subst h
    rfl
  | cons h hs ih =>
    intro s s1 hx
    simp only [Schedule.exec] at hx
    cases hstep : s.step h with
    | none => simp [hstep] at hx
    | some s2 =>
      simp only [hstep, Option.some_bind] at hx
      have h2 := ih hx
      cases h with
      | call picks =>
        simp only [Schedule.step, Option.some.injEq] at hstep
        subst hstep
        simpa [callsOf] using h2
      | start t =>
        simp only [Schedule.step] at hstep
        split at hstep
        · simp only [Option.some.injEq] at hstep
          subst hstep
          simpa [callsOf] using h2
        · cases hstep
      | complete t =>
        simp only [Schedule.step] at hstep
        split at hstep
        · simp only [Option.some.injEq] at hstep
          subst hstep
          simpa [callsOf] using h2
        · cases hstep

/-- On a queue that started fresh, the bookkeeping is that of `runCalls` on the calls of the
history. -/
theorem Schedule.exec_initial_calls {hs : List Happening} {s : Schedule}
    (h : Schedule.initial.exec hs = some s) : s.calls = runCalls (callsOf hs) :=
  Schedule.exec_calls hs h

/-- The calls of a history in two parts. -/
theorem callsOf_append (a b : List Happening) : callsOf (a ++ b) = callsOf a ++ callsOf b := by
  induction a with
  | nil => rfl
  | cons h hs ih => cases h <;> simp [callsOf, ih]

/-- C15: on the stub queue, after any history, a raw-pointer call issued with an empty
dependency list may begin executing at once; whenever an operation begins executing, every
token it is recorded to depend on has completed before; and whenever an operation begins
executing, its token was returned by a call made before, and every token that this call named
in its dependency list (by its position among the tokens the caller held) has completed
before. -/
theorem dependencies_complete_before_start :
    (∀ (history : List Happening) (s : Schedule), Schedule.initial.exec history = some s →
      ∃ s1, s.exec [.call [], .start s.calls.1.next] = some s1 ∧
        s.calls.1.next ∈ s1.started) ∧
    (∀ (before after : List Happening) (t : Token) (s : Schedule),
      Schedule.initial.exec (before ++ .start t :: after) = some s →
      ∀ d, s.calls.1.dependsOn t d → Happening.complete d ∈ before) ∧
    (∀ (before after : List Happening) (t : Token) (s : Schedule),
      Schedule.initial.exec (before ++ .start t :: after) = some s →
      ∃ (i : Nat) (picks : List Nat),
        (callsOf before)[i]? = some picks ∧ s.calls.2[i]? = some t ∧
        ∀ a ∈ picks, a < i → ∀ d, s.calls.2[a]? = some d → Happening.complete d ∈ before) := by
  refine ⟨?_, ?_, ?_⟩
  · intro history s h
    obtain ⟨i1, i2⟩ := Schedule.exec_initial_lt history h
    have hrun : (⟨callStep s.calls [], s.started, s.completed⟩ : Schedule).runnable
        s.calls.1.next = true := by
      simp only [Schedule.runnable, callStep, StubQueue.submit, List.filterMap_nil,
        List.map_nil, List.append_nil, List.all_eq_true, Bool.or_eq_true, bne_iff_ne]
      intro e he
      exact Or.inl (Nat.ne_of_lt (i1 e he))
    have hns : s.calls.1.next ∉ s.started := fun hm => Nat.lt_irrefl _ (i2 _ hm)
    refine ⟨⟨callStep s.calls [], s.calls.1.next :: s.started, s.completed⟩, ?_, ?_⟩
    · simp only [Schedule.exec, Schedule.step, Option.some_bind]
      rw [if_pos ⟨by rw [(callStep_queue s.calls []).1]; exact Nat.lt_succ_self _, hns, hrun⟩]
      rfl
    · exact List.mem_cons_self _ _
  · intro before after t s h d hd
    rw [Schedule.exec_append] at h
    cases h0 : Schedule.initial.exec before with
    | none => simp [h0] at h
    | some s0 =>
      simp only [h0, Option.some_bind, Schedule.exec] at h
      cases hstep : s0.step (.start t) with
      | none => simp [hstep] at h
      | some s2 =>
        simp only [hstep, Option.some_bind] at h
        obtain ⟨_, b2, _⟩ := Schedule.exec_spec after h
        simp only [Schedule.step] at hstep
        split at hstep
        · rename_i hc
          simp only [Option.some.injEq] at hstep
          subst hstep
          rcases b2 (t, d) hd with h1 | h1
          · have hr := hc.2.2
            simp only [Schedule.runnable, List.all_eq_true, Bool.or_eq_true, bne_iff_ne,
              List.contains_iff_exists_mem_beq, beq_iff_eq] at hr
            rcases hr (t, d) h1 with h2 | h2
            · exact absurd rfl h2
            · obtain ⟨_, _, c3⟩ := Schedule.exec_spec before h0
              obtain ⟨d1, hd1, hd2⟩ := h2
              have hmem : d ∈ s0.completed := by
                have hd3 : d = d1 := hd2
                rw [hd3]; exact hd1
              rcases c3 d hmem with h3 | h3
              · simp [Schedule.initial] at h3
              · exact h3
          · exact absurd hc.1 (Nat.not_lt.2 h1)
        · cases hstep
  · intro before after t s h
    have hfinal := Schedule.exec_initial_calls h
    rw [Schedule.exec_append] at h
    cases h0 : Schedule.initial.exec before with
    | none => simp [h0] at h
    | some s0 =>
      simp only [h0, Option.some_bind, Schedule.exec] at h
      cases hstep : s0.step (.start t) with
      | none => simp [hstep] at h
      | some s2 =>
        simp only [Schedule.step] at hstep
        split at hstep
        · rename_i hc
          have h0c := Schedule.exec_initial_calls h0
          have hlen : t < (callsOf before).length := by
            have := hc.1
            rw [h0c, (runCalls_tokens (callsOf before)).1] at this
            exact this
          have hheld : s.calls.2 =
              List.range (callsOf (before ++ Happening.start t :: after)).length := by
            rw [hfinal]; exact (runCalls_tokens _).2
          have hlen2 : (callsOf before).length ≤
              (callsOf (before ++ Happening.start t :: after)).length := by
            rw [callsOf_append, List.length_append]; exact Nat.le_add_right _ _
          refine ⟨t, (callsOf before)[t], List.getElem?_eq_getElem hlen, ?_, ?_⟩
          · rw [hheld]; exact List.getElem?_range (Nat.lt_of_lt_of_le hlen hlen2)
          · intro a ha hat d hd
            rw [hheld, List.getElem?_range
              (Nat.lt_of_lt_of_le (Nat.lt_trans hat hlen) hlen2)] at hd
            have hda : a = d := Option.some.inj hd
            subst hda
            have hedge : (t, a) ∈ s0.calls.1.edges := by
              rw [h0c]
              exact runCalls_edge_of_pick (callsOf before) a t _
                (List.getElem?_eq_getElem hlen) ha hat
            have hr := hc.2.2
            simp only [Schedule.runnable, List.all_eq_true, Bool.or_eq_true, bne_iff_ne,
              List.contains_iff_exists_mem_beq, beq_iff_eq] at hr
            rcases hr (t, a) hedge with h2 | h2
            · exact absurd rfl h2
            · obtain ⟨_, _, c3⟩ := Schedule.exec_spec before h0
              obtain ⟨d1, hd1, hd2⟩ := h2
              have hmem : a ∈ s0.completed := by
                have hd3 : a = d1 := hd2
                rw [hd3]; exact hd1
              rcases c3 a hmem with h3 | h3
              · simp [Schedule.initial] at h3
              · exact h3
        · cases hstep

/-- Witness of C15: two calls, the second listing the token of the first; the first operation
begins and completes, then the second begins.  Without the completion of the first, the
queue does not let the second begin. -/
theorem dependencies_complete_before_start_witness :
    Schedule.initial.exec ([.call [], .call [0], .start 0, .complete 0] ++
        .start 1 :: [.complete 1]) = some ⟨(⟨2, [(1, 0)]⟩, [0, 1]), [1, 0], [1, 0]⟩ ∧
      Schedule.initial.exec [.call [], .call [0], .start 1] = none ∧
      Schedule.initial.exec [.call [], .call [0], .start 0, .start 1] = none ∧
      (⟨2, [(1, 0)]⟩ : StubQueue).dependsOn 1 0 ∧
      Happening.complete 0 ∈ [Happening.call [], .call [0], .start 0, .complete 0] :=
  ⟨by decide, by decide, by decide, by decide,
    dependencies_complete_before_start.2.1 [.call [], .call [0], .start 0, .complete 0]
      [.complete 1] 1 ⟨(⟨2, [(1, 0)]⟩, [0, 1]), [1, 0], [1, 0]⟩ (by decide) 0 (by decide)⟩

/-! ## The USM unit tests -/

/-- C18: in each of the three USM tests, when the guarded statements throw an
`onemkl::backend_unsupported_exception` (an exception that is not a `cl::sycl::exception`, whose
handler comes first), `test` returns `test_skipped` and no step of it compares the output with
the reference; as `test_skipped` is neither 0 nor 1, the value returned is neither the value
of a failed nor that of a passed comparison. -/
theorem unsupported_is_skipped (outer_dimension inner_dimension : transpose → Int → Int → Int)
    (c : Collaborators) (e : Thrown) (hthrow : c.outcome = .threw e)
    (hunsupported : e.isBackendUnsupported = true) (hsycl : e.isSyclException = false)
    (hskip : c.test_skipped ≠ 0 ∧ c.test_skipped ≠ 1)
    (transa : transpose) (upper_lower : uplo) (left_right : side) (unit_nonunit : diag)
    (m n k incx incy lda ldb : Int) :
    ((gemv_usm.test outer_dimension inner_dimension c transa m n incx incy lda).ending =
        .returned c.test_skipped ∧
      (gemv_usm.test outer_dimension inner_dimension c transa m n incx incy lda).steps.all
        (fun s => !s.isComparison) = true) ∧
    ((sbmv_usm.test c upper_lower n k incx incy lda).ending = .returned c.test_skipped ∧
      (sbmv_usm.test c upper_lower n k incx incy lda).steps.all
        (fun s => !s.isComparison) = true) ∧
    ((trsm_usm.test c left_right upper_lower transa unit_nonunit m n lda ldb).ending =
        .returned c.test_skipped ∧
      (trsm_usm.test c left_right upper_lower transa unit_nonunit m n lda ldb).steps.all
        (fun s => !s.isComparison) = true) ∧
    Ending.returned c.test_skipped ≠ .returned 0 ∧
    Ending.returned c.test_skipped ≠ .returned 1 := by
  refine ⟨?_, ?_, ?_, ?_, ?_⟩
  · simp [gemv_usm.test, hthrow, hunsupported, hsycl, Step.isComparison]
  · simp [sbmv_usm.test, hthrow, hunsupported, hsycl, Step.isComparison]
  · constructor
    · simp [trsm_usm.test, hthrow, hunsupported, hsycl]
    · by_cases h : left_right = .right <;>
        simp [trsm_usm.test, hthrow, hunsupported, hsycl, Step.isComparison, h]
  · intro h; exact hskip.1 (Ending.returned.inj h)
  · intro h; exact hskip.2 (Ending.returned.inj h)

/-- Witness of C18: the first single-precision case of each test, with `test_skipped` = 2 and
a routed call that throws `onemkl::backend_unsupported_exception`. -/
theorem unsupported_is_skipped_witness :
    (gemv_usm.test (fun _ _ n => n) (fun _ m _ => m)
        ⟨2, .threw ⟨false, true, true, "not supported"⟩, true⟩
        .nontrans 25 30 2 3 42).ending = .returned 2 ∧
      (sbmv_usm.test ⟨2, .threw ⟨false, true, true, "not supported"⟩, true⟩
        .lower 30 5 2 3 42).ending = .returned 2 ∧
      (trsm_usm.test ⟨2, .threw ⟨false, true, true, "not supported"⟩, true⟩
        .left .lower .nontrans .unit 25 30 42 102).ending = .returned 2 :=
  have h := unsupported_is_skipped (fun _ _ n => n) (fun _ m _ => m)
    ⟨2, .threw ⟨false, true, true, "not supported"⟩, true⟩ ⟨false, true, true, "not supported"⟩
    rfl rfl rfl (by decide) .nontrans .lower .left .unit 25 30 5 2 3 42 102
  ⟨h.1.1, h.2.1.1, h.2.2.1.1⟩

/-- When the guarded statements return, or throw a `cl::sycl::exception`, or throw a
`std::runtime_error` that is not an `onemkl::backend_unsupported_exception`: the ending of each
test, the number of its comparisons, and its steps apart from what a handler prints. -/
theorem completed_call_endings
    (outer_dimension inner_dimension : transpose → Int → Int → Int) (c : Collaborators)
    (h : c.outcome = .returned ∨ ∃ e, c.outcome = .threw e ∧
      (e.isSyclException = true ∨ (e.isRuntimeError = true ∧ e.isBackendUnsupported = false)))
    (hskip : c.test_skipped ≠ 0 ∧ c.test_skipped ≠ 1)
    (transa : transpose) (upper_lower : uplo) (left_right : side) (unit_nonunit : diag)
    (m n k incx incy lda ldb : Int) :
    (∀ r ∈ [gemv_usm.test outer_dimension inner_dimension c transa m n incx incy lda,
            sbmv_usm.test c upper_lower n k incx incy lda,
            trsm_usm.test c left_right upper_lower transa unit_nonunit m n lda ldb],
      r.ending = .returned (if c.good then 1 else 0) ∧
      r.ending ≠ .returned c.test_skipped ∧
      (r.steps.filter fun s => s.isComparison).length = 1) ∧
    (gemv_usm.test outer_dimension inner_dimension c transa m n incx incy lda).steps.filter
        (fun s => !s.isPrint) =
      (gemv_usm.test outer_dimension inner_dimension ⟨c.test_skipped, .returned, c.good⟩
        transa m n incx incy lda).steps ∧
    (sbmv_usm.test c upper_lower n k incx incy lda).steps.filter (fun s => !s.isPrint) =
      (sbmv_usm.test ⟨c.test_skipped, .returned, c.good⟩ upper_lower n k incx incy lda).steps ∧
    (trsm_usm.test c left_right upper_lower transa unit_nonunit m n lda ldb).steps.filter
        (fun s => !s.isPrint) =
      (trsm_usm.test ⟨c.test_skipped, .returned, c.good⟩ left_right upper_lower transa
        unit_nonunit m n lda ldb).steps := by
  have hne : Ending.returned (if c.good then 1 else 0) ≠ .returned c.test_skipped := by
    intro hr
    have := Ending.returned.inj hr
    cases hg : c.good <;> simp [hg] at this
    · exact hskip.1 this.symm
    · exact hskip.2 this.symm
  rcases h with h | ⟨e, h, he⟩
  · refine ⟨?_, ?_, ?_, ?_⟩
    · intro r hr
      simp only [List.mem_cons, List.mem_singleton, List.not_mem_nil, or_false] at hr
      rcases hr with rfl | rfl | rfl
      · simp [gemv_usm.test, h, hne, Step.isComparison]
      · simp [sbmv_usm.test, h, hne, Step.isComparison]
      · by_cases hs : left_right = side.right <;>
          simp [trsm_usm.test, h, hne, Step.isComparison, hs]
    · simp [gemv_usm.test, h, Step.isPrint]
    · simp [sbmv_usm.test, h, Step.isPrint]
    · by_cases hs : left_right = side.right <;> simp [trsm_usm.test, h, Step.isPrint, hs]
  · by_cases hsy : e.isSyclException = true
    · refine ⟨?_, ?_, ?_, ?_⟩
      · intro r hr
        simp only [List.mem_cons, List.mem_singleton, List.not_mem_nil, or_false] at hr
        rcases hr with rfl | rfl | rfl
        · simp [gemv_usm.test, h, hsy, hne, Step.isComparison]
        · simp [sbmv_usm.test, h, hsy, hne, Step.isComparison]
        · by_cases hs : left_right = side.right <;>
            simp [trsm_usm.test, h, hsy, hne, Step.isComparison, hs]
      · simp [gemv_usm.test, h, hsy, Step.isPrint]
      · simp [sbmv_usm.test, h, hsy, Step.isPrint]
      · by_cases hs : left_right = side.right <;>
          simp [trsm_usm.test, h, hsy, Step.isPrint, hs]
    · have hrt : e.isRuntimeError = true ∧ e.isBackendUnsupported = false := by
        rcases he with he | he
        · exact absurd he hsy
        · exact he
      refine ⟨?_, ?_, ?_, ?_⟩
      · intro r hr
        simp only [List.mem_cons, List.mem_singleton, List.not_mem_nil, or_false] at hr
        rcases hr with rfl | rfl | rfl
        · simp [gemv_usm.test, h, hsy, hrt.1, hrt.2, hne, Step.isComparison]
        · simp [sbmv_usm.test, h, hsy, hrt.1, hrt.2, hne, Step.isComparison]
        · by_cases hs : left_right = side.right <;>
            simp [trsm_usm.test, h, hsy, hrt.1, hrt.2, hne, Step.isComparison, hs]
      · simp [gemv_usm.test, h, hsy, hrt.1, hrt.2, Step.isPrint]
      · simp [sbmv_usm.test, h, hsy, hrt.1, hrt.2, Step.isPrint]
      · by_cases hs : left_right = side.right <;>
          simp [trsm_usm.test, h, hsy, hrt.1, hrt.2, Step.isPrint, hs]

/-- What the handlers print when the guarded statements return, or throw a
`cl::sycl::exception`, or throw a `std::runtime_error` that is not an
`onemkl::backend_unsupported_exception`: every step of each test, in order. -/
theorem completed_call_steps
    (outer_dimension inner_dimension : transpose → Int → Int → Int) (c : Collaborators)
    (h : c.outcome = .returned ∨ ∃ e, c.outcome = .threw e ∧
      (e.isSyclException = true ∨ (e.isRuntimeError = true ∧ e.isBackendUnsupported = false)))
    (transa : transpose) (upper_lower : uplo) (left_right : side) (unit_nonunit : diag)
    (m n k incx incy lda ldb : Int) :
    (gemv_usm.test outer_dimension inner_dimension c transa m n incx incy lda).steps =
      [.rand_vector "x" (outer_dimension transa m n) incx,
       .rand_vector "y" (inner_dimension transa m n) incy,
       .rand_matrix "A" .nontrans m n lda,
       .copy "y_ref" "y",
       .reference "gemv" [.trans transa, .int m, .int n, .scalar "alpha", .data "A", .int lda,
         .data "x", .int incx, .scalar "beta", .data "y_ref", .int incy],
       .routed "gemv" [.queue, .trans transa, .int m, .int n, .scalar "alpha", .data "A",
         .int lda, .data "x", .int incx, .scalar "beta", .data "y", .int incy,
         .dependencies []]] ++
      (match c.outcome with
        | .returned => []
        | .threw e =>
          [.print (if e.isSyclException = true
            then "Caught synchronous SYCL exception during GEMV:"
            else "Error raised during execution of GEMV:") e.what]) ++
      [.check_equal_vector "y" "y_ref" (inner_dimension transa m n) incy (max m n)] ∧
    (sbmv_usm.test c upper_lower n k incx incy lda).steps =
      [.rand_vector "x" n incx,
       .rand_vector "y" n incy,
       .rand_matrix "A" .nontrans n n lda,
       .copy "y_ref" "y",
       .reference "sbmv" [.uplo upper_lower, .int n, .int k, .scalar "alpha", .data "A",
         .int lda, .data "x", .int incx, .scalar "beta", .data "y_ref", .int incy],
       .routed "sbmv" [.queue, .uplo upper_lower, .int n, .int k, .scalar "alpha", .data "A",
         .int lda, .data "x", .int incx, .scalar "beta", .data "y", .int incy,
         .dependencies []]] ++
      (match c.outcome with
        | .returned => []
        | .threw e =>
          [.print (if e.isSyclException = true
            then "Caught synchronous SYCL exception during SBMV:"
            else "Error raised during execution of SBMV:") e.what]) ++
      [.check_equal_vector "y" "y_ref" n incy n] ∧
    (trsm_usm.test c left_right upper_lower transa unit_nonunit m n lda ldb).steps =
      [.rand_trsm_matrix "A" transa (if left_right = .right then n else m)
          (if left_right = .right then n else m) lda,
       .rand_matrix "B" .nontrans m n ldb,
       .copy "B_ref" "B",
       .reference "trsm" [.side left_right, .uplo upper_lower, .trans transa,
         .diag unit_nonunit, .int m, .int n, .scalar "alpha", .data "A", .int lda,
         .data "B_ref", .int ldb],
       .routed "trsm" [.queue, .side left_right, .uplo upper_lower, .trans transa,
         .diag unit_nonunit, .int m, .int n, .scalar "alpha", .data "A", .int lda, .data "B",
         .int ldb, .dependencies []]] ++
      (match c.outcome with
        | .returned => []
        | .threw e =>
          [.print (if e.isSyclException = true
            then "Caught synchronous SYCL exception during TRSM:"
            else "Error raised during execution of TRSM:") e.what]) ++
      [.check_equal_trsm_matrix "B" "B_ref" m n ldb (10 * max m n)] := by
  have hA : (if left_right = side.right then Step.rand_trsm_matrix "A" transa n n lda
      else Step.rand_trsm_matrix "A" transa m m lda) =
      Step.rand_trsm_matrix "A" transa (if left_right = .right then n else m)
        (if left_right = .right then n else m) lda := by
    by_cases hs : left_right = side.right <;> simp [hs]
  rcases h with h | ⟨e, h, he⟩
  · refine ⟨?_, ?_, ?_⟩
    · simp [gemv_usm.test, h]
    · simp [sbmv_usm.test, h]
    · simp [trsm_usm.test, h, hA]
  · by_cases hsy : e.isSyclException = true
    · refine ⟨?_, ?_, ?_⟩
      · simp [gemv_usm.test, h, hsy]
      · simp [sbmv_usm.test, h, hsy]
      · simp [trsm_usm.test, h, hsy, hA]
    · have hrt : e.isRuntimeError = true ∧ e.isBackendUnsupported = false := by
        rcases he with he | he
        · exact absurd he hsy
        · exact he
      refine ⟨?_, ?_, ?_⟩
      · simp [gemv_usm.test, h, hsy, hrt.1, hrt.2]
      · simp [sbmv_usm.test, h, hsy, hrt.1, hrt.2]
      · simp [trsm_usm.test, h, hsy, hrt.1, hrt.2, hA]

/-- C19: in each of the three USM tests, when the guarded statements return, or throw a
`cl::sycl::exception`, or throw a `std::runtime_error` that is not an
`onemkl::backend_unsupported_exception`, no exception leaves `test`; the value returned is 1
when the comparison answers that output and reference are equal and 0 otherwise, hence (as
`test_skipped` is neither) not `test_skipped`; the comparison is made exactly once; apart
from what a handler prints, the steps are those of a run in which the statements returned;
and the steps are exactly: the preparation, the reference call, the routed call, then (only
when an exception was thrown) one line printed by the handler, with the text of the handler
that caught it and the `what()` of the exception, then the comparison. -/
theorem completed_call_is_compared
    (outer_dimension inner_dimension : transpose → Int → Int → Int) (c : Collaborators)
    (h : c.outcome = .returned ∨ ∃ e, c.outcome = .threw e ∧
      (e.isSyclException = true ∨ (e.isRuntimeError = true ∧ e.isBackendUnsupported = false)))
    (hskip : c.test_skipped ≠ 0 ∧ c.test_skipped ≠ 1)
    (transa : transpose) (upper_lower : uplo) (left_right : side) (unit_nonunit : diag)
    (m n k incx incy lda ldb : Int) :
    (∀ r ∈ [gemv_usm.test outer_dimension inner_dimension c transa m n incx incy lda,
            sbmv_usm.test c upper_lower n k incx incy lda,
            trsm_usm.test c left_right upper_lower transa unit_nonunit m n lda ldb],
      r.ending = .returned (if c.good then 1 else 0) ∧
      r.ending ≠ .returned c.test_skipped ∧
      (r.steps.filter fun s => s.isComparison).length = 1) ∧
    (gemv_usm.test outer_dimension inner_dimension c transa m n incx incy lda).steps.filter
        (fun s => !s.isPrint) =
      (gemv_usm.test outer_dimension inner_dimension ⟨c.test_skipped, .returned, c.good⟩
        transa m n incx incy lda).steps ∧
    (sbmv_usm.test c upper_lower n k incx incy lda).steps.filter (fun s => !s.isPrint) =
      (sbmv_usm.test ⟨c.test_skipped, .returned, c.good⟩ upper_lower n k incx incy lda).steps ∧
    (trsm_usm.test c left_right upper_lower transa unit_nonunit m n lda ldb).steps.filter
        (fun s => !s.isPrint) =
      (trsm_usm.test ⟨c.test_skipped, .returned, c.good⟩ left_right upper_lower transa
        unit_nonunit m n lda ldb).steps ∧
    (gemv_usm.test outer_dimension inner_dimension c transa m n incx incy lda).steps =
      [.rand_vector "x" (outer_dimension transa m n) incx,
       .rand_vector "y" (inner_dimension transa m n) incy,
       .rand_matrix "A" .nontrans m n lda,
       .copy "y_ref" "y",
       .reference "gemv" [.trans transa, .int m, .int n, .scalar "alpha", .data "A", .int lda,
         .data "x", .int incx, .scalar "beta", .data "y_ref", .int incy],
       .routed "gemv" [.queue, .trans transa, .int m, .int n, .scalar "alpha", .data "A",
         .int lda, .data "x", .int incx, .scalar "beta", .data "y", .int incy,
         .dependencies []]] ++
      (match c.outcome with
        | .returned => []
        | .threw e =>
          [.print (if e.isSyclException = true
            then "Caught synchronous SYCL exception during GEMV:"
            else "Error raised during execution of GEMV:") e.what]) ++
      [.check_equal_vector "y" "y_ref" (inner_dimension transa m n) incy (max m n)] ∧
    (sbmv_usm.test c upper_lower n k incx incy lda).steps =
      [.rand_vector "x" n incx,
       .rand_vector "y" n incy,
       .rand_matrix "A" .nontrans n n lda,
       .copy "y_ref" "y",
       .reference "sbmv" [.uplo upper_lower, .int n, .int k, .scalar "alpha", .data "A",
         .int lda, .data "x", .int incx, .scalar "beta", .data "y_ref", .int incy],
       .routed "sbmv" [.queue, .uplo upper_lower, .int n, .int k, .scalar "alpha", .data "A",
         .int lda, .data "x", .int incx, .scalar "beta", .data "y", .int incy,
         .dependencies []]] ++
      (match c.outcome with
        | .returned => []
        | .threw e =>
          [.print (if e.isSyclException = true
            then "Caught synchronous SYCL exception during SBMV:"
            else "Error raised during execution of SBMV:") e.what]) ++
      [.check_equal_vector "y" "y_ref" n incy n] ∧
    (trsm_usm.test c left_right upper_lower transa unit_nonunit m n lda ldb).steps =
      [.rand_trsm_matrix "A" transa (if left_right = .right then n else m)
          (if left_right = .right then n else m) lda,
       .rand_matrix "B" .nontrans m n ldb,
       .copy "B_ref" "B",
       .reference "trsm" [.side left_right, .uplo upper_lower, .trans transa,
         .diag unit_nonunit, .int m, .int n, .scalar "alpha", .data "A", .int lda,
         .data "B_ref", .int ldb],
       .routed "trsm" [.queue, .side left_right, .uplo upper_lower, .trans transa,
         .diag unit_nonunit, .int m, .int n, .scalar "alpha", .data "A", .int lda, .data "B",
         .int ldb, .dependencies []]] ++
      (match c.outcome with
        | .returned => []
        | .threw e =>
          [.print (if e.isSyclException = true
            then "Caught synchronous SYCL exception during TRSM:"
            else "Error raised during execution of TRSM:") e.what]) ++
      [.check_equal_trsm_matrix "B" "B_ref" m n ldb (10 * max m n)] :=
  have h1 := completed_call_endings outer_dimension inner_dimension c h hskip transa
    upper_lower left_right unit_nonunit m n k incx incy lda ldb
  have h2 := completed_call_steps outer_dimension inner_dimension c h transa
    upper_lower left_right unit_nonunit m n k incx incy lda ldb
  ⟨h1.1, h1.2.1, h1.2.2.1, h1.2.2.2, h2.1, h2.2.1, h2.2.2⟩

/-- Witness of C19: a `trsm` case with `test_skipped` = 2, a routed call that throws a
`cl::sycl::exception` and a comparison that finds a difference: `test` returns 0, and its
steps are the preparation, the reference call, the routed call, the line printed by the first
handler and the comparison. -/
theorem completed_call_is_compared_witness :
    (trsm_usm.test ⟨2, .threw ⟨true, false, false, "device lost"⟩, false⟩
        .right .upper .conjtrans .nonunit 72 27 101 102).ending = .returned 0 ∧
      (trsm_usm.test ⟨2, .threw ⟨true, false, false, "device lost"⟩, false⟩
        .right .upper .conjtrans .nonunit 72 27 101 102).steps =
        [.rand_trsm_matrix "A" .conjtrans 27 27 101,
         .rand_matrix "B" .nontrans 72 27 102,
         .copy "B_ref" "B",
         .reference "trsm" [.side .right, .uplo .upper, .trans .conjtrans, .diag .nonunit,
           .int 72, .int 27, .scalar "alpha", .data "A", .int 101, .data "B_ref", .int 102],
         .routed "trsm" [.queue, .side .right, .uplo .upper, .trans .conjtrans,
           .diag .nonunit, .int 72, .int 27, .scalar "alpha", .data "A", .int 101, .data "B",
           .int 102, .dependencies []],
         .print "Caught synchronous SYCL exception during TRSM:" "device lost",
         .check_equal_trsm_matrix "B" "B_ref" 72 27 102 720] :=
  have h := completed_call_is_compared (fun _ _ n => n) (fun _ m _ => m)
    ⟨2, .threw ⟨true, false, false, "device lost"⟩, false⟩
    (Or.inr ⟨⟨true, false, false, "device lost"⟩, rfl, Or.inl rfl⟩) (by decide)
    .conjtrans .upper .right .nonunit 72 27 5 2 3 101 102
  ⟨(h.1 _ (List.mem_cons_of_mem _ (List.mem_cons_of_mem _ (List.mem_singleton.2 rfl)))).1,
    h.2.2.2.2.2.2⟩

/-! ## Precisions and integer parameters -/

set_option maxRecDepth 1000000 in
/-- C21: in each calling convention, for every declaration whose parameter types mention
`float` and neither `half` nor an 8/32-bit integer type, other than `sdsdot`, replacing
`float` by `double` throughout its parameter list gives the parameter list of another
declaration with the same name in the same convention; `sdsdot` has no such declaration. -/
theorem single_implies_double :
    ∀ decls ∈ [bufferAPIs, usmAPIs],
      (∀ d ∈ decls, d.isSinglePrecision = true → d.name ≠ "sdsdot" →
        ∃ e ∈ decls, e ≠ d ∧ e.name = d.name ∧ e.params = d.params.map Param.toDouble) ∧
      (∀ d ∈ decls, d.name = "sdsdot" →
        d.isSinglePrecision = true ∧
          ¬ ∃ e ∈ decls, e.name = d.name ∧ e.params = d.params.map Param.toDouble) := by
  decide!

/-- Witness of C21: replacing `float` by `double` in the mixed-precision raw-pointer `scal`
(`float alpha`, `std::complex<float> *x`) gives the parameter list of another raw-pointer
`scal`. -/
theorem single_implies_double_witness :
    usm.scal.get ⟨4, by decide⟩ ∈ usmAPIs ∧
      ∃ e ∈ usmAPIs, e ≠ usm.scal.get ⟨4, by decide⟩ ∧
        e.name = (usm.scal.get ⟨4, by decide⟩).name ∧
        e.params = (usm.scal.get ⟨4, by decide⟩).params.map Param.toDouble :=
  ⟨by decide, (single_implies_double usmAPIs (by decide)).1 (usm.scal.get ⟨4, by decide⟩)
    (by decide) (by decide) (by decide)⟩

set_option maxRecDepth 1000000 in
/-- C22: every parameter named as a dimension, band width, increment, leading dimension,
stride, group count or batch size has type `std::int64_t`, or `std::int64_t *` in a
pointer-array batch overload; every integer passed by value is such a `std::int64_t`
parameter, or is the `int8_t ao` or the `uint8_t bo` of `gemm_ext`; and `int32_t` is mentioned
only as the element type of a buffer of `gemm_ext`, never as the type of an index. -/
theorem sizes_are_int64 :
    (∀ d ∈ allDecls, ∀ p ∈ d.params, p.name ∈ sizeNames →
      p.type = CType.int64 ∨ (d.isGroup = true ∧ p.type = CType.ptr .int64)) ∧
    (∀ d ∈ allDecls, ∀ p ∈ d.params, p.type.isIntegerScalar = true →
      (p.type = CType.int64 ∧ p.name ∈ sizeNames) ∨
      (d.name = "gemm_ext" ∧ (p = ⟨.int8, "ao", none⟩ ∨ p = ⟨.uint8, "bo", none⟩))) ∧
    (∀ d ∈ allDecls, ∀ p ∈ d.params, p.type.mentionsInt32 = true →
      d.name = "gemm_ext" ∧ p.type = CType.lref (.buffer .int32 1)) := by
  decide!

/-- Witness of C22: the band width `k` of the single-precision raw-pointer `sbmv`. -/
theorem sizes_are_int64_witness :
    usm.sbmv.get ⟨0, by decide⟩ ∈ allDecls ∧
      (⟨.int64, "k", none⟩ : Param) ∈ (usm.sbmv.get ⟨0, by decide⟩).params ∧
      ((⟨.int64, "k", none⟩ : Param).type = CType.int64 ∨
        ((usm.sbmv.get ⟨0, by decide⟩).isGroup = true ∧
          (⟨.int64, "k", none⟩ : Param).type = CType.ptr .int64)) :=
  ⟨by decide, by decide,
    sizes_are_int64.1 (usm.sbmv.get ⟨0, by decide⟩) (by decide) ⟨.int64, "k", none⟩
      (by decide) (by decide)⟩

/-! ## The test cases -/

/-- C23: for all sizes and flags, and whatever the routed call does, the first steps of the
TRSM test are: generate `A` as a square matrix of order `n` when the side is `right` and of
order `m` otherwise, with leading dimension `lda`; generate `B` as an `m` by `n` matrix, not
transposed, with leading dimension `ldb`; copy `B` to `B_ref`; compute the reference on
`B_ref`; and only then make the routed call, on `B`. -/
theorem trsm_operands_sized_from_side (c : Collaborators) (left_right : side)
    (upper_lower : uplo) (transa : transpose) (unit_nonunit : diag) (m n lda ldb : Int) :
    (trsm_usm.test c left_right upper_lower transa unit_nonunit m n lda ldb).steps.take 5 =
      [.rand_trsm_matrix "A" transa (if left_right = .right then n else m)
          (if left_right = .right then n else m) lda,
       .rand_matrix "B" .nontrans m n ldb,
       .copy "B_ref" "B",
       .reference "trsm" [.side left_right, .uplo upper_lower, .trans transa,
         .diag unit_nonunit, .int m, .int n, .scalar "alpha", .data "A", .int lda,
         .data "B_ref", .int ldb],
       .routed "trsm" [.queue, .side left_right, .uplo upper_lower, .trans transa,
         .diag unit_nonunit, .int m, .int n, .scalar "alpha", .data "A", .int lda, .data "B",
         .int ldb, .dependencies []]] := by
  have hA : (if left_right = side.right then Step.rand_trsm_matrix "A" transa n n lda
      else Step.rand_trsm_matrix "A" transa m m lda) =
      Step.rand_trsm_matrix "A" transa (if left_right = .right then n else m)
        (if left_right = .right then n else m) lda := by
    by_cases hs : left_right = side.right <;> simp [hs]
  cases hc : c.outcome with
  | returned => simp [trsm_usm.test, hc, hA]
  | threw e =>
    cases h1 : e.isSyclException <;> cases h2 : e.isBackendUnsupported <;>
      cases h3 : e.isRuntimeError <;> simp [trsm_usm.test, hc, h1, h2, h3, hA]

set_option maxRecDepth 1000000 in
/-- C24: `TrsmUsmTests` covers the flag space: each real-precision test makes 16 calls of
`test`, one for each combination of side, uplo, transpose in nontrans, trans, and diag; each
complex-precision test makes 24 calls, one for each combination with transpose in nontrans,
trans, conjtrans; every call is made with the element type of its test and with m = 72,
n = 27, lda = 101, ldb = 102. -/
theorem trsm_tests_exhaustive :
    (∀ test ∈ [(CType.float, TrsmUsmTests.RealSinglePrecision),
               (CType.double, TrsmUsmTests.RealDoublePrecision)],
      test.2.length = 16 ∧
      ∀ s ∈ [side.left, side.right], ∀ u ∈ [uplo.lower, uplo.upper],
      ∀ t ∈ [transpose.nontrans, transpose.trans], ∀ d ∈ [diag.unit, diag.nonunit],
        trsm_usm.timesCalled test.2 s u t d = 1) ∧
    (∀ test ∈ [(CType.complex .float, TrsmUsmTests.ComplexSinglePrecision),
               (CType.complex .double, TrsmUsmTests.ComplexDoublePrecision)],
      test.2.length = 24 ∧
      ∀ s ∈ [side.left, side.right], ∀ u ∈ [uplo.lower, uplo.upper],
      ∀ t ∈ [transpose.nontrans, transpose.trans, transpose.conjtrans],
      ∀ d ∈ [diag.unit, diag.nonunit],
        trsm_usm.timesCalled test.2 s u t d = 1) ∧
    (∀ test ∈ [(CType.float, TrsmUsmTests.RealSinglePrecision),
               (CType.double, TrsmUsmTests.RealDoublePrecision),
               (CType.complex .float, TrsmUsmTests.ComplexSinglePrecision),
               (CType.complex .double, TrsmUsmTests.ComplexDoublePrecision)],
      ∀ c ∈ test.2, c.fp = test.1 ∧ c.m = 72 ∧ c.n = 27 ∧ c.lda = 101 ∧ c.ldb = 102) := by
  decide

set_option maxRecDepth 1000000 in
/-- Witness of C24: the double-precision test calls `test` once with side right, uplo upper,
transposition and a non-unit diagonal. -/
theorem trsm_tests_exhaustive_witness :
    trsm_usm.timesCalled TrsmUsmTests.RealDoublePrecision .right .upper .trans .nonunit = 1 :=
  (trsm_tests_exhaustive.1 (CType.double, TrsmUsmTests.RealDoublePrecision) (by decide)).2
    .right (by decide) .upper (by decide) .trans (by decide) .nonunit (by decide)

set_option maxRecDepth 1000000 in
/-- C25: every call of the three suites meets the storage preconditions of column-major BLAS:
for gemv, lda ≥ m ≥ 1 and non-zero increments; for sbmv, 0 ≤ k < n, lda ≥ k + 1 and non-zero
increments; for trsm, lda at least the order of A (m for side left, n for side right) and
ldb ≥ m ≥ 1. -/
theorem test_cases_meet_preconditions :
    (∀ c ∈ GemvUsmTests.calls, c.lda ≥ c.m ∧ c.m ≥ 1 ∧ c.incx ≠ 0 ∧ c.incy ≠ 0) ∧
    (∀ c ∈ SbmvUsmTests.calls,
      0 ≤ c.k ∧ c.k < c.n ∧ c.lda ≥ c.k + 1 ∧ c.incx ≠ 0 ∧ c.incy ≠ 0) ∧
    (∀ c ∈ TrsmUsmTests.calls,
      c.lda ≥ (if c.left_right = .left then c.m else c.n) ∧ c.ldb ≥ c.m ∧ c.m ≥ 1) := by
  decide

set_option maxRecDepth 1000000 in
/-- Witness of C25: the first gemv call with negative increments. -/
theorem test_cases_meet_preconditions_witness :
    (⟨.float, .nontrans, 25, 30, "alpha", "beta", -2, -3, 42⟩ : gemv_usm.Invocation) ∈
        GemvUsmTests.calls ∧
      (42 : Int) ≥ 25 ∧ (25 : Int) ≥ 1 ∧ (-2 : Int) ≠ 0 ∧ (-3 : Int) ≠ 0 :=
  ⟨by decide, test_cases_meet_preconditions.1
    ⟨.float, .nontrans, 25, 30, "alpha", "beta", -2, -3, 42⟩ (by decide)⟩

end blas
end onemkl
